import Mathlib

/-!
Effect lifecycle of the "Simple Effects" compositor plugin: a shallow embedding of
`src/compositor/clutter-plugins/moblin.c`.

* The plugin struct `META_COMPOSITOR_CLUTTER_PLUGIN_STRUCT`, the per-actor data attached
  under `ACTOR_DATA_KEY` and the part of the Clutter scene the plugin reads back are the
  fields of one explicit `State`; every C function becomes a function on `State`.
* A C function that can dereference a null pointer returns `Option State`; `none` is the
  crash.
* Calls into Clutter and into the host callback `plugin->completed` are appended, in
  program order, to `State.trace`.
-/

namespace Moblin

/-! ## Values of the external libraries -/

/-- A `ClutterActor *` that is not null.  Window actors are the actors handed to the plugin by
the compositor; groups are the actors returned by `clutter_group_new`. -/
inductive ClutterActor
  | stage
  | window (id : Nat)
  | group (id : Nat)
  | other (id : Nat)
  deriving DecidableEq

/-- Modelled from the spec: the enum `MetaCompWindowType` of the absent header
`compositor-clutter-plugin.h`; the plugin only distinguishes the "normal" kind from all
others. -/
inductive MetaCompWindowType
  | NORMAL
  | DESKTOP
  | DOCK
  | MENU
  | DROP_DOWN_MENU
  | TOOLTIP
  deriving DecidableEq

/-- The two `ClutterGravity` values the plugin uses. -/
inductive ClutterGravity
  | NORTH_WEST
  | CENTER
  deriving DecidableEq

/-- A `gdouble`: a finite value, kept exactly (rounding is abstracted away), or a non-finite
one (an infinity or NaN, as produced by a division by zero). -/
inductive GDouble
  | finite (q : ℚ)
  | nonfinite
  deriving DecidableEq

/-- Conversion `(gdouble) i` of an integer. -/
def GDouble.ofInt (i : Int) : GDouble := .finite i

/-- Product of two `gdouble`s. -/
def GDouble.mul : GDouble → GDouble → GDouble
  | .finite a, .finite b => .finite (a * b)
  | _, _ => .nonfinite

/-- Quotient of two `gdouble`s; dividing by zero gives a non-finite value. -/
def GDouble.div : GDouble → GDouble → GDouble
  | .finite a, .finite b => if b = 0 then .nonfinite else .finite (a / b)
  | _, _ => .nonfinite

/-- Conversion of a `gdouble` to `gint`: truncation toward zero.  The conversion has no defined
value (`none`) for a non-finite argument or one outside the range of `gint`. -/
def GDouble.to_gint : GDouble → Option Int
  | .finite q =>
    if -2147483648 ≤ Int.tdiv q.num q.den ∧ Int.tdiv q.num q.den ≤ 2147483647 then
      some (Int.tdiv q.num q.den)
    else none
  | .nonfinite => none

/-- The C expression `a - b` for `gint a` and `guint b`: by the usual arithmetic conversions
the subtraction is carried out in `guint`, i.e. modulo `2^32`. -/
def guint_sub (a : Int) (b : Nat) : Nat := ((a - (b : Int)) % 4294967296).toNat

/-- The C expression `~k` for a `gulong` (64 bits). -/
def gulong_not (k : Nat) : Nat := 18446744073709551615 - k

/-! ### Event kinds

Modelled from the spec: the six event-kind flags of the absent header
`compositor-clutter-plugin.h`, distinct single bits of a `gulong` mask. -/

/-- Modelled from the spec: flag of the absent header for the minimize kind. -/
def META_COMPOSITOR_CLUTTER_PLUGIN_MINIMIZE : Nat := 1

/-- Modelled from the spec: flag of the absent header for the maximize kind. -/
def META_COMPOSITOR_CLUTTER_PLUGIN_MAXIMIZE : Nat := 2

/-- Modelled from the spec: flag of the absent header for the unmaximize kind. -/
def META_COMPOSITOR_CLUTTER_PLUGIN_UNMAXIMIZE : Nat := 4

/-- Modelled from the spec: flag of the absent header for the map kind. -/
def META_COMPOSITOR_CLUTTER_PLUGIN_MAP : Nat := 8

/-- Modelled from the spec: flag of the absent header for the destroy kind. -/
def META_COMPOSITOR_CLUTTER_PLUGIN_DESTROY : Nat := 16

/-- Modelled from the spec: flag of the absent header for the switch-workspace kind. -/
def META_COMPOSITOR_CLUTTER_PLUGIN_SWITCH_WORKSPACE : Nat := 32

/-- The completion callbacks the plugin registers with `clutter_effect_scale`. -/
inductive ClutterEffectCompleteFunc
  | on_switch_workspace_effect_complete
  | on_minimize_effect_complete
  | on_maximize_effect_complete
  | on_map_effect_complete
  | on_destroy_effect_complete
  deriving DecidableEq

/-- A `ClutterEffectTemplate`: a timeline of the given duration (milliseconds) with the
`CLUTTER_ALPHA_SINE_INC` easing. -/
structure ClutterEffectTemplate where
  duration : Nat
  deriving DecidableEq

/-- One call made by the plugin into Clutter or into the host. -/
inductive Call
  | clutter_group_new (result : ClutterActor)
  | clutter_actor_set_anchor_point (a : ClutterActor) (x y : Int)
  | clutter_actor_set_position (a : ClutterActor) (x y : Int)
  | clutter_actor_set_scale (a : ClutterActor) (sx sy : GDouble)
  | clutter_container_add_actor (container a : ClutterActor)
  | clutter_actor_reparent (a new_parent : ClutterActor)
  | clutter_actor_show_all (a : ClutterActor)
  | clutter_actor_raise_top (a : ClutterActor)
  | clutter_actor_hide (a : ClutterActor)
  | clutter_actor_show (a : ClutterActor)
  | clutter_actor_move_anchor_point_from_gravity (a : ClutterActor) (g : ClutterGravity)
  | clutter_actor_move_anchor_point (a : ClutterActor) (x y : Option Int)
  | clutter_effect_scale (template : ClutterEffectTemplate) (a : ClutterActor)
      (sx sy : GDouble) (cb : Option ClutterEffectCompleteFunc) (result : Nat)
  | clutter_timeline_stop (tml : Option Nat)
  | clutter_actor_destroy (a : Option ClutterActor)
  | completed (actor : Option ClutterActor) (event : Nat)
  deriving DecidableEq

/-! ## Plugin data -/

/-- The struct `PluginPrivate`.  Timelines are identified by the number `clutter_effect_scale`
returned for them; `none` is the null pointer. -/
structure PluginPrivate where
  destroy_effect : ClutterEffectTemplate
  minimize_effect : ClutterEffectTemplate
  maximize_effect : ClutterEffectTemplate
  map_effect : ClutterEffectTemplate
  switch_workspace_effect : ClutterEffectTemplate
  tml_switch_workspace1 : Option Nat
  tml_switch_workspace2 : Option Nat
  actors : Option (List Nat)
  desktop1 : Option ClutterActor
  desktop2 : Option ClutterActor
  debug_mode : Bool
  deriving DecidableEq

/-- The struct `ActorPrivate`. -/
structure ActorPrivate where
  orig_parent : Option ClutterActor
  workspace : Int
  tml_minimize : Option Nat
  tml_maximize : Option Nat
  tml_destroy : Option Nat
  tml_map : Option Nat
  is_minimized : Bool
  is_maximized : Bool
  deriving DecidableEq

/-- The record `g_new0 (ActorPrivate, 1)` creates: all fields zero. -/
def ActorPrivate.zero : ActorPrivate :=
  { orig_parent := none, workspace := 0, tml_minimize := none, tml_maximize := none,
    tml_destroy := none, tml_map := none, is_minimized := false, is_maximized := false }

/-- The whole state the plugin works on.

* `features`, `running`, `completed`, `params`, `screen_width`, `screen_height` and
  `plugin_private` are the members of `META_COMPOSITOR_CLUTTER_PLUGIN_STRUCT` the code uses
  (`running` is declared in the absent header and taken as a signed integer; `completed`
  tells whether the host callback pointer is non-null).
* `actor_data w` is the `ActorPrivate` attached to window actor `w`; a window that has none
  yet carries the zeroed record `get_actor_private` would create for it.
* `parent`, `visible`, `position`, `size` and `workspace_key` are the properties of the window
  actors in the Clutter scene (`workspace_key` is the datum stored under
  `META_COMPOSITOR_CLUTTER_PLUGIN_WORKSPACE_KEY`).
* `groups` and `timelines` count the groups and timelines created so far, and give the
  next fresh ones.
* `trace` lists the calls made so far, oldest first. -/
structure State where
  features : Nat
  running : Int
  completed : Bool
  params : Option String
  screen_width : Int
  screen_height : Int
  plugin_private : Option PluginPrivate
  actor_data : Nat → ActorPrivate
  parent : Nat → Option ClutterActor
  visible : Nat → Bool
  position : Nat → Int × Int
  size : Nat → Nat × Nat
  workspace_key : Nat → Int
  groups : Nat
  timelines : Nat
  trace : List Call

/-! ## The calls into Clutter and into the host -/

/-- Record a call. -/
def State.call (s : State) (c : Call) : State := { s with trace := s.trace ++ [c] }

/-- The accessor `get_actor_private`. -/
def get_actor_private (s : State) (actor : Nat) : ActorPrivate := s.actor_data actor

/-- Assignment through the pointer returned by `get_actor_private`. -/
def set_actor_private (s : State) (actor : Nat) (priv : ActorPrivate) : State :=
  { s with actor_data := Function.update s.actor_data actor priv }

/-- The call `clutter_group_new ()`: a fresh group actor. -/
def clutter_group_new (s : State) : State × ClutterActor :=
  ({ s with groups := s.groups + 1,
            trace := s.trace ++ [Call.clutter_group_new (.group s.groups)] },
   .group s.groups)

/-- The call `clutter_effect_scale`: starts an animation and returns its fresh timeline. -/
def clutter_effect_scale (s : State) (template : ClutterEffectTemplate) (a : ClutterActor)
    (sx sy : GDouble) (cb : Option ClutterEffectCompleteFunc) : State × Nat :=
  ({ s with timelines := s.timelines + 1,
            trace := s.trace ++ [Call.clutter_effect_scale template a sx sy cb s.timelines] },
   s.timelines)

/-- The call `clutter_actor_reparent` on a window actor. -/
def clutter_actor_reparent (s : State) (a : Nat) (new_parent : ClutterActor) : State :=
  { s with parent := Function.update s.parent a (some new_parent),
           trace := s.trace ++ [Call.clutter_actor_reparent (.window a) new_parent] }

/-- The call `clutter_actor_show_all` on a window actor. -/
def clutter_actor_show_all (s : State) (a : Nat) : State :=
  { s with visible := Function.update s.visible a true,
           trace := s.trace ++ [Call.clutter_actor_show_all (.window a)] }

/-- The call `clutter_actor_show` on a window actor. -/
def clutter_actor_show (s : State) (a : Nat) : State :=
  { s with visible := Function.update s.visible a true,
           trace := s.trace ++ [Call.clutter_actor_show (.window a)] }

/-- The call `clutter_actor_hide` on a window actor. -/
def clutter_actor_hide (s : State) (a : Nat) : State :=
  { s with visible := Function.update s.visible a false,
           trace := s.trace ++ [Call.clutter_actor_hide (.window a)] }

/-- The statement `if (plugin->completed) plugin->completed (plugin, actor, event);`. -/
def notify_completed (s : State) (actor : Option ClutterActor) (event : Nat) : State :=
  if s.completed then s.call (Call.completed actor event) else s

/-- The host notifications recorded in a trace, oldest first. -/
def notifications (t : List Call) : List (Option ClutterActor × Nat) :=
  t.filterMap fun c =>
    match c with
    | Call.completed actor event => some (actor, event)
    | _ => none

/-- The animations started in a trace, oldest first: the timeline each
`clutter_effect_scale` call returned. -/
def effect_starts (t : List Call) : List Nat :=
  t.filterMap fun c =>
    match c with
    | Call.clutter_effect_scale _ _ _ _ _ result => some result
    | _ => none

/-! ## The plugin's functions -/

/-- The body of the `while` loop of `on_switch_workspace_effect_complete` for one list
element `a`. -/
def restore_parent (s : State) (a : Nat) : State :=
  match (get_actor_private s a).orig_parent with
  | some p =>
    let s1 := clutter_actor_reparent s a p
    set_actor_private s1 a { get_actor_private s1 a with orig_parent := none }
  | none => s

/-- The function `on_switch_workspace_effect_complete (group, data)`; `data` is the list that
`*((GList**)data)` reads (`none` for a null `data`).  Reading `l->data` of the empty list, or a
field of a null `plugin_private`, is the crash `none`. -/
def on_switch_workspace_effect_complete (s : State) (data : Option (List Nat)) :
    Option State :=
  match data with
  | none => none
  | some [] => none
  | some (actor_for_cb :: rest) =>
    let s1 := (actor_for_cb :: rest).foldl restore_parent s
    match s1.plugin_private with
    | none => none
    | some ppriv =>
      let s2 := s1.call (Call.clutter_actor_destroy ppriv.desktop1)
      let s3 := s2.call (Call.clutter_actor_destroy ppriv.desktop2)
      let cleared : PluginPrivate :=
        { ppriv with actors := none, tml_switch_workspace1 := none,
                     tml_switch_workspace2 := none, desktop1 := none, desktop2 := none }
      let s4 : State := { s3 with plugin_private := some cleared }
      some (notify_completed s4 (some (.window actor_for_cb))
        META_COMPOSITOR_CLUTTER_PLUGIN_SWITCH_WORKSPACE)

/-- The body of the `while` loop of `switch_workspace` for one list element `a`. -/
def switch_workspace_actor (from_ to_ : Int) (group1 group2 : ClutterActor)
    (s : State) (a : Nat) : State :=
  let workspace := s.workspace_key a
  let s1 := set_actor_private s a { get_actor_private s a with workspace := workspace }
  if workspace = to_ ∨ workspace = from_ then
    let s2 := set_actor_private s1 a { get_actor_private s1 a with orig_parent := s1.parent a }
    let s3 := clutter_actor_reparent s2 a (if workspace = to_ then group2 else group1)
    let s4 := clutter_actor_show_all s3 a
    s4.call (Call.clutter_actor_raise_top (.window a))
  else if workspace < 0 then
    set_actor_private s1 a { get_actor_private s1 a with orig_parent := none }
  else
    let s2 := clutter_actor_hide s1 a
    set_actor_private s2 a { get_actor_private s2 a with orig_parent := none }

/-- The opening of `switch_workspace`, up to the test `from == to`: the two groups are
created, `group2` is anchored, placed and scaled to zero, and both are added to the stage.
Returns the state with `group1` and `group2`. -/
def switch_workspace_groups (s : State) : State × ClutterActor × ClutterActor :=
  let (s1, group1) := clutter_group_new s
  let (s2, group2) := clutter_group_new s1
  let s3 := s2.call (Call.clutter_actor_set_anchor_point group2 s2.screen_width s2.screen_height)
  let s4 := s3.call (Call.clutter_actor_set_position group2 s3.screen_width s3.screen_height)
  let s5 := s4.call (Call.clutter_actor_set_scale group2 (.finite 0) (.finite 0))
  let s6 := s5.call (Call.clutter_container_add_actor .stage group2)
  let s7 := s6.call (Call.clutter_container_add_actor .stage group1)
  (s7, group1, group2)

/-- The function `switch_workspace (actors, from, to)`.  The list is walked from its last
element to its first (`g_list_last`, then `l->prev`). -/
def switch_workspace (s : State) (actors : List Nat) (from_ to_ : Int) : Option State :=
  let group1 := (switch_workspace_groups s).2.1
  let group2 := (switch_workspace_groups s).2.2
  let s7 := (switch_workspace_groups s).1
  if from_ = to_ then
    some (notify_completed s7 none META_COMPOSITOR_CLUTTER_PLUGIN_SWITCH_WORKSPACE)
  else
    let s8 := actors.reverse.foldl (switch_workspace_actor from_ to_ group1 group2) s7
    match s8.plugin_private with
    | none => none
    | some ppriv =>
      let (s9, tml2) := clutter_effect_scale s8 ppriv.switch_workspace_effect group2
        (.finite 1) (.finite 1) (some .on_switch_workspace_effect_complete)
      let (s10, tml1) := clutter_effect_scale s9 ppriv.switch_workspace_effect group1
        (.finite 0) (.finite 0) none
      let started : PluginPrivate :=
        { ppriv with actors := some actors, desktop1 := some group1, desktop2 := some group2,
                     tml_switch_workspace2 := some tml2, tml_switch_workspace1 := some tml1 }
      some { s10 with plugin_private := some started }

/-- The function `on_minimize_effect_complete (actor, data)`. -/
def on_minimize_effect_complete (s : State) (actor : Nat) : State :=
  let s1 := set_actor_private s actor { get_actor_private s actor with tml_minimize := none }
  let s2 := clutter_actor_hide s1 actor
  let s3 := s2.call (Call.clutter_actor_set_scale (.window actor) (.finite 1) (.finite 1))
  let s4 := s3.call
    (Call.clutter_actor_move_anchor_point_from_gravity (.window actor) .NORTH_WEST)
  let s5 : State := { s4 with running := s4.running - 1 }
  notify_completed s5 (some (.window actor)) META_COMPOSITOR_CLUTTER_PLUGIN_MINIMIZE

/-- The function `minimize (actor, type, workspace)`. -/
def minimize (s : State) (actor : Nat) (type : MetaCompWindowType) (_workspace : Int) :
    Option State :=
  if type = .NORMAL then
    let s1 := set_actor_private s actor { get_actor_private s actor with is_minimized := true }
    let s2 := s1.call (Call.clutter_actor_move_anchor_point_from_gravity (.window actor) .CENTER)
    let s3 : State := { s2 with running := s2.running + 1 }
    match s3.plugin_private with
    | none => none
    | some priv =>
      let (s4, tml) := clutter_effect_scale s3 priv.minimize_effect (.window actor)
        (.finite 0) (.finite 0) (some .on_minimize_effect_complete)
      some (set_actor_private s4 actor { get_actor_private s4 actor with tml_minimize := some tml })
  else
    some (notify_completed s (some (.window actor)) META_COMPOSITOR_CLUTTER_PLUGIN_MINIMIZE)

/-- The function `on_maximize_effect_complete (actor, data)`. -/
def on_maximize_effect_complete (s : State) (actor : Nat) : State :=
  let s1 := set_actor_private s actor { get_actor_private s actor with tml_maximize := none }
  let s2 := s1.call (Call.clutter_actor_set_scale (.window actor) (.finite 1) (.finite 1))
  let s3 := s2.call
    (Call.clutter_actor_move_anchor_point_from_gravity (.window actor) .NORTH_WEST)
  let s4 : State := { s3 with running := s3.running - 1 }
  notify_completed s4 (some (.window actor)) META_COMPOSITOR_CLUTTER_PLUGIN_MAXIMIZE

/-- The scale factor `(gdouble)end_width / (gdouble) width` of `maximize`. -/
def maximize_scale (end_width : Int) (width : Nat) : GDouble :=
  GDouble.div (.ofInt end_width) (.ofInt width)

/-- The anchor coordinate of `maximize`,
`(gdouble)(x - end_x)*(gdouble)width / ((gdouble)(end_width - width))` assigned to a `gint`,
for `gint x, end_x, end_width` and `guint width`.  The signed difference `x - end_x` is taken
exactly (its overflow is undefined in C); the difference `end_width - width` is unsigned. -/
def maximize_anchor (x end_x : Int) (width : Nat) (end_width : Int) : Option Int :=
  (GDouble.div (GDouble.mul (.ofInt (x - end_x)) (.ofInt width))
    (.ofInt (guint_sub end_width width))).to_gint

/-- The function `maximize (actor, type, workspace, end_x, end_y, end_width, end_height)`. -/
def maximize (s : State) (actor : Nat) (type : MetaCompWindowType) (_workspace : Int)
    (end_x end_y end_width end_height : Int) : Option State :=
  if type = .NORMAL then
    let s1 := set_actor_private s actor { get_actor_private s actor with is_maximized := true }
    let width := (s1.size actor).1
    let height := (s1.size actor).2
    let x := (s1.position actor).1
    let y := (s1.position actor).2
    let scale_x := maximize_scale end_width width
    let scale_y := maximize_scale end_height height
    let anchor_x := maximize_anchor x end_x width end_width
    let anchor_y := maximize_anchor y end_y height end_height
    let s2 := s1.call (Call.clutter_actor_move_anchor_point (.window actor) anchor_x anchor_y)
    match s2.plugin_private with
    | none => none
    | some priv =>
      let (s3, tml) := clutter_effect_scale s2 priv.maximize_effect (.window actor)
        scale_x scale_y (some .on_maximize_effect_complete)
      some (set_actor_private s3 actor { get_actor_private s3 actor with tml_maximize := some tml })
  else
    some (notify_completed s (some (.window actor)) META_COMPOSITOR_CLUTTER_PLUGIN_MAXIMIZE)

/-- The function `unmaximize (actor, type, workspace, end_x, end_y, end_width, end_height)`.
The host callback is called without a null check: with no callback registered the call is
the crash `none`. -/
def unmaximize (s : State) (actor : Nat) (type : MetaCompWindowType) (_workspace : Int)
    (_end_x _end_y _end_width _end_height : Int) : Option State :=
  let s1 :=
    if type = .NORMAL then
      set_actor_private s actor { get_actor_private s actor with is_maximized := false }
    else s
  if s1.completed then
    some (s1.call (Call.completed (some (.window actor))
      META_COMPOSITOR_CLUTTER_PLUGIN_UNMAXIMIZE))
  else none

/-- The function `on_map_effect_complete (actor, data)`. -/
def on_map_effect_complete (s : State) (actor : Nat) : State :=
  let s1 := set_actor_private s actor { get_actor_private s actor with tml_map := none }
  let s2 := s1.call
    (Call.clutter_actor_move_anchor_point_from_gravity (.window actor) .NORTH_WEST)
  let s3 : State := { s2 with running := s2.running - 1 }
  notify_completed s3 (some (.window actor)) META_COMPOSITOR_CLUTTER_PLUGIN_MAP

/-- The function `map (actor, type, workspace)`. -/
def map (s : State) (actor : Nat) (type : MetaCompWindowType) (_workspace : Int) :
    Option State :=
  if type = .NORMAL then
    let s1 := s.call (Call.clutter_actor_move_anchor_point_from_gravity (.window actor) .CENTER)
    let s2 : State := { s1 with running := s1.running + 1 }
    let s3 := s2.call (Call.clutter_actor_set_scale (.window actor) (.finite 0) (.finite 0))
    let s4 := clutter_actor_show s3 actor
    match s4.plugin_private with
    | none => none
    | some priv =>
      let (s5, tml) := clutter_effect_scale s4 priv.map_effect (.window actor)
        (.finite 1) (.finite 1) (some .on_map_effect_complete)
      let s6 := set_actor_private s5 actor { get_actor_private s5 actor with tml_map := some tml }
      some (set_actor_private s6 actor { get_actor_private s6 actor with is_minimized := false })
  else
    some (notify_completed s (some (.window actor)) META_COMPOSITOR_CLUTTER_PLUGIN_MAP)

/-- The function `on_destroy_effect_complete (actor, data)`. -/
def on_destroy_effect_complete (s : State) (actor : Nat) : State :=
  let s1 := set_actor_private s actor { get_actor_private s actor with tml_destroy := none }
  let s2 : State := { s1 with running := s1.running - 1 }
  notify_completed s2 (some (.window actor)) META_COMPOSITOR_CLUTTER_PLUGIN_DESTROY

/-- The function `destroy (actor, type, workspace)`. -/
def destroy (s : State) (actor : Nat) (type : MetaCompWindowType) (_workspace : Int) :
    Option State :=
  if type = .NORMAL then
    let s1 := s.call (Call.clutter_actor_move_anchor_point_from_gravity (.window actor) .CENTER)
    let s2 : State := { s1 with running := s1.running + 1 }
    match s2.plugin_private with
    | none => none
    | some priv =>
      let (s3, tml) := clutter_effect_scale s2 priv.destroy_effect (.window actor)
        (.finite 1) (.finite 0) (some .on_destroy_effect_complete)
      some (set_actor_private s3 actor { get_actor_private s3 actor with tml_destroy := some tml })
  else
    some (notify_completed s (some (.window actor)) META_COMPOSITOR_CLUTTER_PLUGIN_DESTROY)

/-- The per-window part of `kill_effect` (from `apriv = get_actor_private (actor)` to the end
of the function): the four tests, in the order minimize, maximize, map, destroy. -/
def kill_effect_actor (s : State) (actor : Nat) (event : Nat) : State :=
  let s1 :=
    if event &&& META_COMPOSITOR_CLUTTER_PLUGIN_MINIMIZE ≠ 0
        ∧ (get_actor_private s actor).tml_minimize ≠ none then
      on_minimize_effect_complete
        (s.call (Call.clutter_timeline_stop (get_actor_private s actor).tml_minimize)) actor
    else s
  let s2 :=
    if event &&& META_COMPOSITOR_CLUTTER_PLUGIN_MAXIMIZE ≠ 0
        ∧ (get_actor_private s1 actor).tml_maximize ≠ none then
      on_maximize_effect_complete
        (s1.call (Call.clutter_timeline_stop (get_actor_private s1 actor).tml_maximize)) actor
    else s1
  let s3 :=
    if event &&& META_COMPOSITOR_CLUTTER_PLUGIN_MAP ≠ 0
        ∧ (get_actor_private s2 actor).tml_map ≠ none then
      on_map_effect_complete
        (s2.call (Call.clutter_timeline_stop (get_actor_private s2 actor).tml_map)) actor
    else s2
  if event &&& META_COMPOSITOR_CLUTTER_PLUGIN_DESTROY ≠ 0
      ∧ (get_actor_private s3 actor).tml_destroy ≠ none then
    on_destroy_effect_complete
      (s3.call (Call.clutter_timeline_stop (get_actor_private s3 actor).tml_destroy)) actor
  else s3

/-- The workspace-switch part of `kill_effect` up to the test for the early return: entered
when the switch-workspace bit is requested. -/
def kill_effect_switch_workspace (s : State) : Option State :=
  match s.plugin_private with
  | none => none
  | some ppriv =>
    if ppriv.tml_switch_workspace1 ≠ none then
      let s1 := s.call (Call.clutter_timeline_stop ppriv.tml_switch_workspace1)
      let s2 := s1.call (Call.clutter_timeline_stop ppriv.tml_switch_workspace2)
      on_switch_workspace_effect_complete s2 ppriv.actors
    else some s

/-- The function `kill_effect (actor, event)`. -/
def kill_effect (s : State) (actor : Nat) (event : Nat) : Option State :=
  if s.features &&& event = 0 then some s
  else if event &&& META_COMPOSITOR_CLUTTER_PLUGIN_SWITCH_WORKSPACE ≠ 0 then
    match kill_effect_switch_workspace s with
    | none => none
    | some s1 =>
      if event &&& gulong_not META_COMPOSITOR_CLUTTER_PLUGIN_SWITCH_WORKSPACE = 0 then some s1
      else some (kill_effect_actor s1 actor event)
  else some (kill_effect_actor s actor event)

/-! ## Initialisation and reload -/

/-- Whether the string `s` begins with the string `needle`. -/
def starts_with : List Char → List Char → Bool
  | _, [] => true
  | [], _ :: _ => false
  | c :: s, d :: needle => c = d && starts_with s needle

/-- The C function `strstr (haystack, needle)` on strings given as their characters before
the terminating NUL: the rest of `haystack` from the first occurrence of `needle` on, or
`none` (the null pointer) when there is none. -/
def strstr : List Char → List Char → Option (List Char)
  | [], needle => if starts_with [] needle then some [] else none
  | c :: s, needle => if starts_with (c :: s) needle then some (c :: s) else strstr s needle

/-- The statements `p = strchr (d, ';'); if (p) *p = 0;` of `do_init`: the string `d` cut at
its first `;`. -/
def cut_at_semicolon (d : List Char) : List Char := d.takeWhile (fun c => c ≠ ';')

/-- The six tests of `do_init` on the cut string `d`, in source order: each kind whose
token `strstr` finds in `d` is removed from `features` (`features &= ~KIND`). -/
def disable_features (features : Nat) (d : List Char) : Nat :=
  let f1 := if (strstr d "minimize".toList).isSome then
      features &&& gulong_not META_COMPOSITOR_CLUTTER_PLUGIN_MINIMIZE else features
  let f2 := if (strstr d "maximize".toList).isSome then
      f1 &&& gulong_not META_COMPOSITOR_CLUTTER_PLUGIN_MAXIMIZE else f1
  let f3 := if (strstr d "unmaximize".toList).isSome then
      f2 &&& gulong_not META_COMPOSITOR_CLUTTER_PLUGIN_UNMAXIMIZE else f2
  let f4 := if (strstr d "map".toList).isSome then
      f3 &&& gulong_not META_COMPOSITOR_CLUTTER_PLUGIN_MAP else f3
  let f5 := if (strstr d "destroy".toList).isSome then
      f4 &&& gulong_not META_COMPOSITOR_CLUTTER_PLUGIN_DESTROY else f4
  if (strstr d "switch-workspace".toList).isSome then
    f5 &&& gulong_not META_COMPOSITOR_CLUTTER_PLUGIN_SWITCH_WORKSPACE else f5

/-- The part of `do_init` that reads `disable:` from the parameter string: the feature mask
it leaves. -/
def do_init_features (features : Nat) (params : Option (List Char)) : Nat :=
  match params with
  | none => features
  | some params =>
    match strstr params "disable:".toList with
    | none => features
    | some p => disable_features features (cut_at_semicolon (p.drop 8))

/-- The part of `do_init` that reads `debug` from the parameter string. -/
def do_init_debug (params : Option (List Char)) : Bool :=
  match params with
  | none => false
  | some params => (strstr params "debug".toList).isSome

/-- The function `do_init ()`: the new state and the returned `gboolean`.  A fresh
`PluginPrivate` is installed in `plugin_private`; its five templates get the default
durations, doubled in debug mode.  The translation of `plugin->name` is not modelled. -/
def do_init (s : State) : State × Bool :=
  let params := s.params.map String.toList
  let debug := do_init_debug params
  let destroy_timeout := if debug then 250 * 2 else 250
  let minimize_timeout := if debug then 250 * 2 else 250
  let maximize_timeout := if debug then 250 * 2 else 250
  let map_timeout := if debug then 250 * 2 else 250
  let switch_timeout := if debug then 500 * 2 else 500
  let priv : PluginPrivate :=
    { destroy_effect := ⟨destroy_timeout⟩, minimize_effect := ⟨minimize_timeout⟩,
      maximize_effect := ⟨maximize_timeout⟩, map_effect := ⟨map_timeout⟩,
      switch_workspace_effect := ⟨switch_timeout⟩,
      tml_switch_workspace1 := none, tml_switch_workspace2 := none, actors := none,
      desktop1 := none, desktop2 := none, debug_mode := debug }
  ({ s with plugin_private := some priv, features := do_init_features s.features params },
   true)

/-- The function `free_plugin_private (priv)`: the templates of `priv` are released, `priv`
is freed and `plugin_private` is set to null.  A null `priv` is the crash `none`. -/
def free_plugin_private (s : State) (priv : Option PluginPrivate) : Option State :=
  match priv with
  | none => none
  | some _ => some { s with plugin_private := none }

/-- The function `reload ()`: the new state and the returned `gboolean`. -/
def reload (s : State) : Option (State × Bool) :=
  let priv := s.plugin_private
  if (do_init s).2 then
    match free_plugin_private (do_init s).1 priv with
    | none => none
    | some s1 => some (s1, true)
  else
    some ({ (do_init s).1 with plugin_private := priv }, false)

/-! ## Observations -/

/-- The two logical flags `(is_minimized, is_maximized)` of window `v`. -/
def logical_flags (s : State) (v : Nat) : Bool × Bool :=
  ((s.actor_data v).is_minimized, (s.actor_data v).is_maximized)

/-- The feature mask `a` is a subset of the feature mask `b`: every bit set in `a` is set
in `b`. -/
def mask_subset (a b : Nat) : Prop := ∀ i, a.testBit i = true → b.testBit i = true

/-- The state after `n` successive calls of `do_init`. -/
def do_init_times : Nat → State → State
  | 0, s => s
  | n + 1, s => do_init_times n (do_init s).1

/-- The first test of the per-window part of `kill_effect`, for the minimize kind. -/
def kill_effect_minimize (s : State) (actor : Nat) (event : Nat) : State :=
  if event &&& META_COMPOSITOR_CLUTTER_PLUGIN_MINIMIZE ≠ 0
      ∧ (get_actor_private s actor).tml_minimize ≠ none then
    on_minimize_effect_complete
      (s.call (Call.clutter_timeline_stop (get_actor_private s actor).tml_minimize)) actor
  else s

/-- The second test of the per-window part of `kill_effect`, for the maximize kind. -/
def kill_effect_maximize (s : State) (actor : Nat) (event : Nat) : State :=
  if event &&& META_COMPOSITOR_CLUTTER_PLUGIN_MAXIMIZE ≠ 0
      ∧ (get_actor_private s actor).tml_maximize ≠ none then
    on_maximize_effect_complete
      (s.call (Call.clutter_timeline_stop (get_actor_private s actor).tml_maximize)) actor
  else s

/-- The third test of the per-window part of `kill_effect`, for the map kind. -/
def kill_effect_map (s : State) (actor : Nat) (event : Nat) : State :=
  if event &&& META_COMPOSITOR_CLUTTER_PLUGIN_MAP ≠ 0
      ∧ (get_actor_private s actor).tml_map ≠ none then
    on_map_effect_complete
      (s.call (Call.clutter_timeline_stop (get_actor_private s actor).tml_map)) actor
  else s

/-- The fourth test of the per-window part of `kill_effect`, for the destroy kind. -/
def kill_effect_destroy (s : State) (actor : Nat) (event : Nat) : State :=
  if event &&& META_COMPOSITOR_CLUTTER_PLUGIN_DESTROY ≠ 0
      ∧ (get_actor_private s actor).tml_destroy ≠ none then
    on_destroy_effect_complete
      (s.call (Call.clutter_timeline_stop (get_actor_private s actor).tml_destroy)) actor
  else s

/-- The state `u` continues the state `t`: same `plugin_private`, same `features`, same
logical flags of every window, and a trace that extends the trace of `t`. -/
def continues (t u : State) : Prop :=
  u.plugin_private = t.plugin_private ∧ u.features = t.features ∧
  (∀ v, logical_flags u v = logical_flags t v) ∧ ∃ rest, u.trace = t.trace ++ rest

/-- The test `(event & kind) && handle` that `kill_effect` makes for each per-window kind:
the kind is requested and its animation handle is not null. -/
@[reducible] def kill_requested (event kind : Nat) (handle : Option Nat) : Prop :=
  event &&& kind ≠ 0 ∧ handle ≠ none

/-! ## Concrete states -/

/-- The `PluginPrivate` that `do_init` builds when no parameter string is given: the five
templates with their default durations, no workspace switch in progress. -/
def initial_private : PluginPrivate :=
  { destroy_effect := ⟨250⟩, minimize_effect := ⟨250⟩, maximize_effect := ⟨250⟩,
    map_effect := ⟨250⟩, switch_workspace_effect := ⟨500⟩,
    tml_switch_workspace1 := none, tml_switch_workspace2 := none, actors := none,
    desktop1 := none, desktop2 := none, debug_mode := false }

/-- An initialised plugin at rest: all six kinds enabled (`features = 63`), `running = 0`, a
host callback registered, no window with an `ActorPrivate` yet; every window is a visible
child of the stage, at position (10, 10) with size 100 x 100, on workspace 0. -/
def initial_state : State :=
  { features := 63, running := 0, completed := true, params := none,
    screen_width := 1024, screen_height := 768,
    plugin_private := some initial_private,
    actor_data := fun _ => ActorPrivate.zero,
    parent := fun _ => some .stage,
    visible := fun _ => true,
    position := fun _ => (10, 10),
    size := fun _ => (100, 100),
    workspace_key := fun _ => 0,
    groups := 0, timelines := 0, trace := [] }

/-- The state `initial_state` with a maximize animation (timeline 0) in flight on window 0. -/
def maximize_active_state : State :=
  { initial_state with
    timelines := 1
    actor_data := Function.update initial_state.actor_data 0
      { ActorPrivate.zero with tml_maximize := some 0, is_maximized := true } }

/-- The state `maximize_active_state` after the maximize kind has been removed from
`features` (as `disable:maximize` does): `features = 61`. -/
def maximize_disabled_state : State := { maximize_active_state with features := 61 }

/-- The state `initial_state` with no host callback registered. -/
def no_callback_state : State := { initial_state with completed := false }

/-- The state `initial_state` with windows of size 200 x 200. -/
def oversized_window_state : State := { initial_state with size := fun _ => (200, 200) }

/-- The state `initial_state` with every window on workspace 1 and window 1 without a
parent. -/
def unparented_window_state : State :=
  { initial_state with
    workspace_key := fun _ => 1
    parent := fun w => if w = 1 then none else some .stage }

/-- The state `initial_state` with window `w` on workspace `w`. -/
def one_window_per_workspace_state : State :=
  { initial_state with workspace_key := fun w => (w : Int) }

/-- The state `initial_state` with every window sticky (workspace tag -1) and hidden. -/
def sticky_state : State :=
  { initial_state with workspace_key := fun _ => -1, visible := fun _ => false }

/-- The state `initial_state` with the parameter string `disable:minimize;destroy`. -/
def disable_minimize_destroy_state : State :=
  { initial_state with params := some "disable:minimize;destroy" }

/-- The state `maximize_active_state` with only the minimize kind left in `features`
(`features = 1`). -/
def minimize_only_state : State := { maximize_active_state with features := 1 }

/-- The state `initial_state` with every kind removed from `features`. -/
def no_features_state : State := { initial_state with features := 0 }

/-- The state `initial_state` with a minimize animation (timeline 0) in flight on window 0. -/
def minimize_active_state : State :=
  { initial_state with
    running := 1
    timelines := 1
    actor_data := Function.update initial_state.actor_data 0
      { ActorPrivate.zero with tml_minimize := some 0, is_minimized := true } }

/-- The state `initial_state` with the minimize and destroy kinds already removed from
`features` (`features = 46`) and a parameter string without a `disable:` token. -/
def already_disabled_state : State :=
  { initial_state with features := 46, params := some "debug" }

/-- The state `initial_state` after the minimize kind has been removed from `features` (as
`disable:minimize` does): `features = 62`. -/
def minimize_disabled_state : State := { initial_state with features := 62 }

/-- The state `switch_workspace ([0, 1, 2], 0, 1)` returns from
`one_window_per_workspace_state`: a workspace switch is active, window 0 is in the outgoing
group and window 1 in the incoming group. -/
def switch_active_state : State :=
  (switch_workspace one_window_per_workspace_state [0, 1, 2] 0 1).getD
    one_window_per_workspace_state

end Moblin

/-! ## The process entry point (`src/core/mutter.c`) -/

namespace Mutter

/-- The GLib predicate `g_ascii_isspace`: space, tab, line feed, form feed and carriage
return. -/
def g_ascii_isspace (c : Char) : Bool :=
  c = ' ' || c = '\t' || c = '\n' || c = Char.ofNat 12 || c = '\r'

/-- The GLib function `g_strchug`: leading whitespace removed. -/
def g_strchug (s : List Char) : List Char := s.dropWhile g_ascii_isspace

/-- The GLib function `g_strchomp`: trailing whitespace removed. -/
def g_strchomp (s : List Char) : List Char := (s.reverse.dropWhile g_ascii_isspace).reverse

/-- The GLib macro `g_strstrip (s)`, which is `g_strchomp (g_strchug (s))`. -/
def g_strstrip (s : List Char) : List Char := g_strchomp (g_strchug s)

/-- The tokens `g_strsplit` cuts a string into at the delimiter `,`: every comma ends a token
and what follows the last comma is the last token. -/
def g_strsplit_tokens : List Char → List (List Char)
  | [] => [[]]
  | c :: s =>
    if c = ',' then [] :: g_strsplit_tokens s
    else
      match g_strsplit_tokens s with
      | [] => [[c]]
      | t :: ts => (c :: t) :: ts

/-- The GLib call `g_strsplit (string, ",", -1)`: the tokens of `string`, and, as GLib
documents, no token at all for the empty string. -/
def g_strsplit (string : List Char) : List (List Char) :=
  if string = [] then [] else g_strsplit_tokens string

/-- The plugin-loading block of `main`: the arguments of the successive calls
`meta_plugin_manager_load (mgr, *plugin)`, oldest first, for the value `mutter_plugins` left by
the option parser (`none` is the null pointer of an absent `--mutter-plugins`).  The loop
strips each token with `g_strstrip` and loads it. -/
def main (mutter_plugins : Option (List Char)) : List (List Char) :=
  match mutter_plugins with
  | none => []
  | some value =>
    (g_strsplit value).foldl (fun loaded plugin => loaded ++ [g_strstrip plugin]) []

end Mutter

namespace Moblin

/-! ## Theorems -/

/-! ### Traces -/

theorem notifications_append (t u : List Call) :
    notifications (t ++ u) = notifications t ++ notifications u := by
  simp [notifications, List.filterMap_append]

theorem effect_starts_append (t u : List Call) :
    effect_starts (t ++ u) = effect_starts t ++ effect_starts u := by
  simp [effect_starts, List.filterMap_append]

theorem notify_completed_frame (s : State) (actor : Option ClutterActor) (event : Nat) :
    (notify_completed s actor event).parent = s.parent ∧
    (notify_completed s actor event).visible = s.visible ∧
    (notify_completed s actor event).actor_data = s.actor_data ∧
    (notify_completed s actor event).plugin_private = s.plugin_private ∧
    (notify_completed s actor event).running = s.running := by
  unfold notify_completed
  split <;> simp [State.call]

/-! ### The running counter (C1, C2) -/

/-- C1 (fails on the code): from the state at rest (`running = 0`, no handle set), `maximize`
on a NORMAL window followed by the natural completion `on_maximize_effect_complete` leaves
`running = -1` although no animation handle of any kind is set any more: `maximize` never
increments the counter that its completion callback decrements. -/
theorem maximize_completion_drives_running_negative :
    initial_state.running = 0 ∧
    (∀ w, initial_state.actor_data w = ActorPrivate.zero) ∧
    ∃ s1 s2, maximize initial_state 0 .NORMAL 0 0 0 200 150 = some s1 ∧
      s2 = on_maximize_effect_complete s1 0 ∧
      s2.running = -1 ∧
      (∀ w, (s2.actor_data w).tml_minimize = none ∧ (s2.actor_data w).tml_maximize = none ∧
        (s2.actor_data w).tml_map = none ∧ (s2.actor_data w).tml_destroy = none) ∧
      s2.plugin_private.map (fun p => (p.tml_switch_workspace1, p.tml_switch_workspace2))
        = some (none, none) := by
  refine ⟨rfl, fun _ => rfl, _, _, rfl, rfl, by decide, ?_, by decide⟩
  intro w
  by_cases h : w = 0
  · subst h; decide
  · simp [on_maximize_effect_complete, notify_completed, State.call, set_actor_private,
      get_actor_private, clutter_effect_scale, initial_state, Function.update, h,
      ActorPrivate.zero]

/-- C2 (fails on the code): on a NORMAL window of the state at rest, `maximize` stores its
animation handle in `tml_maximize` but leaves `running` at 0, whereas `minimize`, `map` and
`destroy` store their handle and raise `running` to 1. -/
theorem maximize_does_not_increment_running :
    (maximize initial_state 0 .NORMAL 0 0 0 200 150).map
        (fun s => (s.running, (s.actor_data 0).tml_maximize)) = some (0, some 0) ∧
    (minimize initial_state 0 .NORMAL 0).map
        (fun s => (s.running, (s.actor_data 0).tml_minimize)) = some (1, some 0) ∧
    (map initial_state 0 .NORMAL 0).map
        (fun s => (s.running, (s.actor_data 0).tml_map)) = some (1, some 0) ∧
    (destroy initial_state 0 .NORMAL 0).map
        (fun s => (s.running, (s.actor_data 0).tml_destroy)) = some (1, some 0) := by
  decide

/-! ### Killing a maximize animation (C3) -/

theorem kill_effect_maximize_eq (s : State) (w : Nat)
    (hactive : (s.actor_data w).tml_maximize ≠ none)
    (hfeat : s.features &&& META_COMPOSITOR_CLUTTER_PLUGIN_MAXIMIZE ≠ 0) :
    kill_effect s w META_COMPOSITOR_CLUTTER_PLUGIN_MAXIMIZE
      = some (on_maximize_effect_complete
          (s.call (Call.clutter_timeline_stop (s.actor_data w).tml_maximize)) w) := by
  have e1 : META_COMPOSITOR_CLUTTER_PLUGIN_MAXIMIZE &&&
      META_COMPOSITOR_CLUTTER_PLUGIN_SWITCH_WORKSPACE = 0 := by decide
  have e2 : META_COMPOSITOR_CLUTTER_PLUGIN_MAXIMIZE &&&
      META_COMPOSITOR_CLUTTER_PLUGIN_MINIMIZE = 0 := by decide
  have e3 : META_COMPOSITOR_CLUTTER_PLUGIN_MAXIMIZE &&&
      META_COMPOSITOR_CLUTTER_PLUGIN_MAP = 0 := by decide
  have e4 : META_COMPOSITOR_CLUTTER_PLUGIN_MAXIMIZE &&&
      META_COMPOSITOR_CLUTTER_PLUGIN_DESTROY = 0 := by decide
  have e5 : META_COMPOSITOR_CLUTTER_PLUGIN_MAXIMIZE ≠ 0 := by decide
  simp [kill_effect, hfeat, e1, kill_effect_actor, e2, e3, e4, e5, hactive, get_actor_private]

/-- C3, counterexample: in `maximize_disabled_state` a host callback is registered and window 0
has a maximize animation in flight, but the maximize kind is not in `features`; there
`kill_effect (window 0, MAXIMIZE)` returns at its first test and changes nothing: the handle
stays set and the host is not notified. -/
theorem kill_effect_maximize_feature_disabled :
    maximize_disabled_state.completed = true ∧
    (maximize_disabled_state.actor_data 0).tml_maximize = some 0 ∧
    kill_effect maximize_disabled_state 0 META_COMPOSITOR_CLUTTER_PLUGIN_MAXIMIZE
      = some maximize_disabled_state := by
  refine ⟨rfl, by decide, rfl⟩

/-- C3, amended: for every window with an active maximize animation and a registered host
callback, when the maximize kind is in `features`, `kill_effect (window, MAXIMIZE)` returns,
notifies the host exactly once, with `(window, MAXIMIZE)`, and leaves `tml_maximize` null. -/
theorem kill_effect_maximize_notifies_once (s : State) (w : Nat)
    (hcb : s.completed = true)
    (hactive : (s.actor_data w).tml_maximize ≠ none)
    (hfeat : s.features &&& META_COMPOSITOR_CLUTTER_PLUGIN_MAXIMIZE ≠ 0) :
    ∃ s1, kill_effect s w META_COMPOSITOR_CLUTTER_PLUGIN_MAXIMIZE = some s1 ∧
      notifications s1.trace = notifications s.trace ++
        [(some (.window w), META_COMPOSITOR_CLUTTER_PLUGIN_MAXIMIZE)] ∧
      (s1.actor_data w).tml_maximize = none := by
  refine ⟨_, kill_effect_maximize_eq s w hactive hfeat, ?_, ?_⟩
  · simp [on_maximize_effect_complete, notify_completed, hcb, State.call, set_actor_private,
      notifications_append]
    simp [notifications]
  · simp [on_maximize_effect_complete, notify_completed, hcb, State.call, set_actor_private]

/-- C3, witness: the amended statement at `maximize_active_state`, window 0. -/
theorem kill_effect_maximize_notifies_once_witness :
    (maximize_active_state.completed = true ∧
      (maximize_active_state.actor_data 0).tml_maximize ≠ none ∧
      maximize_active_state.features &&& META_COMPOSITOR_CLUTTER_PLUGIN_MAXIMIZE ≠ 0) ∧
    ∃ s1, kill_effect maximize_active_state 0 META_COMPOSITOR_CLUTTER_PLUGIN_MAXIMIZE
        = some s1 ∧
      notifications s1.trace = notifications maximize_active_state.trace ++
        [(some (.window 0), META_COMPOSITOR_CLUTTER_PLUGIN_MAXIMIZE)] ∧
      (s1.actor_data 0).tml_maximize = none :=
  ⟨⟨rfl, by decide, by decide⟩,
   kill_effect_maximize_notifies_once maximize_active_state 0 rfl (by decide) (by decide)⟩

/-! ### Minimize and its completion (C4) -/

theorem kill_effect_minimize_eq (s : State) (w : Nat)
    (hactive : (s.actor_data w).tml_minimize ≠ none)
    (hfeat : s.features &&& META_COMPOSITOR_CLUTTER_PLUGIN_MINIMIZE ≠ 0) :
    kill_effect s w META_COMPOSITOR_CLUTTER_PLUGIN_MINIMIZE
      = some (on_minimize_effect_complete
          (s.call (Call.clutter_timeline_stop (s.actor_data w).tml_minimize)) w) := by
  have e1 : META_COMPOSITOR_CLUTTER_PLUGIN_MINIMIZE &&&
      META_COMPOSITOR_CLUTTER_PLUGIN_SWITCH_WORKSPACE = 0 := by decide
  have e2 : META_COMPOSITOR_CLUTTER_PLUGIN_MINIMIZE &&&
      META_COMPOSITOR_CLUTTER_PLUGIN_MAXIMIZE = 0 := by decide
  have e3 : META_COMPOSITOR_CLUTTER_PLUGIN_MINIMIZE &&&
      META_COMPOSITOR_CLUTTER_PLUGIN_MAP = 0 := by decide
  have e4 : META_COMPOSITOR_CLUTTER_PLUGIN_MINIMIZE &&&
      META_COMPOSITOR_CLUTTER_PLUGIN_DESTROY = 0 := by decide
  have e5 : META_COMPOSITOR_CLUTTER_PLUGIN_MINIMIZE ≠ 0 := by decide
  simp [kill_effect, hfeat, e1, kill_effect_actor, e2, e3, e4, e5, hactive, get_actor_private]

/-! ### Killing nothing (C5) -/

/-- C5: for every state, window and event mask, if no requested per-window kind has a
non-null handle on the window and, when the switch-workspace bit is requested, no workspace
switch is active (`plugin_private` is set and its `tml_switch_workspace1` is null), then
`kill_effect` returns the state it was given: `running`, the handles, the flags, `orig_parent`,
the switch-workspace state and the trace (hence the host notifications) are all unchanged. -/
theorem kill_effect_inactive_is_identity (s : State) (w event : Nat)
    (hmin : event &&& META_COMPOSITOR_CLUTTER_PLUGIN_MINIMIZE ≠ 0 →
      (s.actor_data w).tml_minimize = none)
    (hmax : event &&& META_COMPOSITOR_CLUTTER_PLUGIN_MAXIMIZE ≠ 0 →
      (s.actor_data w).tml_maximize = none)
    (hmap : event &&& META_COMPOSITOR_CLUTTER_PLUGIN_MAP ≠ 0 →
      (s.actor_data w).tml_map = none)
    (hdes : event &&& META_COMPOSITOR_CLUTTER_PLUGIN_DESTROY ≠ 0 →
      (s.actor_data w).tml_destroy = none)
    (hsw : event &&& META_COMPOSITOR_CLUTTER_PLUGIN_SWITCH_WORKSPACE ≠ 0 →
      ∃ pp, s.plugin_private = some pp ∧ pp.tml_switch_workspace1 = none) :
    kill_effect s w event = some s := by
  have hact : kill_effect_actor s w event = s := by
    have h1 : ¬ (event &&& META_COMPOSITOR_CLUTTER_PLUGIN_MINIMIZE ≠ 0
        ∧ (get_actor_private s w).tml_minimize ≠ none) := fun h => h.2 (hmin h.1)
    have h2 : ¬ (event &&& META_COMPOSITOR_CLUTTER_PLUGIN_MAXIMIZE ≠ 0
        ∧ (get_actor_private s w).tml_maximize ≠ none) := fun h => h.2 (hmax h.1)
    have h3 : ¬ (event &&& META_COMPOSITOR_CLUTTER_PLUGIN_MAP ≠ 0
        ∧ (get_actor_private s w).tml_map ≠ none) := fun h => h.2 (hmap h.1)
    have h4 : ¬ (event &&& META_COMPOSITOR_CLUTTER_PLUGIN_DESTROY ≠ 0
        ∧ (get_actor_private s w).tml_destroy ≠ none) := fun h => h.2 (hdes h.1)
    simp only [kill_effect_actor, if_neg h1, if_neg h2, if_neg h3, if_neg h4]
  unfold kill_effect
  by_cases hf : s.features &&& event = 0
  · rw [if_pos hf]
  · rw [if_neg hf]
    by_cases hb : event &&& META_COMPOSITOR_CLUTTER_PLUGIN_SWITCH_WORKSPACE ≠ 0
    · obtain ⟨pp, hpp, html⟩ := hsw hb
      rw [if_pos hb]
      have hk : kill_effect_switch_workspace s = some s := by
        simp [kill_effect_switch_workspace, hpp, html]
      rw [hk]
      simp only [hact]
      split <;> rfl
    · rw [if_neg hb, hact]

/-- C5, witness: the statement at `initial_state`, window 0, with all six kinds requested
(mask 63). -/
theorem kill_effect_inactive_is_identity_witness :
    ((initial_state.actor_data 0).tml_minimize = none ∧
      (initial_state.actor_data 0).tml_maximize = none ∧
      (initial_state.actor_data 0).tml_map = none ∧
      (initial_state.actor_data 0).tml_destroy = none ∧
      initial_state.plugin_private = some initial_private ∧
      initial_private.tml_switch_workspace1 = none) ∧
    kill_effect initial_state 0 63 = some initial_state :=
  ⟨⟨rfl, rfl, rfl, rfl, rfl, rfl⟩,
   kill_effect_inactive_is_identity initial_state 0 63 (fun _ => rfl) (fun _ => rfl)
     (fun _ => rfl) (fun _ => rfl) (fun _ => ⟨initial_private, rfl, rfl⟩)⟩

/-! ### A second animation of the same kind (C6) -/

/-- C6, counterexample: from the state at rest, `minimize` on window 0 starts timeline 0; a
second `minimize` on the same window, issued while `tml_minimize` is non-null, starts a second
animation (timeline 1), replaces the stored handle by it and increments `running` to 2. -/
theorem minimize_twice_replaces_handle :
    (minimize initial_state 0 .NORMAL 0).map
        (fun s => (effect_starts s.trace, (s.actor_data 0).tml_minimize, s.running))
      = some ([0], some 0, 1) ∧
    ((minimize initial_state 0 .NORMAL 0).bind (fun s => minimize s 0 .NORMAL 0)).map
        (fun s => (effect_starts s.trace, (s.actor_data 0).tml_minimize, s.running))
      = some ([0, 1], some 1, 2) := by
  decide

/-- C6, amended: the controller does not look at the handle already stored.  For every state
of the initialised plugin and every NORMAL window, whatever the handles of the window are,
each of `minimize`, `maximize`, `map` and `destroy` starts one new animation (one more
`clutter_effect_scale` call, returning the fresh timeline `s.timelines`) and stores that
timeline in the handle of its kind, overwriting what was there; `minimize`, `map` and
`destroy` increment `running` on every such call. -/
theorem controller_always_starts_animation (s : State) (pp : PluginPrivate) (w : Nat)
    (workspace : Int) (end_x end_y end_width end_height : Int)
    (hp : s.plugin_private = some pp) :
    (∃ s1, minimize s w .NORMAL workspace = some s1 ∧
      (s1.actor_data w).tml_minimize = some s.timelines ∧
      effect_starts s1.trace = effect_starts s.trace ++ [s.timelines] ∧
      s1.timelines = s.timelines + 1 ∧
      s1.running = s.running + 1) ∧
    (∃ s1, maximize s w .NORMAL workspace end_x end_y end_width end_height = some s1 ∧
      (s1.actor_data w).tml_maximize = some s.timelines ∧
      effect_starts s1.trace = effect_starts s.trace ++ [s.timelines] ∧
      s1.timelines = s.timelines + 1) ∧
    (∃ s1, map s w .NORMAL workspace = some s1 ∧
      (s1.actor_data w).tml_map = some s.timelines ∧
      effect_starts s1.trace = effect_starts s.trace ++ [s.timelines] ∧
      s1.timelines = s.timelines + 1 ∧
      s1.running = s.running + 1) ∧
    (∃ s1, destroy s w .NORMAL workspace = some s1 ∧
      (s1.actor_data w).tml_destroy = some s.timelines ∧
      effect_starts s1.trace = effect_starts s.trace ++ [s.timelines] ∧
      s1.timelines = s.timelines + 1 ∧
      s1.running = s.running + 1) := by
  refine ⟨?_, ?_, ?_, ?_⟩
  · simp [minimize, hp, set_actor_private, get_actor_private, clutter_effect_scale, State.call,
      effect_starts_append]
    simp [effect_starts]
  · simp [maximize, hp, set_actor_private, get_actor_private, clutter_effect_scale, State.call,
      effect_starts_append]
    simp [effect_starts]
  · simp [map, hp, set_actor_private, get_actor_private, clutter_effect_scale, State.call,
      effect_starts_append, clutter_actor_show]
    simp [effect_starts]
  · simp [destroy, hp, set_actor_private, get_actor_private, clutter_effect_scale, State.call,
      effect_starts_append]
    simp [effect_starts]

/-- C6, witness: the amended statement at `maximize_active_state`, where window 0 already has
a maximize animation (timeline 0) in flight. -/
theorem controller_always_starts_animation_witness :
    (maximize_active_state.plugin_private = some initial_private ∧
      (maximize_active_state.actor_data 0).tml_maximize = some 0) ∧
    ∃ s1, maximize maximize_active_state 0 .NORMAL 0 0 0 200 150 = some s1 ∧
      (s1.actor_data 0).tml_maximize = some maximize_active_state.timelines ∧
      effect_starts s1.trace
        = effect_starts maximize_active_state.trace ++ [maximize_active_state.timelines] ∧
      s1.timelines = maximize_active_state.timelines + 1 :=
  ⟨⟨rfl, by decide⟩,
   (controller_always_starts_animation maximize_active_state initial_private 0 0 0 0 200 150
     rfl).2.1⟩

/-! ### Switching to the same workspace (C7) -/

/-- C7, counterexample: with no host callback registered, `switch_workspace (actors, 0, 0)`
makes no host notification at all. -/
theorem switch_workspace_same_without_callback :
    no_callback_state.completed = false ∧
    (switch_workspace no_callback_state [0] 0 0).map (fun s => notifications s.trace)
      = some (notifications no_callback_state.trace) := by
  decide

/-- C7, amended: for every state, actor list and index `n`, `switch_workspace (actors, n, n)`
returns; it makes exactly the seven Clutter calls that create the two groups and add them to
the stage, followed, when a host callback is registered, by the single notification
`completed (NULL, SWITCH_WORKSPACE)` (and by nothing when none is registered).  No
`clutter_effect_scale` call is made, `plugin_private` (with `tml_switch_workspace1/2`), every
`ActorPrivate`, every window's parent and visibility, and `running` are unchanged. -/
theorem switch_workspace_same_notifies_once (s : State) (actors : List Nat) (n : Int) :
    ∃ s1, switch_workspace s actors n n = some s1 ∧
      s1.trace = s.trace ++
        [Call.clutter_group_new (.group s.groups),
         Call.clutter_group_new (.group (s.groups + 1)),
         Call.clutter_actor_set_anchor_point (.group (s.groups + 1))
           s.screen_width s.screen_height,
         Call.clutter_actor_set_position (.group (s.groups + 1))
           s.screen_width s.screen_height,
         Call.clutter_actor_set_scale (.group (s.groups + 1)) (.finite 0) (.finite 0),
         Call.clutter_container_add_actor .stage (.group (s.groups + 1)),
         Call.clutter_container_add_actor .stage (.group s.groups)] ++
        (if s.completed then
          [Call.completed none META_COMPOSITOR_CLUTTER_PLUGIN_SWITCH_WORKSPACE] else []) ∧
      notifications s1.trace = notifications s.trace ++
        (if s.completed then
          [(none, META_COMPOSITOR_CLUTTER_PLUGIN_SWITCH_WORKSPACE)] else []) ∧
      effect_starts s1.trace = effect_starts s.trace ∧
      s1.timelines = s.timelines ∧
      s1.plugin_private = s.plugin_private ∧
      s1.actor_data = s.actor_data ∧
      s1.parent = s.parent ∧
      s1.visible = s.visible ∧
      s1.running = s.running := by
  by_cases hcb : s.completed = true
  · simp [switch_workspace, switch_workspace_groups, clutter_group_new, State.call,
      notify_completed, hcb, notifications_append, effect_starts_append]
    simp [notifications, effect_starts]
  · simp [switch_workspace, switch_workspace_groups, clutter_group_new, State.call,
      notify_completed, hcb, notifications_append, effect_starts_append]
    simp [notifications, effect_starts]

/-! ### Maximize geometry (C10) -/

/-- C10 (fails on the code): `maximize` subtracts the `guint` width from the `gint` target
width, so the divisor of the anchor is computed modulo `2^32`.  For a window at (10, 10) of
size 200 x 200 and the target (0, 0, 100, 100) it requests the scale (1/2, 1/2) but moves the
anchor to (0, 0), whereas `(x-ex)*w/(ew-w) = 10*200/(100-200) = -20`.  For the target larger
than the window the formula is met: the window (10, 10, 100, 100) and the target
(0, 0, 200, 150) give the scale (2, 3/2) and the anchor (10, 20). -/
theorem maximize_anchor_unsigned_divisor :
    (oversized_window_state.position 0, oversized_window_state.size 0)
      = ((10, 10), (200, 200)) ∧
    (maximize oversized_window_state 0 .NORMAL 0 0 0 100 100).map (fun s => s.trace)
      = some [Call.clutter_actor_move_anchor_point (.window 0) (some 0) (some 0),
              Call.clutter_effect_scale ⟨250⟩ (.window 0) (.finite (1 / 2)) (.finite (1 / 2))
                (some .on_maximize_effect_complete) 0] ∧
    guint_sub 100 200 = 4294967196 ∧
    Int.tdiv ((10 - 0) * 200) (100 - 200) = -20 ∧
    (maximize initial_state 0 .NORMAL 0 0 0 200 150).map (fun s => s.trace)
      = some [Call.clutter_actor_move_anchor_point (.window 0) (some 10) (some 20),
              Call.clutter_effect_scale ⟨250⟩ (.window 0) (.finite 2) (.finite (3 / 2))
                (some .on_maximize_effect_complete) 0] := by
  refine ⟨rfl, ?_, by decide, by decide, ?_⟩
  · simp [maximize, oversized_window_state, initial_state, initial_private, set_actor_private,
      get_actor_private, clutter_effect_scale, State.call, maximize_scale, maximize_anchor,
      GDouble.div, GDouble.mul, GDouble.ofInt, GDouble.to_gint, guint_sub]
    norm_num
    decide
  · simp [maximize, initial_state, initial_private, set_actor_private,
      get_actor_private, clutter_effect_scale, State.call, maximize_scale, maximize_anchor,
      GDouble.div, GDouble.mul, GDouble.ofInt, GDouble.to_gint, guint_sub]
    norm_num

/-! ### Workspace switch (C8, C9) -/

theorem switch_workspace_actor_frame (f t : Int) (g1 g2 : ClutterActor) (s : State) (a : Nat) :
    (switch_workspace_actor f t g1 g2 s a).plugin_private = s.plugin_private ∧
    (switch_workspace_actor f t g1 g2 s a).workspace_key = s.workspace_key ∧
    (switch_workspace_actor f t g1 g2 s a).features = s.features ∧
    (switch_workspace_actor f t g1 g2 s a).completed = s.completed := by
  unfold switch_workspace_actor
  simp only [set_actor_private, get_actor_private, clutter_actor_reparent,
    clutter_actor_show_all, clutter_actor_hide, State.call]
  split_ifs <;> simp

theorem switch_workspace_actor_other (f t : Int) (g1 g2 : ClutterActor) (s : State)
    (a w : Nat) (h : w ≠ a) :
    (switch_workspace_actor f t g1 g2 s a).parent w = s.parent w ∧
    (switch_workspace_actor f t g1 g2 s a).visible w = s.visible w ∧
    (switch_workspace_actor f t g1 g2 s a).actor_data w = s.actor_data w := by
  unfold switch_workspace_actor
  simp only [set_actor_private, get_actor_private, clutter_actor_reparent,
    clutter_actor_show_all, clutter_actor_hide, State.call]
  split_ifs <;> simp [Function.update, h]

theorem switch_loop_frame (f t : Int) (g1 g2 : ClutterActor) (l : List Nat) (s : State) :
    (l.foldl (switch_workspace_actor f t g1 g2) s).plugin_private = s.plugin_private ∧
    (l.foldl (switch_workspace_actor f t g1 g2) s).workspace_key = s.workspace_key ∧
    (l.foldl (switch_workspace_actor f t g1 g2) s).features = s.features ∧
    (l.foldl (switch_workspace_actor f t g1 g2) s).completed = s.completed := by
  induction l generalizing s with
  | nil => simp
  | cons a l ih =>
    simp only [List.foldl_cons]
    obtain ⟨h1, h2, h3, h4⟩ := ih (switch_workspace_actor f t g1 g2 s a)
    obtain ⟨k1, k2, k3, k4⟩ := switch_workspace_actor_frame f t g1 g2 s a
    exact ⟨h1.trans k1, h2.trans k2, h3.trans k3, h4.trans k4⟩

theorem switch_loop_other (f t : Int) (g1 g2 : ClutterActor) (l : List Nat) (s : State)
    (w : Nat) (h : w ∉ l) :
    (l.foldl (switch_workspace_actor f t g1 g2) s).parent w = s.parent w ∧
    (l.foldl (switch_workspace_actor f t g1 g2) s).visible w = s.visible w ∧
    (l.foldl (switch_workspace_actor f t g1 g2) s).actor_data w = s.actor_data w := by
  induction l generalizing s with
  | nil => simp
  | cons a l ih =>
    simp only [List.foldl_cons]
    have hwa : w ≠ a := fun e => h (e ▸ List.mem_cons_self _ _)
    have hwl : w ∉ l := fun e => h (List.mem_cons_of_mem _ e)
    obtain ⟨h1, h2, h3⟩ := ih (switch_workspace_actor f t g1 g2 s a) hwl
    obtain ⟨k1, k2, k3⟩ := switch_workspace_actor_other f t g1 g2 s a w hwa
    exact ⟨h1.trans k1, h2.trans k2, h3.trans k3⟩

theorem switch_workspace_actor_moved (f t : Int) (g1 g2 : ClutterActor) (s : State)
    (w : Nat) (htag : s.workspace_key w = t ∨ s.workspace_key w = f) :
    (switch_workspace_actor f t g1 g2 s w).parent w
      = some (if s.workspace_key w = t then g2 else g1) ∧
    ((switch_workspace_actor f t g1 g2 s w).actor_data w).orig_parent = s.parent w := by
  unfold switch_workspace_actor
  simp only [set_actor_private, get_actor_private, clutter_actor_reparent,
    clutter_actor_show_all, clutter_actor_hide, State.call]
  rw [if_pos htag]
  simp

theorem switch_loop_moved (f t : Int) (g1 g2 : ClutterActor) (l : List Nat) (s : State)
    (w : Nat) (hnd : l.Nodup) (hw : w ∈ l)
    (htag : s.workspace_key w = t ∨ s.workspace_key w = f) :
    (l.foldl (switch_workspace_actor f t g1 g2) s).parent w
      = some (if s.workspace_key w = t then g2 else g1) ∧
    ((l.foldl (switch_workspace_actor f t g1 g2) s).actor_data w).orig_parent = s.parent w := by
  induction l generalizing s with
  | nil => simp at hw
  | cons a l ih =>
    simp only [List.foldl_cons]
    rw [List.nodup_cons] at hnd
    rcases List.mem_cons.mp hw with rfl | hwl
    · obtain ⟨h1, _, h3⟩ := switch_loop_other f t g1 g2 l
        (switch_workspace_actor f t g1 g2 s w) w hnd.1
      obtain ⟨k1, k2⟩ := switch_workspace_actor_moved f t g1 g2 s w htag
      rw [h1, h3]
      exact ⟨k1, k2⟩
    · have hwa : w ≠ a := fun e => hnd.1 (e ▸ hwl)
      obtain ⟨k1, _, k3⟩ := switch_workspace_actor_other f t g1 g2 s a w hwa
      obtain ⟨_, k5, _, _⟩ := switch_workspace_actor_frame f t g1 g2 s a
      have := ih (switch_workspace_actor f t g1 g2 s a) hnd.2 hwl (by rw [k5]; exact htag)
      rw [k5, k1] at this
      exact this

theorem switch_workspace_actor_sticky (f t : Int) (g1 g2 : ClutterActor) (s : State)
    (w : Nat) (hneg : s.workspace_key w < 0)
    (hf : s.workspace_key w ≠ f) (ht : s.workspace_key w ≠ t) :
    (switch_workspace_actor f t g1 g2 s w).parent w = s.parent w ∧
    (switch_workspace_actor f t g1 g2 s w).visible w = s.visible w ∧
    ((switch_workspace_actor f t g1 g2 s w).actor_data w).orig_parent = none := by
  unfold switch_workspace_actor
  simp only [set_actor_private, get_actor_private, clutter_actor_reparent,
    clutter_actor_show_all, clutter_actor_hide, State.call]
  rw [if_neg (by rintro (h | h); exact ht h; exact hf h), if_pos hneg]
  simp

theorem switch_loop_sticky (f t : Int) (g1 g2 : ClutterActor) (l : List Nat) (s : State)
    (w : Nat) (hneg : s.workspace_key w < 0)
    (hf : s.workspace_key w ≠ f) (ht : s.workspace_key w ≠ t) :
    (l.foldl (switch_workspace_actor f t g1 g2) s).parent w = s.parent w ∧
    (l.foldl (switch_workspace_actor f t g1 g2) s).visible w = s.visible w ∧
    (w ∈ l → ((l.foldl (switch_workspace_actor f t g1 g2) s).actor_data w).orig_parent
      = none) := by
  induction l generalizing s with
  | nil => simp
  | cons a l ih =>
    simp only [List.foldl_cons]
    obtain ⟨_, k5, _, _⟩ := switch_workspace_actor_frame f t g1 g2 s a
    obtain ⟨h1, h2, h3⟩ := ih (switch_workspace_actor f t g1 g2 s a)
      (by rw [k5]; exact hneg) (by rw [k5]; exact hf) (by rw [k5]; exact ht)
    by_cases hwa : w = a
    · subst hwa
      obtain ⟨k1, k2, k3⟩ := switch_workspace_actor_sticky f t g1 g2 s w hneg hf ht
      refine ⟨h1.trans k1, h2.trans k2, fun _ => ?_⟩
      by_cases hwl : w ∈ l
      · exact h3 hwl
      · obtain ⟨_, _, j3⟩ := switch_loop_other f t g1 g2 l
          (switch_workspace_actor f t g1 g2 s w) w hwl
        rw [j3]; exact k3
    · obtain ⟨k1, k2, _⟩ := switch_workspace_actor_other f t g1 g2 s a w hwa
      refine ⟨h1.trans k1, h2.trans k2, fun hm => ?_⟩
      rcases List.mem_cons.mp hm with e | hwl
      · exact absurd e hwa
      · exact h3 hwl

theorem restore_parent_frame (s : State) (a : Nat) :
    (restore_parent s a).plugin_private = s.plugin_private ∧
    (restore_parent s a).visible = s.visible ∧
    (restore_parent s a).completed = s.completed ∧
    (restore_parent s a).features = s.features := by
  unfold restore_parent
  split <;> simp [set_actor_private, get_actor_private, clutter_actor_reparent]

theorem restore_parent_other (s : State) (a w : Nat) (h : w ≠ a) :
    (restore_parent s a).parent w = s.parent w ∧
    (restore_parent s a).actor_data w = s.actor_data w := by
  unfold restore_parent
  split <;> simp [set_actor_private, get_actor_private, clutter_actor_reparent,
    Function.update, h]

theorem restore_parent_self (s : State) (w : Nat) :
    (restore_parent s w).parent w
      = (match (s.actor_data w).orig_parent with
         | some p => some p
         | none => s.parent w) ∧
    ((restore_parent s w).actor_data w).orig_parent = none := by
  unfold restore_parent
  simp only [get_actor_private]
  split
  · next p hp => simp [set_actor_private, get_actor_private, clutter_actor_reparent, hp]
  · next hp => simp [hp]

theorem restore_loop_frame (l : List Nat) (s : State) :
    (l.foldl restore_parent s).plugin_private = s.plugin_private ∧
    (l.foldl restore_parent s).visible = s.visible ∧
    (l.foldl restore_parent s).completed = s.completed ∧
    (l.foldl restore_parent s).features = s.features := by
  induction l generalizing s with
  | nil => simp
  | cons a l ih =>
    simp only [List.foldl_cons]
    obtain ⟨h1, h2, h3, h4⟩ := ih (restore_parent s a)
    obtain ⟨k1, k2, k3, k4⟩ := restore_parent_frame s a
    exact ⟨h1.trans k1, h2.trans k2, h3.trans k3, h4.trans k4⟩

theorem restore_loop_skipped (l : List Nat) (s : State) (w : Nat)
    (ho : (s.actor_data w).orig_parent = none) :
    (l.foldl restore_parent s).parent w = s.parent w ∧
    ((l.foldl restore_parent s).actor_data w).orig_parent = none := by
  induction l generalizing s with
  | nil => simp [ho]
  | cons a l ih =>
    simp only [List.foldl_cons]
    by_cases hwa : w = a
    · subst hwa
      obtain ⟨k1, k2⟩ := restore_parent_self s w
      obtain ⟨h1, h2⟩ := ih (restore_parent s w) k2
      rw [ho] at k1
      exact ⟨h1.trans k1, h2⟩
    · obtain ⟨k1, k2⟩ := restore_parent_other s a w hwa
      obtain ⟨h1, h2⟩ := ih (restore_parent s a) (by rw [k2]; exact ho)
      exact ⟨h1.trans k1, h2⟩

theorem restore_loop_restored (l : List Nat) (s : State) (w : Nat) (p : ClutterActor)
    (hw : w ∈ l) (ho : (s.actor_data w).orig_parent = some p) :
    (l.foldl restore_parent s).parent w = some p ∧
    ((l.foldl restore_parent s).actor_data w).orig_parent = none := by
  induction l generalizing s with
  | nil => simp at hw
  | cons a l ih =>
    simp only [List.foldl_cons]
    by_cases hwa : w = a
    · subst hwa
      obtain ⟨k1, k2⟩ := restore_parent_self s w
      obtain ⟨h1, h2⟩ := restore_loop_skipped l (restore_parent s w) w k2
      rw [ho] at k1
      exact ⟨h1.trans k1, h2⟩
    · obtain ⟨_, k2⟩ := restore_parent_other s a w hwa
      rcases List.mem_cons.mp hw with e | hwl
      · exact absurd e hwa
      · exact ih (restore_parent s a) hwl (by rw [k2]; exact ho)

/-- What `on_switch_workspace_effect_complete` returns on a non-empty list when
`plugin_private` is set: its parents and visibilities are those left by the loop. -/
theorem on_switch_workspace_effect_complete_some (s : State) (pp : PluginPrivate)
    (l : List Nat) (hp : s.plugin_private = some pp) (hne : l ≠ []) :
    ∃ s2, on_switch_workspace_effect_complete s (some l) = some s2 ∧
      s2.parent = (l.foldl restore_parent s).parent ∧
      s2.visible = s.visible := by
  cases l with
  | nil => exact absurd rfl hne
  | cons a rest =>
    obtain ⟨f1, f2, _, _⟩ := restore_loop_frame (a :: rest) s
    simp only [on_switch_workspace_effect_complete, f1, hp]
    refine ⟨_, rfl, ?_, ?_⟩
    · rw [(notify_completed_frame _ _ _).1]
      simp [State.call]
    · rw [(notify_completed_frame _ _ _).2.1]
      simpa [State.call] using f2

theorem kill_effect_actor_parent (s : State) (v event : Nat) :
    (kill_effect_actor s v event).parent = s.parent := by
  unfold kill_effect_actor
  simp only [on_minimize_effect_complete, on_maximize_effect_complete, on_map_effect_complete,
    on_destroy_effect_complete]
  split_ifs <;>
    simp [(notify_completed_frame _ _ _).1, State.call, set_actor_private, clutter_actor_hide]

theorem switch_workspace_groups_frame (s : State) :
    (switch_workspace_groups s).2.1 = .group s.groups ∧
    (switch_workspace_groups s).2.2 = .group (s.groups + 1) ∧
    (switch_workspace_groups s).1.plugin_private = s.plugin_private ∧
    (switch_workspace_groups s).1.features = s.features ∧
    (switch_workspace_groups s).1.timelines = s.timelines ∧
    (switch_workspace_groups s).1.parent = s.parent ∧
    (switch_workspace_groups s).1.visible = s.visible ∧
    (switch_workspace_groups s).1.actor_data = s.actor_data ∧
    (switch_workspace_groups s).1.workspace_key = s.workspace_key := by
  simp [switch_workspace_groups, clutter_group_new, State.call]

theorem switch_loop_timelines (f t : Int) (g1 g2 : ClutterActor) (l : List Nat) (s : State) :
    (l.foldl (switch_workspace_actor f t g1 g2) s).timelines = s.timelines := by
  induction l generalizing s with
  | nil => simp
  | cons a l ih =>
    simp only [List.foldl_cons]
    rw [ih]
    unfold switch_workspace_actor
    simp only [set_actor_private, get_actor_private, clutter_actor_reparent,
      clutter_actor_show_all, clutter_actor_hide, State.call]
    split_ifs <;> simp

/-- What `switch_workspace` returns for `from ≠ to` when `plugin_private` is set. -/
theorem switch_workspace_started (s : State) (pp : PluginPrivate) (actors : List Nat)
    (f t : Int) (hp : s.plugin_private = some pp) (hne : f ≠ t) :
    ∃ s1, switch_workspace s actors f t = some s1 ∧
      s1.parent = (actors.reverse.foldl
        (switch_workspace_actor f t (.group s.groups) (.group (s.groups + 1)))
        (switch_workspace_groups s).1).parent ∧
      s1.visible = (actors.reverse.foldl
        (switch_workspace_actor f t (.group s.groups) (.group (s.groups + 1)))
        (switch_workspace_groups s).1).visible ∧
      s1.actor_data = (actors.reverse.foldl
        (switch_workspace_actor f t (.group s.groups) (.group (s.groups + 1)))
        (switch_workspace_groups s).1).actor_data ∧
      s1.features = s.features ∧
      s1.plugin_private = some
        { pp with actors := some actors, desktop1 := some (.group s.groups),
                  desktop2 := some (.group (s.groups + 1)),
                  tml_switch_workspace2 := some s.timelines,
                  tml_switch_workspace1 := some (s.timelines + 1) } := by
  obtain ⟨hg1, hg2, hpg0, hfg, htg, _⟩ := switch_workspace_groups_frame s
  have hpg : (switch_workspace_groups s).1.plugin_private = some pp := hpg0.trans hp
  obtain ⟨f1, _, f3, _⟩ := switch_loop_frame f t (.group s.groups) (.group (s.groups + 1))
    actors.reverse (switch_workspace_groups s).1
  simp only [switch_workspace, if_neg hne, hg1, hg2, f1, hpg, clutter_effect_scale]
  refine ⟨_, rfl, ?_, ?_, ?_, ?_, ?_⟩
  · simp only
  · simp only
  · simp only
  · simp only [f3, hfg]
  · simp only [switch_loop_timelines, htg]

/-- What the workspace-switch part of `kill_effect` does while a switch is active. -/
theorem kill_effect_switch_workspace_some (s : State) (pp : PluginPrivate) (l : List Nat)
    (hp : s.plugin_private = some pp) (hact : pp.tml_switch_workspace1 ≠ none)
    (hl : pp.actors = some l) (hne : l ≠ []) :
    ∃ s2, kill_effect_switch_workspace s = some s2 ∧
      s2.visible = s.visible ∧
      (∀ w p, w ∈ l → (s.actor_data w).orig_parent = some p → s2.parent w = some p) ∧
      (∀ w, (s.actor_data w).orig_parent = none → s2.parent w = s.parent w) := by
  obtain ⟨s2, h1, h2, h3⟩ := on_switch_workspace_effect_complete_some
    ((s.call (Call.clutter_timeline_stop pp.tml_switch_workspace1)).call
      (Call.clutter_timeline_stop pp.tml_switch_workspace2)) pp l hp hne
  refine ⟨s2, ?_, ?_, ?_, ?_⟩
  · simp only [kill_effect_switch_workspace, hp, if_pos hact, hl]
    exact h1
  · rw [h3]; rfl
  · intro w p hw ho
    rw [h2]
    exact (restore_loop_restored l ((s.call _).call _) w p hw ho).1
  · intro w ho
    rw [h2]
    exact (restore_loop_skipped l ((s.call _).call _) w ho).1

/-- C8, amended: for every state of the initialised plugin, every actor list without
duplicates and `from ≠ to`, `switch_workspace` returns a state in which every listed window
whose workspace tag equals `from` or `to` is a child of one of the two transient groups
(`desktop2`, the incoming group, for tag `to`; `desktop1`, the outgoing group, for tag `from`)
with its previous parent recorded in `orig_parent`; and if the window had a parent `p`, then
after the completion path has run, as the natural completion
`on_switch_workspace_effect_complete` or through a `kill_effect` call that passes the feature
test with the switch-workspace bit requested, the parent of the window is `p` again. -/
theorem switch_workspace_parent_round_trip (s : State) (pp : PluginPrivate)
    (actors : List Nat) (from_ to_ : Int) (w : Nat)
    (hp : s.plugin_private = some pp) (hne : from_ ≠ to_) (hnd : actors.Nodup)
    (hw : w ∈ actors)
    (htag : s.workspace_key w = from_ ∨ s.workspace_key w = to_) :
    ∃ s1 pp1, switch_workspace s actors from_ to_ = some s1 ∧
      s1.plugin_private = some pp1 ∧
      s1.parent w = (if s.workspace_key w = to_ then pp1.desktop2 else pp1.desktop1) ∧
      pp1.desktop1 = some (.group s.groups) ∧
      pp1.desktop2 = some (.group (s.groups + 1)) ∧
      (s1.actor_data w).orig_parent = s.parent w ∧
      (∀ p, s.parent w = some p →
        (∃ s2, on_switch_workspace_effect_complete s1 (some actors) = some s2 ∧
          s2.parent w = some p) ∧
        (∀ v event, s.features &&& event ≠ 0 →
          event &&& META_COMPOSITOR_CLUTTER_PLUGIN_SWITCH_WORKSPACE ≠ 0 →
          ∃ s3, kill_effect s1 v event = some s3 ∧ s3.parent w = some p)) := by
  obtain ⟨s1, h1, hpa, _, had, hfe, hpp⟩ := switch_workspace_started s pp actors from_ to_ hp hne
  obtain ⟨_, _, _, _, _, gpa, _, _, gwk⟩ := switch_workspace_groups_frame s
  have hloop := switch_loop_moved from_ to_ (.group s.groups) (.group (s.groups + 1))
    actors.reverse (switch_workspace_groups s).1 w (List.nodup_reverse.mpr hnd)
    (List.mem_reverse.mpr hw) (by rw [gwk]; exact htag.symm)
  rw [gwk, gpa, ← hpa, ← had] at hloop
  have hnil : actors ≠ [] := List.ne_nil_of_mem hw
  refine ⟨s1, _, h1, hpp, ?_, rfl, rfl, hloop.2, fun p hpar => ⟨?_, ?_⟩⟩
  · rw [hloop.1]; split <;> rfl
  · have ho : (s1.actor_data w).orig_parent = some p := hloop.2.trans hpar
    obtain ⟨s2, k1, k2, _⟩ := on_switch_workspace_effect_complete_some s1 _ actors hpp hnil
    exact ⟨s2, k1, by rw [k2]; exact (restore_loop_restored actors s1 w p hw ho).1⟩
  · intro v event hfeat hsw
    have ho : (s1.actor_data w).orig_parent = some p := hloop.2.trans hpar
    obtain ⟨s2, k1, _, k3, _⟩ := kill_effect_switch_workspace_some s1 _ actors hpp
      (by simp) rfl hnil
    have hf : ¬ (s1.features &&& event = 0) := by rw [hfe]; exact hfeat
    simp only [kill_effect, if_neg hf, if_pos hsw, k1]
    split
    · exact ⟨s2, rfl, k3 w p hw ho⟩
    · exact ⟨_, rfl, by rw [kill_effect_actor_parent]; exact k3 w p hw ho⟩

/-- C9, amended: for every state of the initialised plugin, every actor list and all `from`,
`to`, a listed window whose workspace tag is negative and, unless `from = to`, differs from
both `from` and `to` (as it does whenever `from` and `to` are workspace indices, which are not
negative) keeps its parent and its visibility through `switch_workspace`, and, for
`from ≠ to`, through the completion path, run as the natural completion or by
`kill_effect (_, SWITCH_WORKSPACE)` with that kind enabled. -/
theorem switch_workspace_sticky_untouched (s : State) (pp : PluginPrivate)
    (actors : List Nat) (from_ to_ : Int) (w : Nat)
    (hp : s.plugin_private = some pp) (hw : w ∈ actors)
    (hneg : s.workspace_key w < 0)
    (hft : from_ = to_ ∨ (s.workspace_key w ≠ from_ ∧ s.workspace_key w ≠ to_)) :
    ∃ s1, switch_workspace s actors from_ to_ = some s1 ∧
      s1.parent w = s.parent w ∧ s1.visible w = s.visible w ∧
      (from_ ≠ to_ →
        (∃ s2, on_switch_workspace_effect_complete s1 (some actors) = some s2 ∧
          s2.parent w = s.parent w ∧ s2.visible w = s.visible w) ∧
        (s.features &&& META_COMPOSITOR_CLUTTER_PLUGIN_SWITCH_WORKSPACE ≠ 0 →
          ∀ v, ∃ s3,
            kill_effect s1 v META_COMPOSITOR_CLUTTER_PLUGIN_SWITCH_WORKSPACE = some s3 ∧
            s3.parent w = s.parent w ∧ s3.visible w = s.visible w)) := by
  obtain ⟨_, _, _, _, _, gpa, gvi, _, gwk⟩ := switch_workspace_groups_frame s
  by_cases hne : from_ = to_
  · refine ⟨_, by simp only [switch_workspace, if_pos hne]; rfl, ?_, ?_, fun h => absurd hne h⟩
    · rw [(notify_completed_frame _ _ _).1, gpa]
    · rw [(notify_completed_frame _ _ _).2.1, gvi]
  · have hft2 : s.workspace_key w ≠ from_ ∧ s.workspace_key w ≠ to_ :=
      hft.resolve_left hne
    obtain ⟨s1, h1, hpa, hvi, had, hfe, hpp⟩ :=
      switch_workspace_started s pp actors from_ to_ hp hne
    have hloop := switch_loop_sticky from_ to_ (.group s.groups) (.group (s.groups + 1))
      actors.reverse (switch_workspace_groups s).1 w (by rw [gwk]; exact hneg)
      (by rw [gwk]; exact hft2.1) (by rw [gwk]; exact hft2.2)
    rw [gpa, gvi, ← hpa, ← hvi, ← had] at hloop
    have ho := hloop.2.2 (List.mem_reverse.mpr hw)
    have hnil : actors ≠ [] := List.ne_nil_of_mem hw
    refine ⟨s1, h1, hloop.1, hloop.2.1, fun _ => ⟨?_, ?_⟩⟩
    · obtain ⟨s2, k1, k2, k3⟩ := on_switch_workspace_effect_complete_some s1 _ actors hpp hnil
      refine ⟨s2, k1, ?_, ?_⟩
      · rw [k2, (restore_loop_skipped actors s1 w ho).1]; exact hloop.1
      · rw [k3]; exact hloop.2.1
    · intro hfeat v
      obtain ⟨s2, k1, k2, _, k4⟩ := kill_effect_switch_workspace_some s1 _ actors hpp
        (by simp) rfl hnil
      have hf : ¬ (s1.features &&& META_COMPOSITOR_CLUTTER_PLUGIN_SWITCH_WORKSPACE = 0) := by
        rw [hfe]; exact hfeat
      have hs : META_COMPOSITOR_CLUTTER_PLUGIN_SWITCH_WORKSPACE &&&
          META_COMPOSITOR_CLUTTER_PLUGIN_SWITCH_WORKSPACE ≠ 0 := by decide
      have hr : META_COMPOSITOR_CLUTTER_PLUGIN_SWITCH_WORKSPACE &&&
          gulong_not META_COMPOSITOR_CLUTTER_PLUGIN_SWITCH_WORKSPACE = 0 := by decide
      simp only [kill_effect, if_neg hf, if_pos hs, k1, if_pos hr]
      exact ⟨s2, rfl, by rw [k4 w ho]; exact hloop.1, by rw [k2]; exact hloop.2.1⟩

/-- C8, counterexample: in `unparented_window_state` all windows carry the tag 1; window 0 is
a child of the stage and window 1 has no parent.  After `switch_workspace (_, 0, 1)` and its
natural completion, window 0 of the list `[0, 0]` (listed twice) and window 1 of the list `[1]`
are both children of the transient group 1, not of their parent before the switch. -/
theorem switch_workspace_round_trip_fails :
    (unparented_window_state.workspace_key 0, unparented_window_state.parent 0)
      = (1, some .stage) ∧
    ((switch_workspace unparented_window_state [0, 0] 0 1).bind
        (fun s => on_switch_workspace_effect_complete s (some [0, 0]))).map
        (fun s => s.parent 0) = some (some (.group 1)) ∧
    (unparented_window_state.workspace_key 1, unparented_window_state.parent 1)
      = (1, none) ∧
    ((switch_workspace unparented_window_state [1] 0 1).bind
        (fun s => on_switch_workspace_effect_complete s (some [1]))).map
        (fun s => s.parent 1) = some (some (.group 1)) := by
  decide

/-- C8, witness: the amended statement at `one_window_per_workspace_state` for the list
`[0, 1, 2]`, the switch from workspace 0 to workspace 1 and window 1, killed with the mask
`SWITCH_WORKSPACE | MINIMIZE` on window 2. -/
theorem switch_workspace_parent_round_trip_witness :
    (one_window_per_workspace_state.plugin_private = some initial_private ∧
      (0 : Int) ≠ 1 ∧ [0, 1, 2].Nodup ∧ 1 ∈ [0, 1, 2] ∧
      one_window_per_workspace_state.workspace_key 1 = 1 ∧
      one_window_per_workspace_state.parent 1 = some .stage ∧
      one_window_per_workspace_state.features &&& 33 ≠ 0 ∧
      33 &&& META_COMPOSITOR_CLUTTER_PLUGIN_SWITCH_WORKSPACE ≠ 0) ∧
    ∃ s1 pp1, switch_workspace one_window_per_workspace_state [0, 1, 2] 0 1 = some s1 ∧
      s1.plugin_private = some pp1 ∧
      s1.parent 1 = pp1.desktop2 ∧
      (s1.actor_data 1).orig_parent = one_window_per_workspace_state.parent 1 ∧
      (∃ s2, on_switch_workspace_effect_complete s1 (some [0, 1, 2]) = some s2 ∧
        s2.parent 1 = some .stage) ∧
      (∃ s3, kill_effect s1 2 33 = some s3 ∧ s3.parent 1 = some .stage) := by
  obtain ⟨s1, pp1, h1, h2, h3, _, _, h6, h7⟩ :=
    switch_workspace_parent_round_trip one_window_per_workspace_state initial_private
      [0, 1, 2] 0 1 1 rfl (by decide) (by decide) (by decide) (Or.inr (by decide))
  obtain ⟨h8, h9⟩ := h7 .stage rfl
  refine ⟨⟨rfl, by decide, by decide, by decide, by decide, rfl, by decide, by decide⟩,
    s1, pp1, h1, h2, ?_, h6, h8, h9 2 33 (by decide) (by decide)⟩
  rw [h3]
  exact if_pos (by decide)

/-- C9, counterexample: in `sticky_state` window 0 is a hidden child of the stage with the
negative workspace tag -1.  `switch_workspace ([0], -1, 0)` tests `workspace == from` before
`workspace < 0`: it reparents the window into the transient group 0 and shows it. -/
theorem switch_workspace_sticky_reparented :
    (sticky_state.workspace_key 0, sticky_state.parent 0, sticky_state.visible 0)
      = (-1, some .stage, false) ∧
    (switch_workspace sticky_state [0] (-1) 0).map (fun s => (s.parent 0, s.visible 0))
      = some (some (.group 0), true) := by
  decide

/-- C9, witness: the amended statement at `sticky_state` for the list `[0]`, window 0 and the
switch from workspace 0 to workspace 1. -/
theorem switch_workspace_sticky_untouched_witness :
    (sticky_state.plugin_private = some initial_private ∧ 0 ∈ [0] ∧
      sticky_state.workspace_key 0 < 0 ∧
      sticky_state.workspace_key 0 ≠ 0 ∧ sticky_state.workspace_key 0 ≠ 1 ∧ (0 : Int) ≠ 1 ∧
      sticky_state.features &&& META_COMPOSITOR_CLUTTER_PLUGIN_SWITCH_WORKSPACE ≠ 0) ∧
    ∃ s1, switch_workspace sticky_state [0] 0 1 = some s1 ∧
      s1.parent 0 = sticky_state.parent 0 ∧ s1.visible 0 = sticky_state.visible 0 ∧
      (∃ s2, on_switch_workspace_effect_complete s1 (some [0]) = some s2 ∧
        s2.parent 0 = sticky_state.parent 0 ∧ s2.visible 0 = sticky_state.visible 0) ∧
      (∃ s3, kill_effect s1 0 META_COMPOSITOR_CLUTTER_PLUGIN_SWITCH_WORKSPACE = some s3 ∧
        s3.parent 0 = sticky_state.parent 0 ∧ s3.visible 0 = sticky_state.visible 0) := by
  obtain ⟨s1, h1, h2, h3, h4⟩ :=
    switch_workspace_sticky_untouched sticky_state initial_private [0] 0 1 0 rfl
      (by decide) (by decide) (Or.inr ⟨by decide, by decide⟩)
  obtain ⟨h5, h6⟩ := h4 (by decide)
  exact ⟨⟨rfl, by decide, by decide, by decide, by decide, by decide, by decide⟩,
    s1, h1, h2, h3, h5, h6 (by decide) 0⟩

/-! ### Maximize with an unchanged dimension (C11) -/

/-- C11 (fails on the code): `maximize` has no test for `end_width == width` or
`end_height == height`.  For the window (10, 10, 100, 100) of the state at rest and the
target (0, 0, 100, 150) the divisor `end_width - width` is 0: the quotient is not finite, its
conversion to `gint` has no defined value, and that value is passed as the x coordinate of
`clutter_actor_move_anchor_point` (instead of the anchor 0 the claim asks for).  The scale
factor on that axis is `100/100 = 1`. -/
theorem maximize_divides_by_zero :
    (initial_state.position 0, initial_state.size 0) = ((10, 10), (100, 100)) ∧
    guint_sub 100 100 = 0 ∧
    GDouble.div (GDouble.mul (.ofInt (10 - 0)) (.ofInt 100)) (.ofInt (guint_sub 100 100))
      = .nonfinite ∧
    maximize_anchor 10 0 100 100 = none ∧
    (maximize initial_state 0 .NORMAL 0 0 0 100 150).map (fun s => s.trace)
      = some [Call.clutter_actor_move_anchor_point (.window 0) none (some 20),
              Call.clutter_effect_scale ⟨250⟩ (.window 0) (.finite 1) (.finite (3 / 2))
                (some .on_maximize_effect_complete) 0] := by
  refine ⟨rfl, by decide, ?_, ?_, ?_⟩
  · simp [GDouble.div, GDouble.mul, GDouble.ofInt, guint_sub]
  · simp [maximize_anchor, GDouble.div, GDouble.mul, GDouble.ofInt, GDouble.to_gint, guint_sub]
  · simp [maximize, initial_state, initial_private, set_actor_private,
      get_actor_private, clutter_effect_scale, State.call, maximize_scale, maximize_anchor,
      GDouble.div, GDouble.mul, GDouble.ofInt, GDouble.to_gint, guint_sub]
    norm_num

/-! ### The `disable:` parameter (C12, C13) -/

theorem starts_with_append (needle rest : List Char) :
    starts_with (needle ++ rest) needle = true := by
  induction needle with
  | nil => cases rest <;> rfl
  | cons c needle ih => simp [starts_with, ih]

theorem strstr_append (needle rest : List Char) (h : needle ≠ []) :
    strstr (needle ++ rest) needle = some (needle ++ rest) := by
  cases needle with
  | nil => exact absurd rfl h
  | cons c needle =>
    have := starts_with_append (c :: needle) rest
    simp only [List.cons_append] at this ⊢
    simp [strstr, this]

theorem cut_at_semicolon_append (d tail : List Char) (hd : ';' ∉ d) :
    cut_at_semicolon (d ++ ';' :: tail) = d ∧ cut_at_semicolon d = d := by
  induction d with
  | nil => simp [cut_at_semicolon]
  | cons c d ih =>
    have hc : decide (c ≠ ';') = true := by
      simpa using fun e : c = ';' => hd (e ▸ List.mem_cons_self _ _)
    have hd2 : ';' ∉ d := fun e => hd (List.mem_cons_of_mem _ e)
    obtain ⟨h1, h2⟩ := ih hd2
    unfold cut_at_semicolon at h1 h2 ⊢
    have e1 := List.takeWhile_cons_of_pos (p := fun c => decide (c ≠ ';'))
      (l := d ++ ';' :: tail) hc
    have e2 := List.takeWhile_cons_of_pos (p := fun c => decide (c ≠ ';')) (l := d) hc
    rw [List.cons_append, e1, e2, h1, h2]
    exact ⟨rfl, rfl⟩

/-- C12, counterexample: with all six kinds enabled (`features = 63`) and the parameter string
`disable:minimize;destroy`, `do_init` leaves `features = 62`: only the minimize kind is
removed, the destroy kind (16) stays set. -/
theorem do_init_disable_minimize_destroy :
    disable_minimize_destroy_state.features = 63 ∧
    (do_init disable_minimize_destroy_state).1.features = 62 ∧
    (do_init disable_minimize_destroy_state).1.features
      &&& META_COMPOSITOR_CLUTTER_PLUGIN_DESTROY ≠ 0 := by
  decide

/-- C12, amended: `do_init` reads the text after `disable:` only up to its first `;`.  For
every state, every text `d` without `;` and every text `tail`, the parameter string
`disable:` + `d` + `;` + `tail` leaves the same feature mask as `disable:` + `d`, namely the
mask from which the kinds found in `d` are removed; what follows the `;` removes nothing.
With all six kinds enabled, `disable:minimize;destroy` therefore removes exactly the minimize
kind, while `disable:minimize,destroy` removes exactly the minimize and destroy kinds. -/
theorem do_init_disable_list_ends_at_semicolon (s : State) (d tail : List Char)
    (hd : ';' ∉ d) :
    (do_init { s with params := some (String.mk ("disable:".toList ++ (d ++ ';' :: tail))) }
      ).1.features = disable_features s.features d ∧
    (do_init { s with params := some (String.mk ("disable:".toList ++ d)) }).1.features
      = disable_features s.features d ∧
    disable_features 63 "minimize".toList = 62 ∧
    disable_features 63 "minimize,destroy".toList = 46 := by
  have hne : "disable:".toList ≠ [] := by decide
  have key : ∀ r : List Char, strstr ("disable:".toList ++ r) "disable:".toList
      = some ("disable:".toList ++ r) := fun r => strstr_append _ r hne
  obtain ⟨h1, h2⟩ := cut_at_semicolon_append d tail hd
  refine ⟨?_, ?_, by decide, by decide⟩
  · show (match strstr ("disable:".toList ++ (d ++ ';' :: tail)) "disable:".toList with
      | none => s.features
      | some p => disable_features s.features (cut_at_semicolon (p.drop 8))) = _
    rw [key]
    show disable_features s.features (cut_at_semicolon (d ++ ';' :: tail)) = _
    rw [h1]
  · show (match strstr ("disable:".toList ++ d) "disable:".toList with
      | none => s.features
      | some p => disable_features s.features (cut_at_semicolon (p.drop 8))) = _
    rw [key]
    show disable_features s.features (cut_at_semicolon d) = _
    rw [h2]

/-- C12, witness: the amended statement for the state at rest, `d = minimize` and
`tail = destroy`. -/
theorem do_init_disable_list_ends_at_semicolon_witness :
    ';' ∉ "minimize".toList ∧
    (do_init { initial_state with
        params := some (String.mk ("disable:".toList ++ ("minimize".toList ++ ';' ::
          "destroy".toList))) }).1.features
      = disable_features initial_state.features "minimize".toList :=
  ⟨by decide,
   (do_init_disable_list_ends_at_semicolon initial_state "minimize".toList "destroy".toList
     (by decide)).1⟩

/-- C13 (fails on the code): from `features = 63`, the masks `do_init` leaves for the six
parameter strings `disable:k`.  Five tokens remove their own kind only; `disable:unmaximize`
leaves 57 = 63 - 4 - 2: it also removes the maximize kind, because `strstr (d, "maximize")`
finds `maximize` inside `unmaximize`. -/
theorem do_init_disable_unmaximize_removes_maximize :
    (do_init { initial_state with params := some "disable:minimize" }).1.features = 63 - 1 ∧
    (do_init { initial_state with params := some "disable:maximize" }).1.features = 63 - 2 ∧
    (do_init { initial_state with params := some "disable:unmaximize" }).1.features
      = 63 - 4 - 2 ∧
    (do_init { initial_state with params := some "disable:map" }).1.features = 63 - 8 ∧
    (do_init { initial_state with params := some "disable:destroy" }).1.features = 63 - 16 ∧
    (do_init { initial_state with params := some "disable:switch-workspace" }).1.features
      = 63 - 32 ∧
    strstr "unmaximize".toList "maximize".toList = some "maximize".toList := by
  decide

/-! ### Reload (C14) -/

/-- C14 (fails on the code): `do_init` returns TRUE in every state, so the fallback branch of
`reload` is never taken.  From the state at rest `reload` returns TRUE but leaves
`plugin_private` null, because `free_plugin_private` clears the pointer that `do_init` has just
set to the new private data.  A second `reload` then does not return at all, although its
`do_init` succeeds: `free_plugin_private` is handed the null old pointer.  Likewise `minimize`
on a NORMAL window after the first `reload` is a crash. -/
theorem reload_discards_new_configuration :
    (∀ s, (do_init s).2 = true) ∧
    (reload initial_state).map (fun r => (r.2, r.1.plugin_private)) = some (true, none) ∧
    ((reload initial_state).bind (fun r => reload r.1)).isSome = false ∧
    ((reload initial_state).map (fun r => (do_init r.1).2)) = some true ∧
    ((reload initial_state).bind (fun r => minimize r.1 0 .NORMAL 0)).isSome = false := by
  refine ⟨fun _ => rfl, by decide, by decide, by decide, by decide⟩

/-! ### The feature test of `kill_effect` (C15) -/

theorem completion_actor_data (s : State) (w : Nat) :
    (on_minimize_effect_complete s w).actor_data
      = Function.update s.actor_data w { s.actor_data w with tml_minimize := none } ∧
    (on_maximize_effect_complete s w).actor_data
      = Function.update s.actor_data w { s.actor_data w with tml_maximize := none } ∧
    (on_map_effect_complete s w).actor_data
      = Function.update s.actor_data w { s.actor_data w with tml_map := none } ∧
    (on_destroy_effect_complete s w).actor_data
      = Function.update s.actor_data w { s.actor_data w with tml_destroy := none } := by
  simp [on_minimize_effect_complete, on_maximize_effect_complete, on_map_effect_complete,
    on_destroy_effect_complete, (notify_completed_frame _ _ _).2.2.1, State.call,
    set_actor_private, get_actor_private, clutter_actor_hide]

/-- After the per-window part of `kill_effect`, the handle of every requested per-window
kind is null. -/
theorem kill_effect_actor_handles (s : State) (w event : Nat) :
    (event &&& META_COMPOSITOR_CLUTTER_PLUGIN_MINIMIZE ≠ 0 →
      ((kill_effect_actor s w event).actor_data w).tml_minimize = none) ∧
    (event &&& META_COMPOSITOR_CLUTTER_PLUGIN_MAXIMIZE ≠ 0 →
      ((kill_effect_actor s w event).actor_data w).tml_maximize = none) ∧
    (event &&& META_COMPOSITOR_CLUTTER_PLUGIN_MAP ≠ 0 →
      ((kill_effect_actor s w event).actor_data w).tml_map = none) ∧
    (event &&& META_COMPOSITOR_CLUTTER_PLUGIN_DESTROY ≠ 0 →
      ((kill_effect_actor s w event).actor_data w).tml_destroy = none) := by
  unfold kill_effect_actor
  simp only [get_actor_private]
  split_ifs <;>
    simp_all [(completion_actor_data _ _).1, (completion_actor_data _ _).2.1,
      (completion_actor_data _ _).2.2.1, (completion_actor_data _ _).2.2.2, State.call]

/-- C15, counterexample: in `minimize_only_state` only the minimize kind is in `features` and
window 0 has a maximize animation in flight.  `kill_effect (window 0, MINIMIZE | MAXIMIZE)`
passes the feature test because of the minimize bit and then interrupts the maximize
animation, a kind outside the feature mask: the handle is cleared, `running` is decremented
and the host is notified of a completed maximize. -/
theorem kill_effect_mixed_mask_kills_disabled_kind :
    (minimize_only_state.features, minimize_only_state.running,
      (minimize_only_state.actor_data 0).tml_maximize) = (1, 0, some 0) ∧
    minimize_only_state.features &&& META_COMPOSITOR_CLUTTER_PLUGIN_MAXIMIZE = 0 ∧
    (kill_effect minimize_only_state 0 3).map
        (fun s => ((s.actor_data 0).tml_maximize, s.running, notifications s.trace))
      = some (none, -1, [(some (.window 0), META_COMPOSITOR_CLUTTER_PLUGIN_MAXIMIZE)]) := by
  decide

/-! ### Pass-through (C16, C17) -/

/-- C17, counterexample: in `no_features_state` no kind is in `features`; `minimize` on the
NORMAL window 0 nevertheless starts an animation (timeline 0), stores its handle, increments
`running` and does not notify the host. -/
theorem minimize_ignores_feature_mask :
    no_features_state.features = 0 ∧
    (minimize no_features_state 0 .NORMAL 0).map
        (fun s => (effect_starts s.trace, (s.actor_data 0).tml_minimize, s.running))
      = some ([0], some 0, 1) ∧
    (minimize no_features_state 0 .NORMAL 0).map (fun s => notifications s.trace)
      = some (notifications no_features_state.trace) := by
  decide

/-- C17, amended: the controller entry points do not consult `features`.  For every state,
window, window type and feature mask `f`, each of `minimize`, `maximize`, `map` and `destroy`
does with `features = f` exactly what it does otherwise; and on a NORMAL window of the
initialised plugin each of them starts its animation, stores the handle and sends no
notification, whether its kind is in `features` or not. -/
theorem controller_ignores_feature_mask (s : State) (pp : PluginPrivate) (w : Nat)
    (type : MetaCompWindowType) (workspace end_x end_y end_width end_height : Int) (f : Nat)
    (hp : s.plugin_private = some pp) :
    (minimize { s with features := f } w type workspace
      = (minimize s w type workspace).map (fun s1 => { s1 with features := f })) ∧
    (maximize { s with features := f } w type workspace end_x end_y end_width end_height
      = (maximize s w type workspace end_x end_y end_width end_height).map
          (fun s1 => { s1 with features := f })) ∧
    (map { s with features := f } w type workspace
      = (map s w type workspace).map (fun s1 => { s1 with features := f })) ∧
    (destroy { s with features := f } w type workspace
      = (destroy s w type workspace).map (fun s1 => { s1 with features := f })) ∧
    (∃ s1, minimize s w .NORMAL workspace = some s1 ∧
      (s1.actor_data w).tml_minimize = some s.timelines ∧
      effect_starts s1.trace = effect_starts s.trace ++ [s.timelines] ∧
      notifications s1.trace = notifications s.trace) ∧
    (∃ s1, maximize s w .NORMAL workspace end_x end_y end_width end_height = some s1 ∧
      (s1.actor_data w).tml_maximize = some s.timelines ∧
      effect_starts s1.trace = effect_starts s.trace ++ [s.timelines] ∧
      notifications s1.trace = notifications s.trace) ∧
    (∃ s1, map s w .NORMAL workspace = some s1 ∧
      (s1.actor_data w).tml_map = some s.timelines ∧
      effect_starts s1.trace = effect_starts s.trace ++ [s.timelines] ∧
      notifications s1.trace = notifications s.trace) ∧
    (∃ s1, destroy s w .NORMAL workspace = some s1 ∧
      (s1.actor_data w).tml_destroy = some s.timelines ∧
      effect_starts s1.trace = effect_starts s.trace ++ [s.timelines] ∧
      notifications s1.trace = notifications s.trace) := by
  refine ⟨?_, ?_, ?_, ?_, ?_, ?_, ?_, ?_⟩
  · by_cases ht : type = .NORMAL
    · simp [minimize, ht, hp, set_actor_private, get_actor_private, clutter_effect_scale,
        State.call]
    · simp only [minimize, if_neg ht, notify_completed, State.call]
      split <;> rfl
  · by_cases ht : type = .NORMAL
    · simp [maximize, ht, hp, set_actor_private, get_actor_private, clutter_effect_scale,
        State.call]
    · simp only [maximize, if_neg ht, notify_completed, State.call]
      split <;> rfl
  · by_cases ht : type = .NORMAL
    · simp [map, ht, hp, set_actor_private, get_actor_private, clutter_effect_scale,
        State.call, clutter_actor_show]
    · simp only [map, if_neg ht, notify_completed, State.call]
      split <;> rfl
  · by_cases ht : type = .NORMAL
    · simp [destroy, ht, hp, set_actor_private, get_actor_private, clutter_effect_scale,
        State.call]
    · simp only [destroy, if_neg ht, notify_completed, State.call]
      split <;> rfl
  · simp [minimize, hp, set_actor_private, get_actor_private, clutter_effect_scale, State.call,
      effect_starts_append, notifications_append]
    simp [effect_starts, notifications]
  · simp [maximize, hp, set_actor_private, get_actor_private, clutter_effect_scale, State.call,
      effect_starts_append, notifications_append]
    simp [effect_starts, notifications]
  · simp [map, hp, set_actor_private, get_actor_private, clutter_effect_scale, State.call,
      effect_starts_append, notifications_append, clutter_actor_show]
    simp [effect_starts, notifications]
  · simp [destroy, hp, set_actor_private, get_actor_private, clutter_effect_scale, State.call,
      effect_starts_append, notifications_append]
    simp [effect_starts, notifications]

/-- C17, witness: the amended statement at `no_features_state`, where the destroy kind is not
in `features`, for `destroy` on the NORMAL window 0. -/
theorem controller_ignores_feature_mask_witness :
    (no_features_state.plugin_private = some initial_private ∧
      no_features_state.features &&& META_COMPOSITOR_CLUTTER_PLUGIN_DESTROY = 0) ∧
    ∃ s1, destroy no_features_state 0 .NORMAL 0 = some s1 ∧
      (s1.actor_data 0).tml_destroy = some no_features_state.timelines ∧
      effect_starts s1.trace
        = effect_starts no_features_state.trace ++ [no_features_state.timelines] ∧
      notifications s1.trace = notifications no_features_state.trace :=
  ⟨⟨rfl, by decide⟩,
   (controller_ignores_feature_mask no_features_state initial_private 0 .NORMAL 0 0 0 0 0 0
     rfl).2.2.2.2.2.2.2⟩

/-! ### The unmaximize stub (C19) -/

/-- C19, counterexample: `unmaximize` calls `plugin->completed` without testing it; with no
host callback registered the call does not return (and no notification is made). -/
theorem unmaximize_without_callback :
    no_callback_state.completed = false ∧
    (unmaximize no_callback_state 0 .NORMAL 0 0 0 200 150).isSome = false ∧
    (unmaximize no_callback_state 0 .DOCK 0 0 0 200 150).isSome = false := by
  decide

/-- C19, amended: for every state with a host callback registered, every window, window type
and target rectangle, `unmaximize` returns; the only call it makes is the notification
`completed (window, UNMAXIMIZE)`, so it starts no animation and notifies the host exactly
once; `running`, `plugin_private` and the `ActorPrivate` of every other window are unchanged,
and so is the `ActorPrivate` of the window itself except that `is_maximized` becomes false
when the window type is NORMAL. -/
theorem unmaximize_notifies_once (s : State) (w : Nat) (type : MetaCompWindowType)
    (workspace end_x end_y end_width end_height : Int) (hcb : s.completed = true) :
    ∃ s1, unmaximize s w type workspace end_x end_y end_width end_height = some s1 ∧
      s1.trace = s.trace ++
        [Call.completed (some (.window w)) META_COMPOSITOR_CLUTTER_PLUGIN_UNMAXIMIZE] ∧
      notifications s1.trace = notifications s.trace ++
        [(some (.window w), META_COMPOSITOR_CLUTTER_PLUGIN_UNMAXIMIZE)] ∧
      effect_starts s1.trace = effect_starts s.trace ∧
      s1.running = s.running ∧
      s1.plugin_private = s.plugin_private ∧
      (∀ v, v ≠ w → s1.actor_data v = s.actor_data v) ∧
      s1.actor_data w = (if type = .NORMAL then
        { s.actor_data w with is_maximized := false } else s.actor_data w) := by
  by_cases ht : type = .NORMAL
  · simp [unmaximize, ht, hcb, set_actor_private, get_actor_private, State.call,
      notifications_append, effect_starts_append]
    refine ⟨by simp [notifications], by simp [effect_starts], fun v hv => ?_⟩
    simp [Function.update, hv]
  · simp [unmaximize, ht, hcb, set_actor_private, get_actor_private, State.call,
      notifications_append, effect_starts_append]
    exact ⟨by simp [notifications], by simp [effect_starts]⟩

/-- C19, witness: the amended statement at the state at rest, window 0 of type NORMAL. -/
theorem unmaximize_notifies_once_witness :
    initial_state.completed = true ∧
    ∃ s1, unmaximize initial_state 0 .NORMAL 0 0 0 200 150 = some s1 ∧
      notifications s1.trace = notifications initial_state.trace ++
        [(some (.window 0), META_COMPOSITOR_CLUTTER_PLUGIN_UNMAXIMIZE)] ∧
      effect_starts s1.trace = effect_starts initial_state.trace ∧
      s1.running = initial_state.running := by
  obtain ⟨s1, h1, _, h3, h4, h5, _⟩ :=
    unmaximize_notifies_once initial_state 0 .NORMAL 0 0 0 200 150 rfl
  exact ⟨rfl, s1, h1, h3, h4, h5⟩

/-! ### Completion of a workspace switch (C18) -/

theorem restore_parent_notifications (s : State) (a : Nat) :
    notifications (restore_parent s a).trace = notifications s.trace := by
  unfold restore_parent
  split
  · simp [set_actor_private, get_actor_private, clutter_actor_reparent, notifications_append]
    simp [notifications]
  · rfl

theorem restore_loop_notifications (l : List Nat) (s : State) :
    notifications (l.foldl restore_parent s).trace = notifications s.trace := by
  induction l generalizing s with
  | nil => rfl
  | cons a l ih =>
    simp only [List.foldl_cons]
    rw [ih, restore_parent_notifications]

theorem restore_loop_other (l : List Nat) (s : State) (w : Nat) (h : w ∉ l) :
    (l.foldl restore_parent s).parent w = s.parent w ∧
    (l.foldl restore_parent s).actor_data w = s.actor_data w := by
  induction l generalizing s with
  | nil => simp
  | cons a l ih =>
    simp only [List.foldl_cons]
    have hwa : w ≠ a := fun e => h (e ▸ List.mem_cons_self _ _)
    have hwl : w ∉ l := fun e => h (List.mem_cons_of_mem _ e)
    obtain ⟨h1, h2⟩ := ih (restore_parent s a) hwl
    obtain ⟨k1, k2⟩ := restore_parent_other s a w hwa
    exact ⟨h1.trans k1, h2.trans k2⟩

theorem restore_loop_member (l : List Nat) (s : State) (w : Nat) (hw : w ∈ l) :
    (l.foldl restore_parent s).parent w
      = (match (s.actor_data w).orig_parent with
         | some p => some p
         | none => s.parent w) ∧
    ((l.foldl restore_parent s).actor_data w).orig_parent = none := by
  cases ho : (s.actor_data w).orig_parent with
  | none => exact restore_loop_skipped l s w ho
  | some p => exact restore_loop_restored l s w p hw ho

/-- What `on_switch_workspace_effect_complete` leaves, on a non-empty list and with
`plugin_private` set. -/
theorem on_switch_workspace_effect_complete_result (s : State) (pp : PluginPrivate)
    (l : List Nat) (hp : s.plugin_private = some pp) (hne : l ≠ []) :
    ∃ s2, on_switch_workspace_effect_complete s (some l) = some s2 ∧
      s2.parent = (l.foldl restore_parent s).parent ∧
      s2.actor_data = (l.foldl restore_parent s).actor_data ∧
      s2.plugin_private = some
        { pp with actors := none, tml_switch_workspace1 := none,
                  tml_switch_workspace2 := none, desktop1 := none, desktop2 := none } ∧
      notifications s2.trace = notifications s.trace ++
        (if s.completed then
          [(l.head?.map ClutterActor.window, META_COMPOSITOR_CLUTTER_PLUGIN_SWITCH_WORKSPACE)]
         else []) := by
  cases l with
  | nil => exact absurd rfl hne
  | cons a rest =>
    obtain ⟨f1, _, f3, _⟩ := restore_loop_frame (a :: rest) s
    have fn := restore_loop_notifications (a :: rest) s
    simp only [on_switch_workspace_effect_complete, f1, hp]
    refine ⟨_, rfl, ?_, ?_, ?_, ?_⟩
    · rw [(notify_completed_frame _ _ _).1]
      simp [State.call]
    · rw [(notify_completed_frame _ _ _).2.2.1]
      simp [State.call]
    · rw [(notify_completed_frame _ _ _).2.2.2.1]
    · simp only [List.foldl_cons] at f3 fn
      by_cases hcb : s.completed = true
      · simp [notify_completed, State.call, f3, hcb, notifications_append, fn]
        simp [notifications]
      · simp [notify_completed, State.call, f3, hcb, notifications_append, fn]
        simp [notifications]

theorem switch_workspace_completed (s s1 : State) (actors : List Nat) (f t : Int)
    (h : switch_workspace s actors f t = some s1) : s1.completed = s.completed := by
  have hg : (switch_workspace_groups s).1.completed = s.completed := by
    simp [switch_workspace_groups, clutter_group_new, State.call]
  unfold switch_workspace at h
  simp only at h
  split at h
  · injection h with h
    subst h
    unfold notify_completed
    split <;> simp [State.call, hg]
  · split at h
    · exact absurd h (by simp)
    · injection h with h
      subst h
      simp only [clutter_effect_scale]
      exact ((switch_loop_frame _ _ _ _ _ _).2.2.2).trans hg

/-- C18, counterexample: with no host callback registered, the completion of the switch
started by `switch_workspace ([0], 0, 1)` notifies nobody; and for the empty actor list the
completion path does not return at all, because it reads the first list element before its
loop. -/
theorem switch_workspace_completion_fails :
    no_callback_state.completed = false ∧
    ((switch_workspace no_callback_state [0] 0 1).bind
        (fun s => on_switch_workspace_effect_complete s (some [0]))).map
        (fun s => notifications s.trace) = some (notifications no_callback_state.trace) ∧
    (switch_workspace initial_state [] 0 1).isSome = true ∧
    ((switch_workspace initial_state [] 0 1).bind
        (fun s => on_switch_workspace_effect_complete s (some []))).isSome = false := by
  decide

/-- C18, amended: for every state of the initialised plugin, every non-empty actor list and
`from ≠ to`, `switch_workspace` returns a state `s1` on which the completion path
`on_switch_workspace_effect_complete` returns a state `s2` such that: every listed window
with a recorded `orig_parent` has that parent again and every other listed window keeps the
parent it had in `s1`; `orig_parent` is null for every listed window; windows outside the list
keep their parent and their `ActorPrivate`; `actors`, `desktop1`, `desktop2`,
`tml_switch_workspace1` and `tml_switch_workspace2` are null; and, when a host callback is
registered, exactly one notification is added, of kind SWITCH_WORKSPACE and for the first
window of the list (none is added when no callback is registered). -/
theorem switch_workspace_completion_clears_state (s : State) (pp : PluginPrivate)
    (actors : List Nat) (from_ to_ : Int)
    (hp : s.plugin_private = some pp) (hne : from_ ≠ to_) (hnil : actors ≠ []) :
    ∃ s1 s2 pp2, switch_workspace s actors from_ to_ = some s1 ∧
      on_switch_workspace_effect_complete s1 (some actors) = some s2 ∧
      (∀ w ∈ actors,
        s2.parent w = (match (s1.actor_data w).orig_parent with
          | some p => some p
          | none => s1.parent w) ∧
        (s2.actor_data w).orig_parent = none) ∧
      (∀ w, w ∉ actors → s2.parent w = s1.parent w ∧ s2.actor_data w = s1.actor_data w) ∧
      s2.plugin_private = some pp2 ∧
      pp2.actors = none ∧ pp2.desktop1 = none ∧ pp2.desktop2 = none ∧
      pp2.tml_switch_workspace1 = none ∧ pp2.tml_switch_workspace2 = none ∧
      notifications s2.trace = notifications s1.trace ++
        (if s.completed then
          [(actors.head?.map ClutterActor.window,
            META_COMPOSITOR_CLUTTER_PLUGIN_SWITCH_WORKSPACE)]
         else []) := by
  obtain ⟨s1, h1, _, _, _, _, hpp⟩ := switch_workspace_started s pp actors from_ to_ hp hne
  obtain ⟨s2, k1, k2, k3, k4, k5⟩ := on_switch_workspace_effect_complete_result s1 _ actors
    hpp hnil
  rw [switch_workspace_completed s s1 actors from_ to_ h1] at k5
  refine ⟨s1, s2, _, h1, k1, fun w hw => ?_, fun w hw => ?_, k4, rfl, rfl, rfl, rfl, rfl, k5⟩
  · rw [k2, k3]
    exact restore_loop_member actors s1 w hw
  · rw [k2, k3]
    exact restore_loop_other actors s1 w hw

/-- C18, witness: the amended statement at `one_window_per_workspace_state` for the list
`[0, 1, 2]` and the switch from workspace 0 to workspace 1. -/
theorem switch_workspace_completion_clears_state_witness :
    (one_window_per_workspace_state.plugin_private = some initial_private ∧
      (0 : Int) ≠ 1 ∧ [0, 1, 2] ≠ ([] : List Nat) ∧
      one_window_per_workspace_state.completed = true) ∧
    ∃ s1 s2 pp2, switch_workspace one_window_per_workspace_state [0, 1, 2] 0 1 = some s1 ∧
      on_switch_workspace_effect_complete s1 (some [0, 1, 2]) = some s2 ∧
      (s2.actor_data 1).orig_parent = none ∧
      s2.plugin_private = some pp2 ∧
      pp2.actors = none ∧ pp2.desktop1 = none ∧ pp2.desktop2 = none ∧
      pp2.tml_switch_workspace1 = none ∧ pp2.tml_switch_workspace2 = none ∧
      notifications s2.trace = notifications s1.trace ++
        [(some (.window 0), META_COMPOSITOR_CLUTTER_PLUGIN_SWITCH_WORKSPACE)] := by
  obtain ⟨s1, s2, pp2, h1, h2, h3, _, h5, h6, h7, h8, h9, h10, h11⟩ :=
    switch_workspace_completion_clears_state one_window_per_workspace_state initial_private
      [0, 1, 2] 0 1 rfl (by decide) (by decide)
  exact ⟨⟨rfl, by decide, by decide, rfl⟩,
    s1, s2, pp2, h1, h2, (h3 1 (by decide)).2, h5, h6, h7, h8, h9, h10, h11⟩

/-! ### Order of the calls in the minimize completion (C21) -/

/-- C21, counterexample: in `minimize_active_state` the completion of the minimize animation of
window 0 makes its calls in the order hide, set_scale, move_anchor_point_from_gravity, then
the host notification: the window is hidden before its scale and anchor are restored. -/
theorem on_minimize_effect_complete_hides_first :
    (on_minimize_effect_complete minimize_active_state 0).trace
      = [Call.clutter_actor_hide (.window 0),
         Call.clutter_actor_set_scale (.window 0) (.finite 1) (.finite 1),
         Call.clutter_actor_move_anchor_point_from_gravity (.window 0) .NORTH_WEST,
         Call.completed (some (.window 0)) META_COMPOSITOR_CLUTTER_PLUGIN_MINIMIZE] := by
  decide

/-- C21, amended: in every state and for every window, `on_minimize_effect_complete` makes
exactly these calls, in this order: `clutter_actor_hide`, then `clutter_actor_set_scale`
(1.0, 1.0), then `clutter_actor_move_anchor_point_from_gravity` (north-west), then, when a host
callback is registered, the notification.  The change of visibility precedes the reversal of
the transient visual state, as the comment of the function requires ("must hide it first to
ensure that the restoration will not be visible"). -/
theorem on_minimize_effect_complete_call_order (s : State) (w : Nat) :
    (on_minimize_effect_complete s w).trace = s.trace ++
      [Call.clutter_actor_hide (.window w),
       Call.clutter_actor_set_scale (.window w) (.finite 1) (.finite 1),
       Call.clutter_actor_move_anchor_point_from_gravity (.window w) .NORTH_WEST] ++
      (if s.completed then
        [Call.completed (some (.window w)) META_COMPOSITOR_CLUTTER_PLUGIN_MINIMIZE]
       else []) := by
  by_cases hcb : s.completed = true
  · simp [on_minimize_effect_complete, notify_completed, hcb, State.call, set_actor_private,
      clutter_actor_hide]
  · simp [on_minimize_effect_complete, notify_completed, hcb, State.call, set_actor_private,
      clutter_actor_hide]

/-! ### The feature mask only shrinks (C24) -/

theorem mask_subset_refl (a : Nat) : mask_subset a a := fun _ h => h

theorem mask_subset_trans (a b c : Nat) (h1 : mask_subset a b) (h2 : mask_subset b c) :
    mask_subset a c := fun i h => h2 i (h1 i h)

theorem mask_subset_land (a m : Nat) : mask_subset (a &&& m) a := by
  intro i h
  rw [Nat.testBit_land] at h
  simp only [Bool.and_eq_true] at h
  exact h.1

theorem mask_subset_disjoint (a b k : Nat) (h : mask_subset a b) (hk : b &&& k = 0) :
    a &&& k = 0 := by
  apply Nat.eq_of_testBit_eq
  intro i
  have hb : (b &&& k).testBit i = false := by rw [hk]; simp
  rw [Nat.testBit_land] at hb ⊢
  simp only [Nat.zero_testBit]
  cases ha : a.testBit i with
  | false => simp
  | true => rw [h i ha] at hb; simpa using hb

theorem disable_features_subset (features : Nat) (d : List Char) :
    mask_subset (disable_features features d) features := by
  unfold disable_features
  simp only
  split_ifs <;>
    first
    | exact mask_subset_refl _
    | exact mask_subset_land _ _
    | exact mask_subset_trans _ _ _ (mask_subset_land _ _) (mask_subset_land _ _)
    | exact mask_subset_trans _ _ _ (mask_subset_land _ _)
        (mask_subset_trans _ _ _ (mask_subset_land _ _) (mask_subset_land _ _))
    | exact mask_subset_trans _ _ _ (mask_subset_land _ _)
        (mask_subset_trans _ _ _ (mask_subset_land _ _)
          (mask_subset_trans _ _ _ (mask_subset_land _ _) (mask_subset_land _ _)))
    | exact mask_subset_trans _ _ _ (mask_subset_land _ _)
        (mask_subset_trans _ _ _ (mask_subset_land _ _)
          (mask_subset_trans _ _ _ (mask_subset_land _ _)
            (mask_subset_trans _ _ _ (mask_subset_land _ _) (mask_subset_land _ _))))
    | exact mask_subset_trans _ _ _ (mask_subset_land _ _)
        (mask_subset_trans _ _ _ (mask_subset_land _ _)
          (mask_subset_trans _ _ _ (mask_subset_land _ _)
            (mask_subset_trans _ _ _ (mask_subset_land _ _)
              (mask_subset_trans _ _ _ (mask_subset_land _ _) (mask_subset_land _ _)))))

theorem do_init_features_subset (features : Nat) (params : Option (List Char)) :
    mask_subset (do_init_features features params) features := by
  unfold do_init_features
  split
  · exact mask_subset_refl _
  · split
    · exact mask_subset_refl _
    · exact disable_features_subset _ _

theorem do_init_times_subset (n : Nat) (s : State) :
    mask_subset (do_init_times n s).features s.features := by
  induction n generalizing s with
  | zero => exact mask_subset_refl _
  | succ n ih =>
    exact mask_subset_trans _ _ _ (ih (do_init s).1) (do_init_features_subset _ _)

/-! ### What the completion paths leave alone (C22, C23, C25) -/

theorem restore_parent_fields (s : State) (a v : Nat) (o : Option ClutterActor) :
    { (restore_parent s a).actor_data v with orig_parent := o }
      = { s.actor_data v with orig_parent := o } ∧
    (restore_parent s a).running = s.running ∧
    ∃ mid, (restore_parent s a).trace = s.trace ++ mid := by
  unfold restore_parent
  split
  · refine ⟨?_, rfl, _, rfl⟩
    by_cases h : v = a
    · subst h
      simp [set_actor_private, get_actor_private, clutter_actor_reparent]
    · simp [set_actor_private, get_actor_private, clutter_actor_reparent, Function.update, h]
  · exact ⟨rfl, rfl, [], by simp⟩

theorem restore_loop_fields (l : List Nat) (s : State) (v : Nat) (o : Option ClutterActor) :
    { (l.foldl restore_parent s).actor_data v with orig_parent := o }
      = { s.actor_data v with orig_parent := o } ∧
    (l.foldl restore_parent s).running = s.running ∧
    ∃ mid, (l.foldl restore_parent s).trace = s.trace ++ mid := by
  induction l generalizing s with
  | nil => exact ⟨rfl, rfl, [], by simp⟩
  | cons a l ih =>
    simp only [List.foldl_cons]
    obtain ⟨h1, r1, m1, h2⟩ := ih (restore_parent s a)
    obtain ⟨k1, r2, m2, k2⟩ := restore_parent_fields s a v o
    exact ⟨h1.trans k1, r1.trans r2, m2 ++ m1, by rw [h2, k2, List.append_assoc]⟩

/-- Whenever `on_switch_workspace_effect_complete` returns, it was given a non-empty list
in a state with `plugin_private` set; it changes no field of an `ActorPrivate` other than
`orig_parent`, keeps `features` and only appends to the trace. -/
theorem on_switch_workspace_effect_complete_frame (s s2 : State) (data : Option (List Nat))
    (h : on_switch_workspace_effect_complete s data = some s2) :
    (∃ l pp, data = some l ∧ l ≠ [] ∧ s.plugin_private = some pp) ∧
    (∀ v o, { s2.actor_data v with orig_parent := o }
      = { s.actor_data v with orig_parent := o }) ∧
    s2.features = s.features ∧
    s2.running = s.running ∧
    ∃ mid, s2.trace = s.trace ++ mid := by
  cases data with
  | none => simp [on_switch_workspace_effect_complete] at h
  | some l =>
    cases l with
    | nil => simp [on_switch_workspace_effect_complete] at h
    | cons a rest =>
      obtain ⟨f1, _, _, f4⟩ := restore_loop_frame (a :: rest) s
      cases hp : s.plugin_private with
      | none =>
        simp only [on_switch_workspace_effect_complete, f1, hp] at h
        exact absurd h (by simp)
      | some pp =>
        simp only [on_switch_workspace_effect_complete, f1, hp, Option.some.injEq] at h
        subst h
        refine ⟨⟨_, pp, rfl, by simp, rfl⟩, fun v o => ?_, ?_, ?_, ?_⟩
        · rw [(notify_completed_frame _ _ _).2.2.1]
          exact (restore_loop_fields (a :: rest) s v o).1
        · unfold notify_completed
          split <;> exact f4
        · rw [(notify_completed_frame _ _ _).2.2.2.2]
          exact (restore_loop_fields (a :: rest) s 0 none).2.1
        · obtain ⟨mid, hm⟩ := (restore_loop_fields (a :: rest) s 0 none).2.2
          unfold notify_completed
          split
          · exact ⟨mid ++ [Call.clutter_actor_destroy pp.desktop1,
              Call.clutter_actor_destroy pp.desktop2,
              Call.completed (some (.window a))
                META_COMPOSITOR_CLUTTER_PLUGIN_SWITCH_WORKSPACE], by
              simp only [State.call, hm, List.append_assoc, List.cons_append,
                List.nil_append]⟩
          · exact ⟨mid ++ [Call.clutter_actor_destroy pp.desktop1,
              Call.clutter_actor_destroy pp.desktop2], by
              simp only [State.call, hm, List.append_assoc, List.cons_append,
                List.nil_append]⟩

theorem completion_frame (s : State) (w : Nat) :
    ((on_minimize_effect_complete s w).plugin_private = s.plugin_private ∧
      (on_minimize_effect_complete s w).features = s.features ∧
      ∃ rest, (on_minimize_effect_complete s w).trace = s.trace ++ rest) ∧
    ((on_maximize_effect_complete s w).plugin_private = s.plugin_private ∧
      (on_maximize_effect_complete s w).features = s.features ∧
      ∃ rest, (on_maximize_effect_complete s w).trace = s.trace ++ rest) ∧
    ((on_map_effect_complete s w).plugin_private = s.plugin_private ∧
      (on_map_effect_complete s w).features = s.features ∧
      ∃ rest, (on_map_effect_complete s w).trace = s.trace ++ rest) ∧
    ((on_destroy_effect_complete s w).plugin_private = s.plugin_private ∧
      (on_destroy_effect_complete s w).features = s.features ∧
      ∃ rest, (on_destroy_effect_complete s w).trace = s.trace ++ rest) := by
  refine ⟨⟨?_, ?_, ?_⟩, ⟨?_, ?_, ?_⟩, ⟨?_, ?_, ?_⟩, ⟨?_, ?_, ?_⟩⟩ <;>
    simp only [on_minimize_effect_complete, on_maximize_effect_complete,
      on_map_effect_complete, on_destroy_effect_complete, notify_completed, State.call,
      set_actor_private, get_actor_private, clutter_actor_hide] <;>
    split <;>
    first
    | rfl
    | exact ⟨[], (List.append_nil _).symm⟩
    | exact ⟨_, by simp only [List.append_assoc]; rfl⟩

theorem completion_flags (s : State) (w v : Nat) :
    logical_flags (on_minimize_effect_complete s w) v = logical_flags s v ∧
    logical_flags (on_maximize_effect_complete s w) v = logical_flags s v ∧
    logical_flags (on_map_effect_complete s w) v = logical_flags s v ∧
    logical_flags (on_destroy_effect_complete s w) v = logical_flags s v := by
  unfold logical_flags
  rw [(completion_actor_data s w).1, (completion_actor_data s w).2.1,
    (completion_actor_data s w).2.2.1, (completion_actor_data s w).2.2.2]
  by_cases h : v = w
  · subst h; simp
  · simp [Function.update, h]

theorem kill_effect_actor_steps (s : State) (w event : Nat) :
    kill_effect_actor s w event
      = kill_effect_destroy (kill_effect_map (kill_effect_maximize
          (kill_effect_minimize s w event) w event) w event) w event := rfl

theorem continues_refl (t : State) : continues t t :=
  ⟨rfl, rfl, fun _ => rfl, [], (List.append_nil _).symm⟩

theorem continues_trans (t u x : State) (h1 : continues t u) (h2 : continues u x) :
    continues t x := by
  obtain ⟨a1, a2, a3, r1, a4⟩ := h1
  obtain ⟨b1, b2, b3, r2, b4⟩ := h2
  exact ⟨b1.trans a1, b2.trans a2, fun v => (b3 v).trans (a3 v), r1 ++ r2,
    by rw [b4, a4, List.append_assoc]⟩

theorem continues_call (t : State) (c : Call) : continues t (t.call c) :=
  ⟨rfl, rfl, fun _ => rfl, [c], rfl⟩

theorem continues_completion (s : State) (w : Nat) :
    continues s (on_minimize_effect_complete s w) ∧
    continues s (on_maximize_effect_complete s w) ∧
    continues s (on_map_effect_complete s w) ∧
    continues s (on_destroy_effect_complete s w) :=
  ⟨⟨(completion_frame s w).1.1, (completion_frame s w).1.2.1,
      fun v => (completion_flags s w v).1, (completion_frame s w).1.2.2⟩,
   ⟨(completion_frame s w).2.1.1, (completion_frame s w).2.1.2.1,
      fun v => (completion_flags s w v).2.1, (completion_frame s w).2.1.2.2⟩,
   ⟨(completion_frame s w).2.2.1.1, (completion_frame s w).2.2.1.2.1,
      fun v => (completion_flags s w v).2.2.1, (completion_frame s w).2.2.1.2.2⟩,
   ⟨(completion_frame s w).2.2.2.1, (completion_frame s w).2.2.2.2.1,
      fun v => (completion_flags s w v).2.2.2, (completion_frame s w).2.2.2.2.2⟩⟩

theorem continues_kill_effect_actor (s : State) (w event : Nat) :
    continues s (kill_effect_actor s w event) := by
  have h1 : continues s (kill_effect_minimize s w event) := by
    unfold kill_effect_minimize
    split
    · exact continues_trans _ _ _ (continues_call _ _) (continues_completion _ w).1
    · exact continues_refl _
  have h2 : ∀ t, continues t (kill_effect_maximize t w event) := by
    intro t
    unfold kill_effect_maximize
    split
    · exact continues_trans _ _ _ (continues_call _ _) (continues_completion _ w).2.1
    · exact continues_refl _
  have h3 : ∀ t, continues t (kill_effect_map t w event) := by
    intro t
    unfold kill_effect_map
    split
    · exact continues_trans _ _ _ (continues_call _ _) (continues_completion _ w).2.2.1
    · exact continues_refl _
  have h4 : ∀ t, continues t (kill_effect_destroy t w event) := by
    intro t
    unfold kill_effect_destroy
    split
    · exact continues_trans _ _ _ (continues_call _ _) (continues_completion _ w).2.2.2
    · exact continues_refl _
  rw [kill_effect_actor_steps]
  exact continues_trans _ _ _ (continues_trans _ _ _ (continues_trans _ _ _ h1 (h2 _)) (h3 _))
    (h4 _)

/-- The per-window part of `kill_effect` changes nothing when no requested kind has a
handle set. -/
theorem kill_effect_actor_inactive (s : State) (w event : Nat)
    (hmin : event &&& META_COMPOSITOR_CLUTTER_PLUGIN_MINIMIZE ≠ 0 →
      (s.actor_data w).tml_minimize = none)
    (hmax : event &&& META_COMPOSITOR_CLUTTER_PLUGIN_MAXIMIZE ≠ 0 →
      (s.actor_data w).tml_maximize = none)
    (hmap : event &&& META_COMPOSITOR_CLUTTER_PLUGIN_MAP ≠ 0 →
      (s.actor_data w).tml_map = none)
    (hdes : event &&& META_COMPOSITOR_CLUTTER_PLUGIN_DESTROY ≠ 0 →
      (s.actor_data w).tml_destroy = none) :
    kill_effect_actor s w event = s := by
  have h1 : ¬ (event &&& META_COMPOSITOR_CLUTTER_PLUGIN_MINIMIZE ≠ 0
      ∧ (get_actor_private s w).tml_minimize ≠ none) := fun h => h.2 (hmin h.1)
  have h2 : ¬ (event &&& META_COMPOSITOR_CLUTTER_PLUGIN_MAXIMIZE ≠ 0
      ∧ (get_actor_private s w).tml_maximize ≠ none) := fun h => h.2 (hmax h.1)
  have h3 : ¬ (event &&& META_COMPOSITOR_CLUTTER_PLUGIN_MAP ≠ 0
      ∧ (get_actor_private s w).tml_map ≠ none) := fun h => h.2 (hmap h.1)
  have h4 : ¬ (event &&& META_COMPOSITOR_CLUTTER_PLUGIN_DESTROY ≠ 0
      ∧ (get_actor_private s w).tml_destroy ≠ none) := fun h => h.2 (hdes h.1)
  simp only [kill_effect_actor, if_neg h1, if_neg h2, if_neg h3, if_neg h4]

theorem kill_effect_actor_idempotent (s : State) (w event : Nat) :
    kill_effect_actor (kill_effect_actor s w event) w event = kill_effect_actor s w event := by
  obtain ⟨h1, h2, h3, h4⟩ := kill_effect_actor_handles s w event
  exact kill_effect_actor_inactive _ w event h1 h2 h3 h4

theorem kill_effect_switch_workspace_inactive (s : State) (pp : PluginPrivate)
    (hp : s.plugin_private = some pp) (h : pp.tml_switch_workspace1 = none) :
    kill_effect_switch_workspace s = some s := by
  simp [kill_effect_switch_workspace, hp, h]

/-- Whenever the workspace-switch part of `kill_effect` returns, the returned state continues
the given one, no workspace switch is active in it, and no field of an `ActorPrivate` other
than `orig_parent` has changed. -/
theorem kill_effect_switch_workspace_frame (s s1 : State)
    (h : kill_effect_switch_workspace s = some s1) :
    s1.features = s.features ∧
    (∀ v, logical_flags s1 v = logical_flags s v) ∧
    (∃ pp1, s1.plugin_private = some pp1 ∧ pp1.tml_switch_workspace1 = none) ∧
    (∀ v o, { s1.actor_data v with orig_parent := o }
      = { s.actor_data v with orig_parent := o }) ∧
    ∃ rest, s1.trace = s.trace ++ rest := by
  unfold kill_effect_switch_workspace at h
  cases hp : s.plugin_private with
  | none => simp [hp] at h
  | some pp =>
    simp only [hp] at h
    by_cases hact : pp.tml_switch_workspace1 ≠ none
    · rw [if_pos hact] at h
      obtain ⟨⟨l, pp', hl, hne, hp'⟩, k2, k3, _, mid, k5⟩ :=
        on_switch_workspace_effect_complete_frame _ _ _ h
      have hpp : pp' = pp := by
        have : some pp' = some pp := hp'.symm.trans hp
        exact Option.some.inj this
      subst hpp
      obtain ⟨s2, r1, _, _, r4, _⟩ := on_switch_workspace_effect_complete_result
        ((s.call (Call.clutter_timeline_stop pp'.tml_switch_workspace1)).call
          (Call.clutter_timeline_stop pp'.tml_switch_workspace2)) pp' l hp' hne
      rw [hl] at h
      have e : s2 = s1 := Option.some.inj (r1.symm.trans h)
      subst e
      refine ⟨k3, fun v => ?_, ⟨_, r4, rfl⟩, k2,
        [Call.clutter_timeline_stop pp'.tml_switch_workspace1,
          Call.clutter_timeline_stop pp'.tml_switch_workspace2] ++ mid, by
          rw [k5]; simp [State.call]⟩
      have := k2 v none
      unfold logical_flags
      have e1 := congrArg ActorPrivate.is_minimized this
      have e2 := congrArg ActorPrivate.is_maximized this
      simp only at e1 e2
      rw [e1, e2]
      rfl
    · rw [if_neg hact] at h
      have e : s = s1 := Option.some.inj h
      subst e
      exact ⟨rfl, fun _ => rfl, ⟨pp, hp, not_not.mp hact⟩, fun _ _ => rfl, [],
        (List.append_nil _).symm⟩

/-! ### Logical flags (C23) -/

/-- C23: for every state of the initialised plugin and every NORMAL window, `minimize` returns
with `is_minimized` true and `maximize` returns with `is_maximized` true while the handle of
the animation just started is still set, and `map` returns with `is_minimized` false.  The
flags `(is_minimized, is_maximized)` of every window are left as they are by each of the four
per-window completion functions, by `on_switch_workspace_effect_complete` whenever it returns,
and by `kill_effect` whenever it returns, for every window and event mask. -/
theorem logical_flags_change_at_start (s : State) (pp : PluginPrivate) (w : Nat)
    (workspace end_x end_y end_width end_height : Int)
    (hp : s.plugin_private = some pp) :
    (∃ s1, minimize s w .NORMAL workspace = some s1 ∧
      (s1.actor_data w).is_minimized = true ∧ (s1.actor_data w).tml_minimize ≠ none) ∧
    (∃ s1, maximize s w .NORMAL workspace end_x end_y end_width end_height = some s1 ∧
      (s1.actor_data w).is_maximized = true ∧ (s1.actor_data w).tml_maximize ≠ none) ∧
    (∃ s1, map s w .NORMAL workspace = some s1 ∧ (s1.actor_data w).is_minimized = false) ∧
    (∀ a v, logical_flags (on_minimize_effect_complete s a) v = logical_flags s v ∧
      logical_flags (on_maximize_effect_complete s a) v = logical_flags s v ∧
      logical_flags (on_map_effect_complete s a) v = logical_flags s v ∧
      logical_flags (on_destroy_effect_complete s a) v = logical_flags s v) ∧
    (∀ data s1, on_switch_workspace_effect_complete s data = some s1 →
      ∀ v, logical_flags s1 v = logical_flags s v) ∧
    (∀ a event s1, kill_effect s a event = some s1 →
      ∀ v, logical_flags s1 v = logical_flags s v) := by
  refine ⟨?_, ?_, ?_, fun a v => completion_flags s a v, ?_, ?_⟩
  · simp [minimize, hp, set_actor_private, get_actor_private, clutter_effect_scale, State.call]
  · simp [maximize, hp, set_actor_private, get_actor_private, clutter_effect_scale, State.call]
  · simp [map, hp, set_actor_private, get_actor_private, clutter_effect_scale, State.call,
      clutter_actor_show]
  · intro data s1 h v
    have k := (on_switch_workspace_effect_complete_frame s s1 data h).2.1 v none
    unfold logical_flags
    have e1 := congrArg ActorPrivate.is_minimized k
    have e2 := congrArg ActorPrivate.is_maximized k
    simp only at e1 e2
    rw [e1, e2]
  · intro a event s1 h v
    unfold kill_effect at h
    split at h
    · rw [← Option.some.inj h]
    · split at h
      · split at h
        · exact absurd h (by simp)
        · next s2 hs2 =>
          have f := (kill_effect_switch_workspace_frame s s2 hs2).2.1 v
          split at h
          · rw [← Option.some.inj h]; exact f
          · rw [← Option.some.inj h]
            exact ((continues_kill_effect_actor s2 a event).2.2.1 v).trans f
      · rw [← Option.some.inj h]
        exact (continues_kill_effect_actor s a event).2.2.1 v

/-- C23, witness: the statement at `minimize_active_state`, where window 0 is minimized with
its animation in flight: `minimize` on window 1, and `kill_effect (window 0, MINIMIZE)`, which
returns and leaves the flags of window 0 at (true, false). -/
theorem logical_flags_change_at_start_witness :
    minimize_active_state.plugin_private = some initial_private ∧
    logical_flags minimize_active_state 0 = (true, false) ∧
    (∃ s1, minimize minimize_active_state 1 .NORMAL 0 = some s1 ∧
      (s1.actor_data 1).is_minimized = true ∧ (s1.actor_data 1).tml_minimize ≠ none) ∧
    ∃ s1, kill_effect minimize_active_state 0 META_COMPOSITOR_CLUTTER_PLUGIN_MINIMIZE
        = some s1 ∧
      (s1.actor_data 0).tml_minimize = none ∧
      logical_flags s1 0 = logical_flags minimize_active_state 0 := by
  have hs : (kill_effect minimize_active_state 0
      META_COMPOSITOR_CLUTTER_PLUGIN_MINIMIZE).isSome = true := by decide
  obtain ⟨s1, h1⟩ := Option.isSome_iff_exists.mp hs
  have ht : (kill_effect minimize_active_state 0
      META_COMPOSITOR_CLUTTER_PLUGIN_MINIMIZE).map (fun s => (s.actor_data 0).tml_minimize)
      = some none := by decide
  rw [h1] at ht
  obtain ⟨k1, _, _, _, _, k6⟩ :=
    logical_flags_change_at_start minimize_active_state initial_private 1 0 0 0 0 0 rfl
  exact ⟨rfl, by decide, k1, s1, h1, Option.some.inj ht, k6 0 _ s1 h1 0⟩

/-! ### The feature mask only shrinks (C24), continued -/

/-- C24: for every state, hence for every parameter string and prior feature mask, the mask
after `do_init` is a subset of the mask before it, and so is the mask after any number `n` of
successive `do_init` calls; a kind that is disabled stays disabled.  A parameter string without
a `disable:` token leaves the mask as it is.  `reload` changes the mask only through its
`do_init` call: on an initialised plugin it returns TRUE with the mask `do_init` left, and
whenever it returns the mask is a subset of the mask before and every disabled kind is still
disabled. -/
theorem feature_mask_only_shrinks (s : State) (n : Nat) :
    mask_subset (do_init s).1.features s.features ∧
    mask_subset (do_init_times n s).features s.features ∧
    (∀ k, s.features &&& k = 0 → (do_init_times n s).features &&& k = 0) ∧
    (∀ params : List Char, strstr params "disable:".toList = none →
      do_init_features s.features (some params) = s.features) ∧
    (∀ pp, s.plugin_private = some pp →
      ∃ s1, reload s = some (s1, true) ∧ s1.features = (do_init s).1.features) ∧
    (∀ r, reload s = some r → mask_subset r.1.features s.features ∧
      ∀ k, s.features &&& k = 0 → r.1.features &&& k = 0) := by
  have hd : mask_subset (do_init s).1.features s.features := do_init_features_subset _ _
  refine ⟨hd, do_init_times_subset n s,
    fun k hk => mask_subset_disjoint _ _ k (do_init_times_subset n s) hk, ?_, ?_, ?_⟩
  · intro params h
    unfold do_init_features
    simp only
    rw [h]
  · intro pp hp
    refine ⟨{ (do_init s).1 with plugin_private := none }, ?_, rfl⟩
    unfold reload
    rw [hp]
    rfl
  · intro r h
    have hr : mask_subset r.1.features s.features := by
      unfold reload at h
      simp only [do_init, if_true, free_plugin_private] at h
      split at h
      · exact absurd h (by simp)
      · next s1 hs1 =>
        split at hs1
        · exact absurd hs1 (by simp)
        · rw [← Option.some.inj h, ← Option.some.inj hs1]
          exact hd
    exact ⟨hr, fun k hk => mask_subset_disjoint _ _ k hr hk⟩

/-- C24, witness: in `already_disabled_state` the minimize and destroy kinds are disabled
(`features = 46`) and the parameter string `debug` has no `disable:` token; `reload` returns
TRUE and leaves `features = 46`, so both kinds are still disabled. -/
theorem feature_mask_only_shrinks_witness :
    (already_disabled_state.features = 46 ∧
      already_disabled_state.plugin_private = some initial_private ∧
      already_disabled_state.features &&& META_COMPOSITOR_CLUTTER_PLUGIN_MINIMIZE = 0 ∧
      already_disabled_state.features &&& META_COMPOSITOR_CLUTTER_PLUGIN_DESTROY = 0) ∧
    (∃ s1, reload already_disabled_state = some (s1, true) ∧
      s1.features = (do_init already_disabled_state).1.features) ∧
    (do_init already_disabled_state).1.features = 46 ∧
    (do_init_times 3 already_disabled_state).features
      &&& META_COMPOSITOR_CLUTTER_PLUGIN_MINIMIZE = 0 :=
  ⟨⟨rfl, rfl, by decide, by decide⟩,
   (feature_mask_only_shrinks already_disabled_state 3).2.2.2.2.1 initial_private rfl,
   by decide,
   (feature_mask_only_shrinks already_disabled_state 3).2.2.1 _ (by decide)⟩

/-! ### Idempotence of `kill_effect` (C25) -/

/-- C25: for every state, window and event mask, calling `kill_effect` a second time with the
same window and mask on the state the first call returned gives that same state again: the
second call changes nothing (`running`, handles, flags, switch-workspace state) and adds
nothing to the trace, so it sends no notification.  (When the first call does not return,
there is no second call.) -/
theorem kill_effect_idempotent (s : State) (w event : Nat) :
    (kill_effect s w event).bind (fun s1 => kill_effect s1 w event) = kill_effect s w event ∧
    (∀ s1, kill_effect s w event = some s1 →
      kill_effect s1 w event = some s1) := by
  have key : ∀ s1, kill_effect s w event = some s1 → kill_effect s1 w event = some s1 := by
    intro s1 h
    unfold kill_effect at h
    by_cases hf : s.features &&& event = 0
    · rw [if_pos hf] at h
      rw [← Option.some.inj h]
      simp [kill_effect, hf]
    · rw [if_neg hf] at h
      by_cases hsw : event &&& META_COMPOSITOR_CLUTTER_PLUGIN_SWITCH_WORKSPACE ≠ 0
      · rw [if_pos hsw] at h
        cases hk : kill_effect_switch_workspace s with
        | none => rw [hk] at h; exact absurd h (by simp)
        | some s2 =>
          rw [hk] at h
          obtain ⟨f1, _, ⟨pp1, f3, f4⟩, _, _⟩ := kill_effect_switch_workspace_frame s s2 hk
          by_cases ho : event &&& gulong_not META_COMPOSITOR_CLUTTER_PLUGIN_SWITCH_WORKSPACE = 0
          · simp only [if_pos ho] at h
            rw [← Option.some.inj h]
            have hf2 : ¬ (s2.features &&& event = 0) := by rw [f1]; exact hf
            simp only [kill_effect, if_neg hf2, if_pos hsw,
              kill_effect_switch_workspace_inactive s2 pp1 f3 f4, if_pos ho]
          · simp only [if_neg ho] at h
            rw [← Option.some.inj h]
            obtain ⟨c1, c2, _, _⟩ := continues_kill_effect_actor s2 w event
            have hf2 : ¬ ((kill_effect_actor s2 w event).features &&& event = 0) := by
              rw [c2, f1]; exact hf
            simp only [kill_effect, if_neg hf2, if_pos hsw,
              kill_effect_switch_workspace_inactive _ pp1 (c1.trans f3) f4, if_neg ho,
              kill_effect_actor_idempotent]
      · rw [if_neg hsw] at h
        rw [← Option.some.inj h]
        obtain ⟨_, c2, _, _⟩ := continues_kill_effect_actor s w event
        have hf2 : ¬ ((kill_effect_actor s w event).features &&& event = 0) := by
          rw [c2]; exact hf
        simp only [kill_effect, if_neg hf2, if_neg hsw, kill_effect_actor_idempotent]
  refine ⟨?_, key⟩
  cases h : kill_effect s w event with
  | none => rfl
  | some s1 => exact key s1 h

/-! ### The workspace switch is killed first (C22) -/

/-- C22, counterexample: in `switch_active_state` a switch is active and window 1 takes part in
it, with its parent (the stage) recorded in `orig_parent`.  `kill_effect (window 1,
SWITCH_WORKSPACE)` runs the completion path of the switch, which clears `orig_parent` in the
`ActorPrivate` of window 1.  And with no kind left in `features`, `kill_effect` with the mask
SWITCH_WORKSPACE | MINIMIZE returns at its feature test: the switch stays active. -/
theorem kill_effect_switch_only_clears_orig_parent :
    (switch_active_state.plugin_private.map (fun p => (p.tml_switch_workspace1, p.actors))
      = some (some 1, some [0, 1, 2])) ∧
    (switch_active_state.actor_data 1).orig_parent = some .stage ∧
    (kill_effect switch_active_state 1 META_COMPOSITOR_CLUTTER_PLUGIN_SWITCH_WORKSPACE).map
        (fun s => (s.actor_data 1).orig_parent) = some none ∧
    (kill_effect { switch_active_state with features := 0 } 1 33).map
        (fun s => s.plugin_private.map (fun p => p.tml_switch_workspace1))
      = some (some (some 1)) := by
  decide

/-- C22, amended: for every state in which a workspace switch is active on a non-empty list,
every window and every event mask that contains the SWITCH_WORKSPACE bit and passes the
feature test, `kill_effect` returns and first handles the switch: the two timelines are
stopped, then the completion path of the switch runs (the transient state is cleared and,
when a host callback is registered, one SWITCH_WORKSPACE notification is sent), giving a
state `s2`; for a mask with only the SWITCH_WORKSPACE bit the call returns `s2`, otherwise it
returns what the per-window part makes of `s2`, whose calls all come after those of `s2`.  The
switch completion changes no field of any `ActorPrivate` other than `orig_parent`. -/
theorem kill_effect_switch_workspace_first (s : State) (pp : PluginPrivate) (l : List Nat)
    (w event : Nat)
    (hp : s.plugin_private = some pp) (hact : pp.tml_switch_workspace1 ≠ none)
    (hl : pp.actors = some l) (hnil : l ≠ [])
    (hfeat : s.features &&& event ≠ 0)
    (hsw : event &&& META_COMPOSITOR_CLUTTER_PLUGIN_SWITCH_WORKSPACE ≠ 0) :
    ∃ s2 s3 mid pp2,
      on_switch_workspace_effect_complete
        ((s.call (Call.clutter_timeline_stop pp.tml_switch_workspace1)).call
          (Call.clutter_timeline_stop pp.tml_switch_workspace2)) (some l) = some s2 ∧
      s2.trace = s.trace ++ [Call.clutter_timeline_stop pp.tml_switch_workspace1,
        Call.clutter_timeline_stop pp.tml_switch_workspace2] ++ mid ∧
      s2.plugin_private = some pp2 ∧
      pp2.actors = none ∧ pp2.desktop1 = none ∧ pp2.desktop2 = none ∧
      pp2.tml_switch_workspace1 = none ∧ pp2.tml_switch_workspace2 = none ∧
      notifications s2.trace = notifications s.trace ++
        (if s.completed then
          [(l.head?.map ClutterActor.window, META_COMPOSITOR_CLUTTER_PLUGIN_SWITCH_WORKSPACE)]
         else []) ∧
      (∀ v o, { s2.actor_data v with orig_parent := o }
        = { s.actor_data v with orig_parent := o }) ∧
      kill_effect s w event = some s3 ∧
      s3 = (if event &&& gulong_not META_COMPOSITOR_CLUTTER_PLUGIN_SWITCH_WORKSPACE = 0
        then s2 else kill_effect_actor s2 w event) ∧
      ∃ rest, s3.trace = s2.trace ++ rest := by
  obtain ⟨s2, r1, _, _, r4, r5⟩ := on_switch_workspace_effect_complete_result
    ((s.call (Call.clutter_timeline_stop pp.tml_switch_workspace1)).call
      (Call.clutter_timeline_stop pp.tml_switch_workspace2)) pp l hp hnil
  obtain ⟨_, k2, _, _, mid, k5⟩ := on_switch_workspace_effect_complete_frame _ _ _ r1
  have hn : notifications ((s.call (Call.clutter_timeline_stop pp.tml_switch_workspace1)).call
      (Call.clutter_timeline_stop pp.tml_switch_workspace2)).trace = notifications s.trace := by
    simp [State.call, notifications_append]
    simp [notifications]
  rw [hn] at r5
  have hk : kill_effect_switch_workspace s = some s2 := by
    simp only [kill_effect_switch_workspace, hp, if_pos hact, hl]
    exact r1
  have hf : ¬ (s.features &&& event = 0) := hfeat
  refine ⟨s2, _, mid, _, r1, ?_, r4, rfl, rfl, rfl, rfl, rfl, r5, k2, ?_, rfl, ?_⟩
  · rw [k5]; simp [State.call]
  · simp only [kill_effect, if_neg hf, if_pos hsw, hk]
    split <;> rfl
  · split
    · exact ⟨[], (List.append_nil _).symm⟩
    · exact (continues_kill_effect_actor s2 w event).2.2.2

/-- C22, witness: the amended statement at `switch_active_state` for window 1 and the mask
SWITCH_WORKSPACE | MINIMIZE. -/
theorem kill_effect_switch_workspace_first_witness :
    (switch_active_state.plugin_private.map (fun p => (p.tml_switch_workspace1, p.actors))
        = some (some 1, some [0, 1, 2]) ∧
      switch_active_state.features &&& 33 ≠ 0 ∧
      33 &&& META_COMPOSITOR_CLUTTER_PLUGIN_SWITCH_WORKSPACE ≠ 0 ∧
      switch_active_state.completed = true) ∧
    ∃ (s2 s3 : State) (pp2 : PluginPrivate), s2.plugin_private = some pp2 ∧ pp2.tml_switch_workspace1 = none ∧
      notifications s2.trace = notifications switch_active_state.trace ++
        [(some (.window 0), META_COMPOSITOR_CLUTTER_PLUGIN_SWITCH_WORKSPACE)] ∧
      kill_effect switch_active_state 1 33 = some s3 ∧
      ∃ rest, s3.trace = s2.trace ++ rest := by
  have hp : ∃ pp, switch_active_state.plugin_private = some pp ∧
      pp.tml_switch_workspace1 = some 1 ∧ pp.actors = some [0, 1, 2] := by
    cases h : switch_active_state.plugin_private with
    | none =>
      have : switch_active_state.plugin_private.isSome = true := by decide
      rw [h] at this
      exact absurd this (by simp)
    | some pp =>
      have e : switch_active_state.plugin_private.map
          (fun p => (p.tml_switch_workspace1, p.actors)) = some (some 1, some [0, 1, 2]) := by
        decide
      rw [h] at e
      simp only [Option.map_some', Option.some.injEq, Prod.mk.injEq] at e
      exact ⟨pp, rfl, e.1, e.2⟩
  obtain ⟨pp, h1, h2, h3⟩ := hp
  obtain ⟨s2, s3, _, pp2, _, _, k3, _, _, _, k7, _, k9, _, k11, _, k13⟩ :=
    kill_effect_switch_workspace_first switch_active_state pp [0, 1, 2] 1 33 h1
      (by rw [h2]; simp) h3 (by decide) (by decide) (by decide)
  exact ⟨⟨by decide, by decide, by decide, by decide⟩, s2, s3, pp2, k3, k7, k9, k11, k13⟩

/-- C25, witness: in `minimize_active_state` the first `kill_effect (window 0, MINIMIZE)`
returns a state with the minimize handle cleared and one notification sent; the second call
returns that same state. -/
theorem kill_effect_idempotent_witness :
    (minimize_active_state.actor_data 0).tml_minimize = some 0 ∧
    ∃ s1, kill_effect minimize_active_state 0 META_COMPOSITOR_CLUTTER_PLUGIN_MINIMIZE
        = some s1 ∧
      kill_effect s1 0 META_COMPOSITOR_CLUTTER_PLUGIN_MINIMIZE = some s1 := by
  have hs : (kill_effect minimize_active_state 0
      META_COMPOSITOR_CLUTTER_PLUGIN_MINIMIZE).isSome = true := by decide
  obtain ⟨s1, h1⟩ := Option.isSome_iff_exists.mp hs
  exact ⟨by decide, s1, h1,
    (kill_effect_idempotent minimize_active_state 0
      META_COMPOSITOR_CLUTTER_PLUGIN_MINIMIZE).2 s1 h1⟩

/-! ### What `kill_effect` does to a requested kind (C4, C15) -/

theorem kill_effect_minimize_result (s : State) (w e : Nat) :
    (kill_effect_minimize s w e).running = s.running -
      (if kill_requested e META_COMPOSITOR_CLUTTER_PLUGIN_MINIMIZE (s.actor_data w).tml_minimize
        then 1 else 0) ∧
    (kill_effect_minimize s w e).completed = s.completed ∧
    ((kill_effect_minimize s w e).actor_data w).tml_minimize =
      (if kill_requested e META_COMPOSITOR_CLUTTER_PLUGIN_MINIMIZE (s.actor_data w).tml_minimize
        then none else (s.actor_data w).tml_minimize) ∧
    ((kill_effect_minimize s w e).actor_data w).tml_maximize = (s.actor_data w).tml_maximize ∧
    ((kill_effect_minimize s w e).actor_data w).tml_map = (s.actor_data w).tml_map ∧
    ((kill_effect_minimize s w e).actor_data w).tml_destroy = (s.actor_data w).tml_destroy ∧
    (kill_effect_minimize s w e).trace = s.trace ++
      (if kill_requested e META_COMPOSITOR_CLUTTER_PLUGIN_MINIMIZE (s.actor_data w).tml_minimize
        then
          [Call.clutter_timeline_stop (s.actor_data w).tml_minimize,
           Call.clutter_actor_hide (.window w),
           Call.clutter_actor_set_scale (.window w) (.finite 1) (.finite 1),
           Call.clutter_actor_move_anchor_point_from_gravity (.window w) .NORTH_WEST] ++
          (if s.completed then
            [Call.completed (some (.window w)) META_COMPOSITOR_CLUTTER_PLUGIN_MINIMIZE]
           else [])
        else []) := by
  unfold kill_effect_minimize kill_requested
  simp only [get_actor_private]
  by_cases h : e &&& META_COMPOSITOR_CLUTTER_PLUGIN_MINIMIZE ≠ 0
      ∧ (s.actor_data w).tml_minimize ≠ none
  · simp only [if_pos h]
    by_cases hc : s.completed = true <;>
      simp [on_minimize_effect_complete, notify_completed, State.call, set_actor_private,
        get_actor_private, clutter_actor_hide, hc, sub_eq_add_neg]
  · simp only [if_neg h]
    simp

theorem kill_effect_maximize_result (s : State) (w e : Nat) :
    (kill_effect_maximize s w e).running = s.running -
      (if kill_requested e META_COMPOSITOR_CLUTTER_PLUGIN_MAXIMIZE (s.actor_data w).tml_maximize
        then 1 else 0) ∧
    (kill_effect_maximize s w e).completed = s.completed ∧
    ((kill_effect_maximize s w e).actor_data w).tml_minimize = (s.actor_data w).tml_minimize ∧
    ((kill_effect_maximize s w e).actor_data w).tml_maximize =
      (if kill_requested e META_COMPOSITOR_CLUTTER_PLUGIN_MAXIMIZE (s.actor_data w).tml_maximize
        then none else (s.actor_data w).tml_maximize) ∧
    ((kill_effect_maximize s w e).actor_data w).tml_map = (s.actor_data w).tml_map ∧
    ((kill_effect_maximize s w e).actor_data w).tml_destroy = (s.actor_data w).tml_destroy ∧
    (kill_effect_maximize s w e).trace = s.trace ++
      (if kill_requested e META_COMPOSITOR_CLUTTER_PLUGIN_MAXIMIZE (s.actor_data w).tml_maximize
        then
          [Call.clutter_timeline_stop (s.actor_data w).tml_maximize,
           Call.clutter_actor_set_scale (.window w) (.finite 1) (.finite 1),
           Call.clutter_actor_move_anchor_point_from_gravity (.window w) .NORTH_WEST] ++
          (if s.completed then
            [Call.completed (some (.window w)) META_COMPOSITOR_CLUTTER_PLUGIN_MAXIMIZE]
           else [])
        else []) := by
  unfold kill_effect_maximize kill_requested
  simp only [get_actor_private]
  by_cases h : e &&& META_COMPOSITOR_CLUTTER_PLUGIN_MAXIMIZE ≠ 0
      ∧ (s.actor_data w).tml_maximize ≠ none
  · simp only [if_pos h]
    by_cases hc : s.completed = true <;>
      simp [on_maximize_effect_complete, notify_completed, State.call, set_actor_private,
        get_actor_private, hc, sub_eq_add_neg]
  · simp only [if_neg h]
    simp

theorem kill_effect_map_result (s : State) (w e : Nat) :
    (kill_effect_map s w e).running = s.running -
      (if kill_requested e META_COMPOSITOR_CLUTTER_PLUGIN_MAP (s.actor_data w).tml_map
        then 1 else 0) ∧
    (kill_effect_map s w e).completed = s.completed ∧
    ((kill_effect_map s w e).actor_data w).tml_minimize = (s.actor_data w).tml_minimize ∧
    ((kill_effect_map s w e).actor_data w).tml_maximize = (s.actor_data w).tml_maximize ∧
    ((kill_effect_map s w e).actor_data w).tml_map =
      (if kill_requested e META_COMPOSITOR_CLUTTER_PLUGIN_MAP (s.actor_data w).tml_map
        then none else (s.actor_data w).tml_map) ∧
    ((kill_effect_map s w e).actor_data w).tml_destroy = (s.actor_data w).tml_destroy ∧
    (kill_effect_map s w e).trace = s.trace ++
      (if kill_requested e META_COMPOSITOR_CLUTTER_PLUGIN_MAP (s.actor_data w).tml_map
        then
          [Call.clutter_timeline_stop (s.actor_data w).tml_map,
           Call.clutter_actor_move_anchor_point_from_gravity (.window w) .NORTH_WEST] ++
          (if s.completed then
            [Call.completed (some (.window w)) META_COMPOSITOR_CLUTTER_PLUGIN_MAP]
           else [])
        else []) := by
  unfold kill_effect_map kill_requested
  simp only [get_actor_private]
  by_cases h : e &&& META_COMPOSITOR_CLUTTER_PLUGIN_MAP ≠ 0
      ∧ (s.actor_data w).tml_map ≠ none
  · simp only [if_pos h]
    by_cases hc : s.completed = true <;>
      simp [on_map_effect_complete, notify_completed, State.call, set_actor_private,
        get_actor_private, hc, sub_eq_add_neg]
  · simp only [if_neg h]
    simp

theorem kill_effect_destroy_result (s : State) (w e : Nat) :
    (kill_effect_destroy s w e).running = s.running -
      (if kill_requested e META_COMPOSITOR_CLUTTER_PLUGIN_DESTROY (s.actor_data w).tml_destroy
        then 1 else 0) ∧
    (kill_effect_destroy s w e).completed = s.completed ∧
    ((kill_effect_destroy s w e).actor_data w).tml_minimize = (s.actor_data w).tml_minimize ∧
    ((kill_effect_destroy s w e).actor_data w).tml_maximize = (s.actor_data w).tml_maximize ∧
    ((kill_effect_destroy s w e).actor_data w).tml_map = (s.actor_data w).tml_map ∧
    ((kill_effect_destroy s w e).actor_data w).tml_destroy =
      (if kill_requested e META_COMPOSITOR_CLUTTER_PLUGIN_DESTROY (s.actor_data w).tml_destroy
        then none else (s.actor_data w).tml_destroy) ∧
    (kill_effect_destroy s w e).trace = s.trace ++
      (if kill_requested e META_COMPOSITOR_CLUTTER_PLUGIN_DESTROY (s.actor_data w).tml_destroy
        then
          [Call.clutter_timeline_stop (s.actor_data w).tml_destroy] ++
          (if s.completed then
            [Call.completed (some (.window w)) META_COMPOSITOR_CLUTTER_PLUGIN_DESTROY]
           else [])
        else []) := by
  unfold kill_effect_destroy kill_requested
  simp only [get_actor_private]
  by_cases h : e &&& META_COMPOSITOR_CLUTTER_PLUGIN_DESTROY ≠ 0
      ∧ (s.actor_data w).tml_destroy ≠ none
  · simp only [if_pos h]
    by_cases hc : s.completed = true <;>
      simp [on_destroy_effect_complete, notify_completed, State.call, set_actor_private,
        get_actor_private, hc, sub_eq_add_neg]
  · simp only [if_neg h]
    simp

/-- What the per-window part of `kill_effect` does, in terms of the state it starts from: for
each of the four kinds whose test `(event & kind) && handle` succeeds, the timeline is
stopped and the completion function runs. -/
theorem kill_effect_actor_result (s : State) (w e : Nat) :
    (kill_effect_actor s w e).running = s.running -
      (if kill_requested e META_COMPOSITOR_CLUTTER_PLUGIN_MINIMIZE (s.actor_data w).tml_minimize
        then 1 else 0) -
      (if kill_requested e META_COMPOSITOR_CLUTTER_PLUGIN_MAXIMIZE (s.actor_data w).tml_maximize
        then 1 else 0) -
      (if kill_requested e META_COMPOSITOR_CLUTTER_PLUGIN_MAP (s.actor_data w).tml_map
        then 1 else 0) -
      (if kill_requested e META_COMPOSITOR_CLUTTER_PLUGIN_DESTROY (s.actor_data w).tml_destroy
        then 1 else 0) ∧
    ((kill_effect_actor s w e).actor_data w).tml_minimize =
      (if kill_requested e META_COMPOSITOR_CLUTTER_PLUGIN_MINIMIZE (s.actor_data w).tml_minimize
        then none else (s.actor_data w).tml_minimize) ∧
    ((kill_effect_actor s w e).actor_data w).tml_maximize =
      (if kill_requested e META_COMPOSITOR_CLUTTER_PLUGIN_MAXIMIZE (s.actor_data w).tml_maximize
        then none else (s.actor_data w).tml_maximize) ∧
    ((kill_effect_actor s w e).actor_data w).tml_map =
      (if kill_requested e META_COMPOSITOR_CLUTTER_PLUGIN_MAP (s.actor_data w).tml_map
        then none else (s.actor_data w).tml_map) ∧
    ((kill_effect_actor s w e).actor_data w).tml_destroy =
      (if kill_requested e META_COMPOSITOR_CLUTTER_PLUGIN_DESTROY (s.actor_data w).tml_destroy
        then none else (s.actor_data w).tml_destroy) ∧
    (kill_effect_actor s w e).trace = s.trace ++
      (if kill_requested e META_COMPOSITOR_CLUTTER_PLUGIN_MINIMIZE (s.actor_data w).tml_minimize
        then
          [Call.clutter_timeline_stop (s.actor_data w).tml_minimize,
           Call.clutter_actor_hide (.window w),
           Call.clutter_actor_set_scale (.window w) (.finite 1) (.finite 1),
           Call.clutter_actor_move_anchor_point_from_gravity (.window w) .NORTH_WEST] ++
          (if s.completed then
            [Call.completed (some (.window w)) META_COMPOSITOR_CLUTTER_PLUGIN_MINIMIZE]
           else [])
        else []) ++
      (if kill_requested e META_COMPOSITOR_CLUTTER_PLUGIN_MAXIMIZE (s.actor_data w).tml_maximize
        then
          [Call.clutter_timeline_stop (s.actor_data w).tml_maximize,
           Call.clutter_actor_set_scale (.window w) (.finite 1) (.finite 1),
           Call.clutter_actor_move_anchor_point_from_gravity (.window w) .NORTH_WEST] ++
          (if s.completed then
            [Call.completed (some (.window w)) META_COMPOSITOR_CLUTTER_PLUGIN_MAXIMIZE]
           else [])
        else []) ++
      (if kill_requested e META_COMPOSITOR_CLUTTER_PLUGIN_MAP (s.actor_data w).tml_map
        then
          [Call.clutter_timeline_stop (s.actor_data w).tml_map,
           Call.clutter_actor_move_anchor_point_from_gravity (.window w) .NORTH_WEST] ++
          (if s.completed then
            [Call.completed (some (.window w)) META_COMPOSITOR_CLUTTER_PLUGIN_MAP]
           else [])
        else []) ++
      (if kill_requested e META_COMPOSITOR_CLUTTER_PLUGIN_DESTROY (s.actor_data w).tml_destroy
        then
          [Call.clutter_timeline_stop (s.actor_data w).tml_destroy] ++
          (if s.completed then
            [Call.completed (some (.window w)) META_COMPOSITOR_CLUTTER_PLUGIN_DESTROY]
           else [])
        else []) := by
  rw [kill_effect_actor_steps]
  obtain ⟨a1, a2, a3, a4, a5, a6, a7⟩ := kill_effect_minimize_result s w e
  obtain ⟨b1, b2, b3, b4, b5, b6, b7⟩ :=
    kill_effect_maximize_result (kill_effect_minimize s w e) w e
  obtain ⟨c1, c2, c3, c4, c5, c6, c7⟩ :=
    kill_effect_map_result (kill_effect_maximize (kill_effect_minimize s w e) w e) w e
  obtain ⟨d1, d2, d3, d4, d5, d6, d7⟩ :=
    kill_effect_destroy_result
      (kill_effect_map (kill_effect_maximize (kill_effect_minimize s w e) w e) w e) w e
  rw [d1, d3, d4, d5, d6, d7, c1, c2, c3, c4, c5, c6, c7, b1, b2, b3, b4, b5, b6, b7,
    a1, a2, a3, a4, a5, a6, a7]
  simp only [List.append_assoc, and_self]

/-- The workspace-switch part of `kill_effect` leaves `running` and the registered callback
as they are. -/
theorem kill_effect_switch_workspace_counters (s s1 : State)
    (h : kill_effect_switch_workspace s = some s1) :
    s1.running = s.running ∧ s1.completed = s.completed := by
  unfold kill_effect_switch_workspace at h
  cases hp : s.plugin_private with
  | none => simp [hp] at h
  | some pp =>
    simp only [hp] at h
    by_cases hact : pp.tml_switch_workspace1 ≠ none
    · rw [if_pos hact] at h
      refine ⟨(on_switch_workspace_effect_complete_frame _ _ _ h).2.2.2.1, ?_⟩
      cases hl : pp.actors with
      | none => rw [hl] at h; simp [on_switch_workspace_effect_complete] at h
      | some l =>
        rw [hl] at h
        cases l with
        | nil => simp [on_switch_workspace_effect_complete] at h
        | cons a rest =>
          have hp2 : ((s.call (Call.clutter_timeline_stop pp.tml_switch_workspace1)).call
              (Call.clutter_timeline_stop pp.tml_switch_workspace2)).plugin_private
              = some pp := hp
          obtain ⟨f1, _, f3, _⟩ := restore_loop_frame (a :: rest)
            ((s.call (Call.clutter_timeline_stop pp.tml_switch_workspace1)).call
              (Call.clutter_timeline_stop pp.tml_switch_workspace2))
          simp only [on_switch_workspace_effect_complete, f1, hp2, Option.some.injEq] at h
          subst h
          unfold notify_completed
          split <;> exact f3
    · rw [if_neg hact] at h
      rw [← Option.some.inj h]
      exact ⟨rfl, rfl⟩

/-- A kind that fits under the complement of the switch-workspace bit is not requested by a
mask that has only that bit. -/
theorem only_switch_workspace_requested (event kind : Nat)
    (hk : gulong_not META_COMPOSITOR_CLUTTER_PLUGIN_SWITCH_WORKSPACE &&& kind = kind)
    (h : event &&& gulong_not META_COMPOSITOR_CLUTTER_PLUGIN_SWITCH_WORKSPACE = 0) :
    event &&& kind = 0 := by
  rw [← hk, ← Nat.land_assoc, h]
  exact Nat.zero_and _

/-- Whenever `kill_effect` passes its feature test and returns, it returns what the
per-window part makes of a state `s1` that differs from the given one only by the calls and
the cleanup of the workspace-switch part (nothing at all when the switch-workspace bit is not
requested). -/
theorem kill_effect_passes (s s3 : State) (w event : Nat)
    (hf : s.features &&& event ≠ 0) (h : kill_effect s w event = some s3) :
    ∃ s1 pre, s3 = kill_effect_actor s1 w event ∧
      s1.running = s.running ∧ s1.completed = s.completed ∧
      (∀ v o, { s1.actor_data v with orig_parent := o }
        = { s.actor_data v with orig_parent := o }) ∧
      s1.trace = s.trace ++ pre ∧
      (event &&& META_COMPOSITOR_CLUTTER_PLUGIN_SWITCH_WORKSPACE = 0 → pre = []) := by
  have hf2 : ¬ (s.features &&& event = 0) := hf
  unfold kill_effect at h
  rw [if_neg hf2] at h
  by_cases hsw : event &&& META_COMPOSITOR_CLUTTER_PLUGIN_SWITCH_WORKSPACE ≠ 0
  · rw [if_pos hsw] at h
    cases hk : kill_effect_switch_workspace s with
    | none => rw [hk] at h; exact absurd h (by simp)
    | some s1 =>
      rw [hk] at h
      obtain ⟨_, _, _, k4, pre, k5⟩ := kill_effect_switch_workspace_frame s s1 hk
      obtain ⟨c1, c2⟩ := kill_effect_switch_workspace_counters s s1 hk
      refine ⟨s1, pre, ?_, c1, c2, k4, k5, fun h0 => absurd h0 hsw⟩
      by_cases ho : event &&& gulong_not META_COMPOSITOR_CLUTTER_PLUGIN_SWITCH_WORKSPACE = 0
      · simp only [if_pos ho] at h
        rw [← Option.some.inj h]
        exact (kill_effect_actor_inactive s1 w event
          (fun hr => absurd (only_switch_workspace_requested event _ (by decide) ho) hr)
          (fun hr => absurd (only_switch_workspace_requested event _ (by decide) ho) hr)
          (fun hr => absurd (only_switch_workspace_requested event _ (by decide) ho) hr)
          (fun hr => absurd (only_switch_workspace_requested event _ (by decide) ho) hr)).symm
      · simp only [if_neg ho] at h
        exact (Option.some.inj h).symm
  · rw [if_neg hsw] at h
    exact ⟨s, [], (Option.some.inj h).symm, rfl, rfl, fun _ _ => rfl,
      (List.append_nil _).symm, fun _ => rfl⟩

/-- When `kill_effect` returns: always without the switch-workspace bit, and with it whenever
`plugin_private` is set and either no switch is active or the list of the active switch is
not empty. -/
theorem kill_effect_returns (s : State) (w event : Nat)
    (h : event &&& META_COMPOSITOR_CLUTTER_PLUGIN_SWITCH_WORKSPACE = 0 ∨
      ∃ pp, s.plugin_private = some pp ∧
        (pp.tml_switch_workspace1 = none ∨ ∃ l, pp.actors = some l ∧ l ≠ [])) :
    ∃ s3, kill_effect s w event = some s3 := by
  unfold kill_effect
  by_cases hf : s.features &&& event = 0
  · exact ⟨s, by rw [if_pos hf]⟩
  · rw [if_neg hf]
    by_cases hsw : event &&& META_COMPOSITOR_CLUTTER_PLUGIN_SWITCH_WORKSPACE ≠ 0
    · rw [if_pos hsw]
      rcases h with h | ⟨pp, hp, h⟩
      · exact absurd h hsw
      · have hk : ∃ s1, kill_effect_switch_workspace s = some s1 := by
          by_cases hact : pp.tml_switch_workspace1 = none
          · exact ⟨s, kill_effect_switch_workspace_inactive s pp hp hact⟩
          · rcases h with h | ⟨l, hl, hne⟩
            · exact absurd h hact
            · obtain ⟨s2, h2, _⟩ := kill_effect_switch_workspace_some s pp l hp hact hl hne
              exact ⟨s2, h2⟩
        obtain ⟨s1, hk⟩ := hk
        rw [hk]
        by_cases ho : event &&& gulong_not META_COMPOSITOR_CLUTTER_PLUGIN_SWITCH_WORKSPACE = 0
        · exact ⟨s1, by simp only [if_pos ho]⟩
        · exact ⟨kill_effect_actor s1 w event, by simp only [if_neg ho]⟩
    · rw [if_neg hsw]
      exact ⟨_, rfl⟩

/-- Two `ActorPrivate` values that agree up to `orig_parent` have the same four handles. -/
theorem handles_of_fields (a b : ActorPrivate)
    (h : { a with orig_parent := none } = { b with orig_parent := none }) :
    a.tml_minimize = b.tml_minimize ∧ a.tml_maximize = b.tml_maximize ∧
    a.tml_map = b.tml_map ∧ a.tml_destroy = b.tml_destroy := by
  have e1 := congrArg ActorPrivate.tml_minimize h
  have e2 := congrArg ActorPrivate.tml_maximize h
  have e3 := congrArg ActorPrivate.tml_map h
  have e4 := congrArg ActorPrivate.tml_destroy h
  simp only at e1 e2 e3 e4
  exact ⟨e1, e2, e3, e4⟩

/-- C15, amended: the feature test of `kill_effect` is made once, on the whole mask.  For every
state, window and event mask: when no requested kind is in `features`
(`features & event == 0`) the call returns the state unchanged, non-null handles included.
When some requested kind is in `features`, the call returns (always without the
switch-workspace bit; with it when `plugin_private` is set and no switch is active or the
list of the active switch is not empty), and whenever it returns, every per-window kind that
is requested and has a non-null handle is interrupted, be that kind in `features` or not:
`running` is decremented once for each such kind, its handle is null afterwards, and the
calls made are those of the workspace-switch part (none without the switch-workspace bit)
followed, in the order minimize, maximize, map, destroy, by the `clutter_timeline_stop` of
the handle and the calls of the completion function of each such kind, the notification of
the host included when a callback is registered.  The other handles are unchanged. -/
theorem kill_effect_feature_test_on_whole_mask (s : State) (w event : Nat) :
    (s.features &&& event = 0 → kill_effect s w event = some s) ∧
    (s.features &&& event ≠ 0 →
      ((event &&& META_COMPOSITOR_CLUTTER_PLUGIN_SWITCH_WORKSPACE = 0 ∨
          ∃ pp, s.plugin_private = some pp ∧
            (pp.tml_switch_workspace1 = none ∨ ∃ l, pp.actors = some l ∧ l ≠ [])) →
        ∃ s3, kill_effect s w event = some s3) ∧
      ∀ s3, kill_effect s w event = some s3 →
        s3.running = s.running -
          (if kill_requested event META_COMPOSITOR_CLUTTER_PLUGIN_MINIMIZE
            (s.actor_data w).tml_minimize then 1 else 0) -
          (if kill_requested event META_COMPOSITOR_CLUTTER_PLUGIN_MAXIMIZE
            (s.actor_data w).tml_maximize then 1 else 0) -
          (if kill_requested event META_COMPOSITOR_CLUTTER_PLUGIN_MAP
            (s.actor_data w).tml_map then 1 else 0) -
          (if kill_requested event META_COMPOSITOR_CLUTTER_PLUGIN_DESTROY
            (s.actor_data w).tml_destroy then 1 else 0) ∧
        (s3.actor_data w).tml_minimize =
          (if kill_requested event META_COMPOSITOR_CLUTTER_PLUGIN_MINIMIZE
            (s.actor_data w).tml_minimize then none else (s.actor_data w).tml_minimize) ∧
        (s3.actor_data w).tml_maximize =
          (if kill_requested event META_COMPOSITOR_CLUTTER_PLUGIN_MAXIMIZE
            (s.actor_data w).tml_maximize then none else (s.actor_data w).tml_maximize) ∧
        (s3.actor_data w).tml_map =
          (if kill_requested event META_COMPOSITOR_CLUTTER_PLUGIN_MAP
            (s.actor_data w).tml_map then none else (s.actor_data w).tml_map) ∧
        (s3.actor_data w).tml_destroy =
          (if kill_requested event META_COMPOSITOR_CLUTTER_PLUGIN_DESTROY
            (s.actor_data w).tml_destroy then none else (s.actor_data w).tml_destroy) ∧
        ∃ pre, (event &&& META_COMPOSITOR_CLUTTER_PLUGIN_SWITCH_WORKSPACE = 0 → pre = []) ∧
          s3.trace = s.trace ++ pre ++
            (if kill_requested event META_COMPOSITOR_CLUTTER_PLUGIN_MINIMIZE
                (s.actor_data w).tml_minimize then
              [Call.clutter_timeline_stop (s.actor_data w).tml_minimize,
               Call.clutter_actor_hide (.window w),
               Call.clutter_actor_set_scale (.window w) (.finite 1) (.finite 1),
               Call.clutter_actor_move_anchor_point_from_gravity (.window w) .NORTH_WEST] ++
              (if s.completed then
                [Call.completed (some (.window w)) META_COMPOSITOR_CLUTTER_PLUGIN_MINIMIZE]
               else [])
             else []) ++
            (if kill_requested event META_COMPOSITOR_CLUTTER_PLUGIN_MAXIMIZE
                (s.actor_data w).tml_maximize then
              [Call.clutter_timeline_stop (s.actor_data w).tml_maximize,
               Call.clutter_actor_set_scale (.window w) (.finite 1) (.finite 1),
               Call.clutter_actor_move_anchor_point_from_gravity (.window w) .NORTH_WEST] ++
              (if s.completed then
                [Call.completed (some (.window w)) META_COMPOSITOR_CLUTTER_PLUGIN_MAXIMIZE]
               else [])
             else []) ++
            (if kill_requested event META_COMPOSITOR_CLUTTER_PLUGIN_MAP
                (s.actor_data w).tml_map then
              [Call.clutter_timeline_stop (s.actor_data w).tml_map,
               Call.clutter_actor_move_anchor_point_from_gravity (.window w) .NORTH_WEST] ++
              (if s.completed then
                [Call.completed (some (.window w)) META_COMPOSITOR_CLUTTER_PLUGIN_MAP]
               else [])
             else []) ++
            (if kill_requested event META_COMPOSITOR_CLUTTER_PLUGIN_DESTROY
                (s.actor_data w).tml_destroy then
              [Call.clutter_timeline_stop (s.actor_data w).tml_destroy] ++
              (if s.completed then
                [Call.completed (some (.window w)) META_COMPOSITOR_CLUTTER_PLUGIN_DESTROY]
               else [])
             else [])) := by
  refine ⟨fun h => by simp [kill_effect, h], fun hf => ⟨kill_effect_returns s w event, ?_⟩⟩
  intro s3 h
  obtain ⟨s1, pre, e3, r, c, k4, t, hpre⟩ := kill_effect_passes s s3 w event hf h
  obtain ⟨h1, h2, h3, h4⟩ := handles_of_fields _ _ (k4 w none)
  obtain ⟨q1, q2, q3, q4, q5, q6⟩ := kill_effect_actor_result s1 w event
  rw [h1, h2, h3, h4, r] at q1
  rw [h1] at q2
  rw [h2] at q3
  rw [h3] at q4
  rw [h4] at q5
  rw [h1, h2, h3, h4, c, t] at q6
  rw [e3]
  exact ⟨q1, q2, q3, q4, q5, pre, hpre, q6⟩

/-- C15, witness: the amended statement at `maximize_disabled_state` for the mask MAXIMIZE
(no requested kind enabled) and at `minimize_only_state` for the mask MINIMIZE | MAXIMIZE,
where the maximize animation, a kind outside `features`, is interrupted. -/
theorem kill_effect_feature_test_on_whole_mask_witness :
    (maximize_disabled_state.features &&& 2 = 0 ∧
      kill_effect maximize_disabled_state 0 2 = some maximize_disabled_state) ∧
    (minimize_only_state.features &&& 3 ≠ 0 ∧
      minimize_only_state.features &&& META_COMPOSITOR_CLUTTER_PLUGIN_MAXIMIZE = 0 ∧
      kill_requested 3 META_COMPOSITOR_CLUTTER_PLUGIN_MAXIMIZE
        (minimize_only_state.actor_data 0).tml_maximize ∧
      ∃ s3, kill_effect minimize_only_state 0 3 = some s3 ∧
        s3.running = minimize_only_state.running - 1 ∧
        (s3.actor_data 0).tml_maximize = none ∧
        s3.trace = [Call.clutter_timeline_stop (some 0),
          Call.clutter_actor_set_scale (.window 0) (.finite 1) (.finite 1),
          Call.clutter_actor_move_anchor_point_from_gravity (.window 0) .NORTH_WEST,
          Call.completed (some (.window 0)) META_COMPOSITOR_CLUTTER_PLUGIN_MAXIMIZE]) := by
  obtain ⟨hret, heff⟩ :=
    (kill_effect_feature_test_on_whole_mask minimize_only_state 0 3).2 (by decide)
  obtain ⟨s3, h3⟩ := hret (Or.inl (by decide))
  obtain ⟨k1, _, k3, _, _, pre, kp, kt⟩ := heff s3 h3
  have hpre : pre = [] := kp (by decide)
  subst hpre
  refine ⟨⟨by decide,
      (kill_effect_feature_test_on_whole_mask maximize_disabled_state 0 2).1 (by decide)⟩,
    by decide, by decide, by decide, s3, h3, k1.trans (by decide), k3.trans (by decide),
    kt.trans (by decide)⟩

/-! ### Minimize followed by `kill_effect` (C4) -/

/-- What `minimize` returns on a NORMAL window of the initialised plugin: `running` is one
higher, the minimize handle is set, and `features`, `plugin_private` and the other handles of
the window are unchanged. -/
theorem minimize_started (s : State) (pp : PluginPrivate) (w : Nat) (workspace : Int)
    (hp : s.plugin_private = some pp) :
    ∃ s1, minimize s w .NORMAL workspace = some s1 ∧
      s1.running = s.running + 1 ∧ s1.features = s.features ∧
      s1.plugin_private = s.plugin_private ∧
      (s1.actor_data w).tml_minimize = some s.timelines ∧
      (s1.actor_data w).tml_maximize = (s.actor_data w).tml_maximize ∧
      (s1.actor_data w).tml_map = (s.actor_data w).tml_map ∧
      (s1.actor_data w).tml_destroy = (s.actor_data w).tml_destroy := by
  simp [minimize, hp, set_actor_private, get_actor_private, clutter_effect_scale, State.call]

/-- C4, counterexample: in `minimize_disabled_state` the minimize kind is not in `features`;
`minimize` on window 0 followed by `kill_effect (window 0, MINIMIZE)` leaves `running` at 1,
one above its value 0 before `minimize`, and `tml_minimize` still set.  And from
`initial_state`, once `map` has started an animation on window 0 (`running = 1`), `minimize`
followed by `kill_effect (window 0, MINIMIZE | MAP)` leaves `running` at 0, one below its
value before `minimize`: the call completes the map animation as well. -/
theorem minimize_kill_effect_feature_disabled :
    (minimize_disabled_state.running = 0 ∧
      minimize_disabled_state.features &&& META_COMPOSITOR_CLUTTER_PLUGIN_MINIMIZE = 0) ∧
    ((minimize minimize_disabled_state 0 .NORMAL 0).bind
        (fun s1 => kill_effect s1 0 META_COMPOSITOR_CLUTTER_PLUGIN_MINIMIZE)).map
        (fun s2 => (s2.running, (s2.actor_data 0).tml_minimize)) = some (1, some 0) ∧
    (map initial_state 0 .NORMAL 0).map (fun s0 => s0.running) = some 1 ∧
    (((map initial_state 0 .NORMAL 0).bind (fun s0 => minimize s0 0 .NORMAL 0)).bind
        (fun s1 => kill_effect s1 0 9)).map
        (fun s2 => (s2.running, (s2.actor_data 0).tml_minimize)) = some (0, none) := by
  decide

/-- C4, amended: for every state of the initialised plugin (`plugin_private` set) and every
NORMAL window, `minimize` returns a state `s1` from which the completion path
`on_minimize_effect_complete`, run as the natural completion, leaves `running` at its value
before `minimize` and `tml_minimize` null.  Run through `kill_effect`, for every event mask
that contains the MINIMIZE bit and passes the feature test (`features & event != 0`), the call
returns (always without the switch-workspace bit; with it when no switch is active or the
list of the active switch is not empty), leaves `tml_minimize` null and leaves `running` at
its value before `minimize` less one for every other kind that the mask requests and whose
handle was set on the window. -/
theorem minimize_completion_restores_running (s : State) (pp : PluginPrivate) (w : Nat)
    (workspace : Int) (hp : s.plugin_private = some pp) :
    ∃ s1, minimize s w .NORMAL workspace = some s1 ∧
      (on_minimize_effect_complete s1 w).running = s.running ∧
      ((on_minimize_effect_complete s1 w).actor_data w).tml_minimize = none ∧
      ∀ event, event &&& META_COMPOSITOR_CLUTTER_PLUGIN_MINIMIZE ≠ 0 →
        s.features &&& event ≠ 0 →
        (event &&& META_COMPOSITOR_CLUTTER_PLUGIN_SWITCH_WORKSPACE = 0 ∨
          pp.tml_switch_workspace1 = none ∨ ∃ l, pp.actors = some l ∧ l ≠ []) →
        ∃ s2, kill_effect s1 w event = some s2 ∧
          (s2.actor_data w).tml_minimize = none ∧
          s2.running = s.running -
            (if kill_requested event META_COMPOSITOR_CLUTTER_PLUGIN_MAXIMIZE
              (s.actor_data w).tml_maximize then 1 else 0) -
            (if kill_requested event META_COMPOSITOR_CLUTTER_PLUGIN_MAP
              (s.actor_data w).tml_map then 1 else 0) -
            (if kill_requested event META_COMPOSITOR_CLUTTER_PLUGIN_DESTROY
              (s.actor_data w).tml_destroy then 1 else 0) := by
  obtain ⟨s1, hmin, m1, m2, m3, m4, m5, m6, m7⟩ := minimize_started s pp w workspace hp
  refine ⟨s1, hmin, ?_, ?_, ?_⟩
  · simp [on_minimize_effect_complete, (notify_completed_frame _ _ _).2.2.2.2, State.call,
      set_actor_private, clutter_actor_hide, m1]
  · rw [(completion_actor_data s1 w).1]
    simp
  · intro event hbit hfeat hret
    have hfeat1 : s1.features &&& event ≠ 0 := by rw [m2]; exact hfeat
    obtain ⟨s2, h2⟩ := kill_effect_returns s1 w event
      (hret.elim Or.inl (fun h => Or.inr ⟨pp, m3.trans hp, h⟩))
    obtain ⟨t, _, e3, r, _, k4, _, _⟩ := kill_effect_passes s1 s2 w event hfeat1 h2
    obtain ⟨h1, h2', h3, h4⟩ := handles_of_fields _ _ (k4 w none)
    obtain ⟨q1, q2, _, _, _, _⟩ := kill_effect_actor_result t w event
    have hreq : kill_requested event META_COMPOSITOR_CLUTTER_PLUGIN_MINIMIZE
        (t.actor_data w).tml_minimize := by
      refine ⟨hbit, ?_⟩
      rw [h1, m4]
      simp
    rw [if_pos hreq] at q2
    rw [if_pos hreq, h2', h3, h4, r, m1, m5, m6, m7] at q1
    refine ⟨s2, h2, ?_, ?_⟩
    · rw [e3]; exact q2
    · rw [e3, q1]
      simp

/-- C4, witness: the statement at `initial_state`, window 0, for the mask MINIMIZE, where
`kill_effect` brings `running` back to its value before `minimize`. -/
theorem minimize_completion_restores_running_witness :
    initial_state.plugin_private = some initial_private ∧
    META_COMPOSITOR_CLUTTER_PLUGIN_MINIMIZE &&& META_COMPOSITOR_CLUTTER_PLUGIN_MINIMIZE ≠ 0 ∧
    initial_state.features &&& META_COMPOSITOR_CLUTTER_PLUGIN_MINIMIZE ≠ 0 ∧
    ∃ s1, minimize initial_state 0 .NORMAL 0 = some s1 ∧
      (on_minimize_effect_complete s1 0).running = initial_state.running ∧
      ((on_minimize_effect_complete s1 0).actor_data 0).tml_minimize = none ∧
      ∃ s2, kill_effect s1 0 META_COMPOSITOR_CLUTTER_PLUGIN_MINIMIZE = some s2 ∧
        (s2.actor_data 0).tml_minimize = none ∧ s2.running = initial_state.running := by
  obtain ⟨s1, h1, h2, h3, h4⟩ :=
    minimize_completion_restores_running initial_state initial_private 0 0 rfl
  obtain ⟨s2, k1, k2, k3⟩ := h4 META_COMPOSITOR_CLUTTER_PLUGIN_MINIMIZE (by decide) (by decide)
    (Or.inl (by decide))
  exact ⟨rfl, by decide, by decide, s1, h1, h2, h3, s2, k1, k2, k3.trans (by decide)⟩

end Moblin

namespace Mutter

/-! ### Loading the plugin list (C20) -/

theorem g_strsplit_tokens_ne_nil (s : List Char) : g_strsplit_tokens s ≠ [] := by
  cases s with
  | nil => simp [g_strsplit_tokens]
  | cons c s =>
    unfold g_strsplit_tokens
    split
    · simp
    · split <;> simp

theorem g_strsplit_tokens_no_comma (s : List Char) :
    ∀ t ∈ g_strsplit_tokens s, ',' ∉ t := by
  induction s with
  | nil => simp [g_strsplit_tokens]
  | cons c s ih =>
    unfold g_strsplit_tokens
    split
    · intro t ht
      rcases List.mem_cons.mp ht with rfl | ht
      · simp
      · exact ih t ht
    · next hc =>
      split
      · next h => exact absurd h (g_strsplit_tokens_ne_nil s)
      · next t ts h =>
        rw [h] at ih
        intro u hu
        rcases List.mem_cons.mp hu with rfl | hu
        · intro hm
          rcases List.mem_cons.mp hm with e | hm
          · exact hc e.symm
          · exact ih t (List.mem_cons_self _ _) hm
        · exact ih u (List.mem_cons_of_mem _ hu)

theorem g_strsplit_tokens_intercalate (s : List Char) :
    List.intercalate [','] (g_strsplit_tokens s) = s := by
  induction s with
  | nil => simp [g_strsplit_tokens, List.intercalate]
  | cons c s ih =>
    unfold g_strsplit_tokens
    split
    · next hc =>
      cases h : g_strsplit_tokens s with
      | nil => exact absurd h (g_strsplit_tokens_ne_nil s)
      | cons t ts =>
        rw [h] at ih
        simp only [List.intercalate] at ih ⊢
        simp [List.intersperse, ih, hc]
    · cases h : g_strsplit_tokens s with
      | nil => exact absurd h (g_strsplit_tokens_ne_nil s)
      | cons t ts =>
        rw [h] at ih
        simp only [List.intercalate] at ih ⊢
        cases ts with
        | nil => simpa [List.intersperse] using ih
        | cons t2 ts => simpa [List.intersperse] using ih

theorem main_loop_eq_map (tokens acc : List (List Char)) :
    tokens.foldl (fun loaded plugin => loaded ++ [g_strstrip plugin]) acc
      = acc ++ tokens.map g_strstrip := by
  induction tokens generalizing acc with
  | nil => simp
  | cons t tokens ih => simp [ih]

theorem g_strstrip_decompose (t : List Char) :
    t = t.takeWhile g_ascii_isspace ++ g_strstrip t
      ++ (((t.dropWhile g_ascii_isspace).reverse.takeWhile g_ascii_isspace).reverse) := by
  have h1 := List.takeWhile_append_dropWhile g_ascii_isspace t
  have h2 := List.takeWhile_append_dropWhile g_ascii_isspace
    (t.dropWhile g_ascii_isspace).reverse
  have h3 := congrArg List.reverse h2
  simp only [List.reverse_append, List.reverse_reverse] at h3
  unfold g_strstrip g_strchomp g_strchug
  rw [List.append_assoc, h3, h1]

theorem g_strstrip_ends_not_space (t : List Char) (c : Char) :
    ((g_strstrip t).head? = some c → g_ascii_isspace c = false) ∧
    ((g_strstrip t).getLast? = some c → g_ascii_isspace c = false) := by
  have h2 := List.takeWhile_append_dropWhile g_ascii_isspace
    (t.dropWhile g_ascii_isspace).reverse
  have h3 := congrArg List.reverse h2
  simp only [List.reverse_append, List.reverse_reverse] at h3
  have hu := List.head?_dropWhile_not g_ascii_isspace t
  have hl := List.head?_dropWhile_not g_ascii_isspace (t.dropWhile g_ascii_isspace).reverse
  unfold g_strstrip g_strchomp g_strchug
  constructor
  · intro hc
    have e := congrArg List.head? h3
    rw [List.head?_append, hc] at e
    simp only [Option.or_some] at e
    rw [← e] at hu
    exact hu
  · intro hc
    rw [List.getLast?_reverse] at hc
    rw [hc] at hl
    exact hl

/-- C20: when `--mutter-plugins` is absent `main` loads no plugin.  For every value of the
option `main` calls the plugin manager once per token of `g_strsplit (value, ",", -1)`, in
the order of the tokens, each time with the token stripped by `g_strstrip`.  The tokens are
the comma-separated fields of the value: none contains a comma and, joined left to right with
commas, they give back the value (the empty value has no field).  A stripped token is the
token without a leading and a trailing run of whitespace, and it neither begins nor ends with
whitespace. -/
theorem main_loads_each_stripped_field (value : List Char) :
    main none = [] ∧
    main (some value) = (g_strsplit value).map g_strstrip ∧
    (∀ t ∈ g_strsplit value, ',' ∉ t) ∧
    (if value = [] then g_strsplit value = []
      else List.intercalate [','] (g_strsplit value) = value) ∧
    (∀ t : List Char, ∃ pre post, t = pre ++ g_strstrip t ++ post ∧
      (∀ c ∈ pre, g_ascii_isspace c = true) ∧ (∀ c ∈ post, g_ascii_isspace c = true)) ∧
    (∀ (t : List Char) (c : Char),
      ((g_strstrip t).head? = some c → g_ascii_isspace c = false) ∧
      ((g_strstrip t).getLast? = some c → g_ascii_isspace c = false)) := by
  refine ⟨rfl, ?_, ?_, ?_, fun t => ?_, g_strstrip_ends_not_space⟩
  · simp [main, main_loop_eq_map]
  · unfold g_strsplit
    split
    · simp
    · exact g_strsplit_tokens_no_comma value
  · by_cases hv : value = []
    · simp [hv, g_strsplit]
    · simp only [if_neg hv, g_strsplit]
      exact g_strsplit_tokens_intercalate value
  · refine ⟨_, _, g_strstrip_decompose t, fun c hc => ?_, fun c hc => ?_⟩
    · exact (List.mem_takeWhile_imp hc)
    · exact (List.mem_takeWhile_imp (List.mem_reverse.mp hc))

end Mutter
